import Mathlib

/-
Verification of the bellman bridge
(`src/zokrates_core/src/proof_system/bn128/utils/bellman.rs`).

The bridge translates the flattened IR (`Prog`, `Statement`, `LinComb`,
`Witness`) into a bellman constraint system and serializes the resulting
Groth16 artifacts.  The IR data types live in the repository's `ir` and
`flat_absy` modules, which are not part of `src/`; they are modelled here
from the specification's data model (spec §3).  The bellman
`ConstraintSystem` and the pairing field/point types are external
collaborators; they are modelled from the spec's external-interface
contract (spec §6): allocation hands out sequential public-input or
private-aux handles, evaluates the value-supplying closure only in proving
mode, and field elements render as `Fr(<decimal>)` with a canonical
non-negative decimal rendering.

Rust panics (`unwrap`) are modelled as `Option.none`; a `Result` that the
source returns is modelled as `Except`.  Rust `String::replace` is modelled
as `replaceAll` on `List Char`.
-/

namespace Bellman

/-- Modelled from the spec: the IR wire identifier `FlatVariable` (from
`flat_absy`, not under `src/`).  A variable carries an intrinsic category
tag: the distinguished constant-one variable, a public/output (indexed)
variable, or an internal variable (spec §3 "Variable"). -/
inductive FlatVariable where
  | one
  | output (idx : Nat)
  | internal (idx : Nat)
  deriving DecidableEq

/-- Modelled from the spec: `FlatVariable::is_output` — true exactly on the
public/output category (upstream: negative ids). -/
def FlatVariable.is_output : FlatVariable → Bool
  | .output _ => true
  | _ => false

/-- Field values.  The external `FieldPrime`/`Fr` types are opaque
arbitrary-precision prime-field elements (spec §6); only injection and
decimal rendering are used by the bridge, so values are modelled as `Nat`
and `Fr::from` as the identity. -/
abbrev FValue := Nat

/-- Modelled from the spec: an IR linear combination — an ordered mapping
from variables to coefficients, each variable appearing at most once
(spec §3 "LinComb").  The Rust `LinComb.0` vector of (variable,
coefficient) pairs. -/
abbrev LinComb := List (FlatVariable × FValue)

/-- Modelled from the spec: an IR statement.  Only
`Constraint(quadratic: (left, right), target)` affects circuit
compilation; every other variant (witness-computation directives) is a
no-op for the bridge (spec §3 "Statement").  The quadratic combination's
two linear combinations are inlined as `left` and `right`. -/
inductive Statement where
  | constraint (left right target : LinComb)
  | directive
  deriving DecidableEq

/-- Modelled from the spec: `ir::Function` — id, arguments, return wires
and statements in declaration order (spec §3 "Program"). -/
structure Function where
  id : String
  arguments : List FlatVariable
  returns : List FlatVariable
  statements : List Statement
  deriving DecidableEq

/-- Modelled from the spec: `ir::Prog` — a main function plus the
positionally paired privacy flags of its arguments (spec §3 "Program").
The Rust field is called `private`, which is a reserved word here. -/
structure Prog where
  main : Function
  private_flags : List Bool
  deriving DecidableEq

/-- Modelled from the spec: a witness — a finite mapping from variables to
field values, consumed destructively during synthesis (spec §3
"Witness").  The Rust `Witness.0` BTreeMap, as an association list. -/
abbrev Witness := List (FlatVariable × FValue)

/-- The empty witness (`Witness::empty()`), used by `synthesize` when no
witness is supplied. -/
def Witness.empty : Witness := []

/-- Non-destructive map read (`witness.0.get(&k)`), first matching entry. -/
def wlookup (w : Witness) (k : FlatVariable) : Option FValue :=
  match w with
  | [] => none
  | (k', v) :: rest => if k' = k then some v else wlookup rest k

/-- Remove every entry for `k` from the map (a map holds at most one). -/
def removeKey (w : Witness) (k : FlatVariable) : Witness :=
  match w with
  | [] => []
  | e :: rest => if e.1 = k then removeKey rest k else e :: removeKey rest k

/-- Destructive map read (`witness.0.remove(&k)`): returns the removed
value together with the witness without any entry for `k`, or `none` when
`k` has no entry. -/
def wremove (w : Witness) (k : FlatVariable) : Option (FValue × Witness) :=
  match wlookup w k with
  | none => none
  | some v => some (v, removeKey w k)

/-- A bellman constraint-system handle (`bellman::Variable`): a public
input slot or a private auxiliary slot, identified by allocation index.
Input slot 0 is the built-in constant-one handle `CS::one()`.  Modelled
from the spec's external Proving Backend interface (spec §6). -/
inductive Variable where
  | input (n : Nat)
  | aux (n : Nat)
  deriving DecidableEq

/-- A bellman linear combination (`LinearCombination<Bn256>`), modelled
semantically as the finitely supported coefficient map it denotes;
`zero()` is the constant-zero map and adding a `(coefficient, handle)`
term adds the coefficient at that handle. -/
abbrev BLC := Variable → FValue

/-- The zero backend linear combination (`LinearCombination::zero()`). -/
def BLC.zero : BLC := fun _ => 0

/-- Accumulate one `(coefficient, handle)` term into a backend linear
combination (the `acc + e` of the fold in `bellman_combination`). -/
def BLC.add (acc : BLC) (coeff : FValue) (h : Variable) : BLC :=
  fun hd => if hd = h then acc hd + coeff else acc hd

/-- State of the backend constraint system across one synthesis call.
`evalMode` distinguishes the proving backend (closures are evaluated, as
in `create_random_proof`) from the key-generation backend (closures are
never evaluated, as in `generate_random_parameters`).  `inputLog` and
`allocLog` record the IR variable served by each `alloc_input` / any
allocation, in allocation order: `inputLog.get i` is the variable bound to
public input slot `i + 1` (slot 0 is the constant one).  `closuresRun`
counts evaluations of value-supplying closures. -/
structure CS where
  evalMode : Bool
  nextInput : Nat
  nextAux : Nat
  inputLog : List FlatVariable
  allocLog : List FlatVariable
  constraints : List (BLC × BLC × BLC)
  closuresRun : Nat

/-- A fresh constraint system: input slot 0 is reserved for the constant
one, nothing allocated, no constraints. -/
def CS.init (mode : Bool) : CS :=
  { evalMode := mode, nextInput := 1, nextAux := 0, inputLog := [],
    allocLog := [], constraints := [], closuresRun := 0 }

/-- `cs.alloc_input` / `cs.alloc` with the witness-reading closure used
throughout `bellman.rs`, followed by the source's `.unwrap()`:
in proving mode the closure runs, removes the variable's witness value and
fails (`none`, a panic) when it is absent; in key-generation mode the
closure is never evaluated and allocation always succeeds on structural
information alone. -/
def csAlloc (asInput : Bool) (k : FlatVariable) (cs : CS) (w : Witness) :
    Option (Variable × CS × Witness) :=
  let hnd := if asInput then Variable.input cs.nextInput else Variable.aux cs.nextAux
  let cs' : CS :=
    { cs with
      nextInput := if asInput then cs.nextInput + 1 else cs.nextInput,
      nextAux := if asInput then cs.nextAux else cs.nextAux + 1,
      inputLog := if asInput then cs.inputLog ++ [k] else cs.inputLog,
      allocLog := cs.allocLog ++ [k] }
  if cs.evalMode then
    match wremove w k with
    | none => none
    | some (_, w') => some (hnd, { cs' with closuresRun := cs.closuresRun + 1 }, w')
  else
    some (hnd, cs', w)

/-- The variable-to-handle map `symbols : BTreeMap<FlatVariable, Variable>`
(only lookup/insert are used, so an association list suffices; insertion
prepends, which matches the map's overwrite semantics). -/
abbrev Symbols := List (FlatVariable × Variable)

/-- Map lookup in `symbols`. -/
def Symbols.find (sy : Symbols) (k : FlatVariable) : Option Variable :=
  match sy with
  | [] => none
  | (k', h) :: rest => if k' = k then some h else Symbols.find rest k

/-- Map insert into `symbols` (overwriting semantics). -/
def Symbols.insert (k : FlatVariable) (h : Variable) (sy : Symbols) : Symbols :=
  (k, h) :: sy

/-- The `symbols.entry(k).or_insert_with(...)` resolution step of
`bellman_combination`: a bound variable yields its cached handle and
touches nothing; an unbound one is allocated (`alloc_input` when
`k.is_output()`, `alloc` otherwise), unwrapped, and cached. -/
def resolveVar (k : FlatVariable) (cs : CS) (sy : Symbols) (w : Witness) :
    Option (Variable × CS × Symbols × Witness) :=
  match Symbols.find sy k with
  | some h => some (h, cs, sy, w)
  | none =>
    match csAlloc k.is_output k cs w with
    | none => none
    | some (h, cs', w') => some (h, cs', Symbols.insert k h sy, w')

/-- The fold inside `bellman_combination`: terms are resolved and
accumulated left to right, starting from `acc`. -/
def combLoop (l : LinComb) (acc : BLC) (cs : CS) (sy : Symbols) (w : Witness) :
    Option (BLC × CS × Symbols × Witness) :=
  match l with
  | [] => some (acc, cs, sy, w)
  | (k, v) :: rest =>
    match resolveVar k cs sy w with
    | none => none
    | some (h, cs', sy', w') => combLoop rest (BLC.add acc v h) cs' sy' w'

/-- `bellman_combination`: fold an IR linear combination into a backend
linear combination starting from `LinearCombination::zero()`, resolving
each variable through the symbol map (allocating on first reference). -/
def bellman_combination (l : LinComb) (cs : CS) (sy : Symbols) (w : Witness) :
    Option (BLC × CS × Symbols × Witness) :=
  combLoop l BLC.zero cs sy w

/-- `cs.enforce(.., a, b, c)`: emit one backend equality constraint
`a * b = c`. -/
def csEnforce (a b c : BLC) (cs : CS) : CS :=
  { cs with constraints := cs.constraints ++ [(a, b, c)] }

/-- One iteration of the statement loop in `Prog::synthesize`: a
`Constraint` statement builds its three backend linear combinations (left,
right, target, in that order) and emits one constraint; every other
statement kind does nothing. -/
def processStatement (st : Statement) (cs : CS) (sy : Symbols) (w : Witness) :
    Option (CS × Symbols × Witness) :=
  match st with
  | .constraint left right target =>
    match bellman_combination left cs sy w with
    | none => none
    | some (a, cs1, sy1, w1) =>
      match bellman_combination right cs1 sy1 w1 with
      | none => none
      | some (b, cs2, sy2, w2) =>
        match bellman_combination target cs2 sy2 w2 with
        | none => none
        | some (c, cs3, sy3, w3) => some (csEnforce a b c cs3, sy3, w3)
  | .directive => some (cs, sy, w)

/-- The statement loop of `Prog::synthesize`, in program order. -/
def synthStatements (stmts : List Statement) (cs : CS) (sy : Symbols) (w : Witness) :
    Option (CS × Symbols × Witness) :=
  match stmts with
  | [] => some (cs, sy, w)
  | st :: rest =>
    match processStatement st cs sy w with
    | none => none
    | some (cs', sy', w') => synthStatements rest cs' sy' w'

/-- The argument-allocation loop of `Prog::synthesize`
(`symbols.extend(arguments.zip(private).map(...))`): each `(argument,
private)` pair is allocated unconditionally in declaration order —
`alloc` when private, `alloc_input` when public — unwrapped, and inserted
into the symbol map. -/
def allocArgs (pairs : List (FlatVariable × Bool)) (cs : CS) (sy : Symbols) (w : Witness) :
    Option (CS × Symbols × Witness) :=
  match pairs with
  | [] => some (cs, sy, w)
  | (v, priv) :: rest =>
    match csAlloc (!priv) v cs w with
    | none => none
    | some (hnd, cs', w') => allocArgs rest cs' (Symbols.insert v hnd sy) w'

/-- The bellman `SynthesisError` kind relevant to the bridge. -/
inductive SynthesisError where
  | assignmentMissing
  deriving DecidableEq

/-- `Prog::synthesize`: bind the constant-one variable to `CS::one()`
(input slot 0), allocate the declared arguments in order, then process the
statements.  The Rust return type is `Result<(), SynthesisError>`; a
`none` result is a panic (an `unwrap` of a failed allocation), while the
`Except` value is what the function returns when it returns. -/
def synthesize (p : Prog) (witness : Option Witness) (cs : CS) :
    Option (Except SynthesisError Unit × CS) :=
  match allocArgs (p.main.arguments.zip p.private_flags) cs
      (Symbols.insert FlatVariable.one (Variable.input 0) []) (witness.getD Witness.empty) with
  | none => none
  | some (cs1, sy1, w1) =>
    match synthStatements p.main.statements cs1 sy1 w1 with
    | none => none
    | some (cs2, _, _) => some (Except.ok (), cs2)

/-- `Computation`: a program plus an optional witness (spec §3
"Computation"). -/
structure Computation where
  program : Prog
  witness : Option Witness

/-- `Computation::with_witness`. -/
def Computation.with_witness (p : Prog) (w : Witness) : Computation :=
  { program := p, witness := some w }

/-- `Computation::without_witness`. -/
def Computation.without_witness (p : Prog) : Computation :=
  { program := p, witness := none }

/-- The public arguments of a program in declaration order: the
`arguments.zip(private).filter(|(_, p)| !p).map(|(a, _)| a)` chain of
`public_inputs_values`. -/
def publicArguments (p : Prog) : List FlatVariable :=
  ((p.main.arguments.zip p.private_flags).filter (fun av => !av.2)).map Prod.fst

/-- Sequence an option-producing map over a list, left to right, failing
on the first `none` (the behavior of a Rust iterator of `unwrap`ped
lookups, where hitting a missing entry panics). -/
def optionMapList (f : α → Option β) : List α → Option (List β)
  | [] => some []
  | a :: as_ =>
    match f a with
    | none => none
    | some b =>
      match optionMapList f as_ with
      | none => none
      | some bs => some (b :: bs)

/-- Modelled from the spec: `Witness::return_values` (in `ir`, not under
`src/`) — the assigned values of the output wires `~out_0 ... ~out_(k-1)`
in index order, where `k` is the number of output entries held by the
witness (upstream indexes `0..out.len()` into the output map; indices
absent from the witness are skipped here instead of panicking, and the
claims' hypotheses rule that case out). -/
def Witness.return_values (w : Witness) : List FValue :=
  let k := (w.filter (fun e => e.1.is_output)).length
  (List.range k).filterMap (fun i => wlookup w (FlatVariable.output i))

/-- `Computation::public_inputs_values`: the values of the non-private
arguments in declaration order (each read non-destructively and
`unwrap`ped — a panic, `none`, when absent or when there is no witness),
followed by the witness's return values.  `Fr::from` is the identity in
this model. -/
def public_inputs_values (c : Computation) : Option (List FValue) :=
  match c.witness with
  | none => none
  | some w =>
    match optionMapList (fun v => wlookup w v) (publicArguments c.program) with
    | none => none
    | some pvals => some (pvals ++ Witness.return_values w)

/-- Variables of an IR linear combination, in term order. -/
def lcVars (l : LinComb) : List FlatVariable := l.map Prod.fst

/-- Variables referenced by a statement, in resolution order (left, right,
target for a constraint; none for other statements). -/
def stmtVars : Statement → List FlatVariable
  | .constraint left right target => lcVars left ++ lcVars right ++ lcVars target
  | .directive => []

/-- First references: the sublist of `vs` keeping each variable not in
`bound` at its first occurrence, in order.  This is the allocation order
that a synthesis pass starting with `bound` already bound produces while
resolving `vs` in order. -/
def newRefs (bound : List FlatVariable) : List FlatVariable → List FlatVariable
  | [] => []
  | v :: vs =>
    if v ∈ bound then newRefs bound vs else v :: newRefs (v :: bound) vs

/-- The variables first referenced while processing `stmts`, starting from
`bound` already bound, in first-reference order. -/
def firstRefs (bound : List FlatVariable) (stmts : List Statement) : List FlatVariable :=
  newRefs bound (stmts.flatMap stmtVars)

/-- Key set of the symbol map, as a list. -/
def symKeys (sy : Symbols) : List FlatVariable := sy.map Prod.fst

/-- Whether a statement is a `Constraint` statement. -/
def Statement.isConstraint : Statement → Bool
  | .constraint _ _ _ => true
  | .directive => false

/-- The total coefficient an IR linear combination contributes to backend
handle `hd` under the symbol map `sy`: the sum of the coefficients of its
terms whose variable resolves to `hd`. -/
def termSum (l : LinComb) (sy : Symbols) (hd : Variable) : FValue :=
  ((l.filter (fun kv => Symbols.find sy kv.1 = some hd)).map Prod.snd).sum

/-! Strings.  Rust `String`s are modelled as `List Char`; `String::replace`
as `replaceAll` below. -/

/-- Characters of a string literal. -/
def str (s : String) : List Char := s.data

/-- Decimal digit character for `n` (`n ≥ 9` renders as `'9'`; only
`n < 10` is used). -/
def digitChar : Nat → Char
  | 0 => '0' | 1 => '1' | 2 => '2' | 3 => '3' | 4 => '4'
  | 5 => '5' | 6 => '6' | 7 => '7' | 8 => '8' | _ => '9'

/-- Accumulator loop of the decimal rendering; the first argument is
fuel, always at least the number of digits at every call site. -/
def natDecAux : Nat → Nat → List Char → List Char
  | _, 0, acc => acc
  | 0, _ + 1, acc => acc
  | fuel + 1, n + 1, acc => natDecAux fuel ((n + 1) / 10) (digitChar ((n + 1) % 10) :: acc)

/-- Canonical base-10 rendering of a natural number: no leading zeros, no
sign (the rendering contract of the external `Field`/`Fr` type, spec §6).
-/
def natDec (n : Nat) : List Char :=
  match n with
  | 0 => ['0']
  | n + 1 => natDecAux (n + 1) (n + 1) []

/-- Prefix test (the Rust pattern-matching primitive behind
`String::replace`), written to reduce as soon as the candidate string's
head is known. -/
def isPre : List Char → List Char → Bool
  | [], _ => true
  | q :: qs, s =>
    match s with
    | [] => false
    | c :: cs => (q == c) && isPre qs cs

/-- Fuel-driven loop of `replaceAll`; `fuel` bounds the number of steps
and is always at least the string length at every call site. -/
def replAux (p r : List Char) : Nat → List Char → List Char
  | _, [] => []
  | 0, s => s
  | fuel + 1, c :: cs =>
    if isPre p (c :: cs) then r ++ replAux p r fuel (List.drop (p.length - 1) cs)
    else c :: replAux p r fuel cs

/-- Rust `String::replace(p, r)`: replace every non-overlapping occurrence
of `p`, scanning left to right; replaced text is not rescanned. -/
def replaceAll (p r s : List Char) : List Char := replAux p r s.length s

/-- A bn128 base-field (`Fq`) coordinate as the external pairing library
renders it: an abstract numeral string (spec §6 treats the field as an
external collaborator with a canonical rendering). -/
abbrev Coord := List Char

/-- A G1 point of the external pairing library, by its displayed
coordinates. -/
structure G1Point where
  x : Coord
  y : Coord
  deriving DecidableEq

/-- A G2 point of the external pairing library, by its displayed
coordinates (each coordinate is an `Fq2` element `c0 + c1 * u`). -/
structure G2Point where
  x0 : Coord
  x1 : Coord
  y0 : Coord
  y1 : Coord
  deriving DecidableEq

/-- Modelled from the spec: the pairing library's `Display` for a G1
point, `G1(x=Fq(..), y=Fq(..))` (the generic point printer whose output
the serializers pattern-substitute, spec §4.5). -/
def G1Point.display (p : G1Point) : List Char :=
  str "G1(x=Fq(" ++ (p.x ++ (str "), y=Fq(" ++ (p.y ++ str "))")))

/-- Modelled from the spec: the pairing library's `Display` for a G2
point, `G2(x=Fq2(Fq(..) + Fq(..) * u), y=Fq2(Fq(..) + Fq(..) * u))`. -/
def G2Point.display (p : G2Point) : List Char :=
  str "G2(x=Fq2(Fq(" ++
    (p.x0 ++ (str ") + Fq(" ++ (p.x1 ++ (str ") * u), y=Fq2(Fq(" ++
      (p.y0 ++ (str ") + Fq(" ++ (p.y1 ++ str ") * u))")))))))

/-- Modelled from the spec: the `Display` of an `Fr` scalar,
`Fr(<canonical decimal>)` (spec §6: canonical non-negative decimal
rendering). -/
def frDisplay (v : FValue) : List Char :=
  str "Fr(" ++ (natDec v ++ str ")")

/-- The `Verifying Key` fields used by `serialize_vk` (the bellman
`VerifyingKey<Bn256>` has further fields the serializer does not read). -/
structure VerifyingKey where
  alpha_g1 : G1Point
  beta_g2 : G2Point
  gamma_g2 : G2Point
  delta_g2 : G2Point
  ic : List G1Point

/-- A Groth16 proof as `serialize_proof` reads it. -/
structure BProof where
  a : G1Point
  b : G2Point
  c : G1Point

/-- The `vk.gammaABC[i] = {}` lines: `ic` points enumerated from `i`,
rendered one per line by `g` and joined with a newline (Rust
`.enumerate().map(..).join("\n")`, abstracted over the point rendering so
the intermediate replacement stages share this shape). -/
def icMid (g : G1Point → List Char) (i : Nat) : List G1Point → List Char
  | [] => []
  | [x] => str "vk.gammaABC[" ++ (natDec i ++ (str "] = " ++ g x))
  | x :: xs =>
    str "vk.gammaABC[" ++
      (natDec i ++ (str "] = " ++ (g x ++ (str "\n" ++ icMid g (i + 1) xs))))

/-- The fixed frame of the verifying-key text around the four component
renderings, the count and the basis-point block. -/
def vkBody (a b g d n i : List Char) : List Char :=
  str "vk.alpha = " ++
    (a ++ (str "\nvk.beta = " ++
      (b ++ (str "\nvk.gamma = " ++
        (g ++ (str "\nvk.delta = " ++
          (d ++ (str "\nvk.gammaABC.len() = " ++
            (n ++ (str "\n" ++ i))))))))))

/-- The string built by `serialize_vk`'s `format!` before the replacement
chain. -/
def vkRaw (vk : VerifyingKey) : List Char :=
  vkBody vk.alpha_g1.display vk.beta_g2.display vk.gamma_g2.display vk.delta_g2.display
    (natDec vk.ic.length) (icMid G1Point.display 0 vk.ic)

/-- `serialize_vk`: the `format!` text run through the source's chain of
seven `String::replace` calls, in order. -/
def serialize_vk (vk : VerifyingKey) : List Char :=
  replaceAll (str ") * u]") (str "]]")
    (replaceAll (str ") * u), y=Fq2(Fq(") (str "], [")
      (replaceAll (str "))") (str "]")
        (replaceAll (str ") + Fq(") (str ", ")
          (replaceAll (str "G1(x=Fq(") (str "[")
            (replaceAll (str "), y=Fq(") (str ", ")
              (replaceAll (str "G2(x=Fq2(Fq(") (str "[[") (vkRaw vk)))))))

/-- The `inputs` fragment of `serialize_proof`'s `format!`: each input
rendered as `"{}"` of its `Fr` display, joined with `", "`. -/
def quotedInputs : List FValue → List Char
  | [] => []
  | [v] => '"' :: (frDisplay v ++ ['"'])
  | v :: vs => '"' :: (frDisplay v ++ ('"' :: (',' :: (' ' :: quotedInputs vs))))

/-- The fixed frame of the proof text around the three point renderings
and the inputs block. -/
def proofBody (a b c j : List Char) : List Char :=
  str "\x7b\n    \"proof\": \x7b\n        \"a\": " ++
    (a ++ (str ",\n        \"b\": " ++
      (b ++ (str ",\n        \"c\": " ++
        (c ++ (str "\n    \x7d,\n    \"inputs\": [" ++
          (j ++ str "]\n\x7d")))))))

/-- The string built by `serialize_proof`'s `format!` before the
replacement chain. -/
def proofRaw (p : BProof) (inputs : List FValue) : List Char :=
  proofBody p.a.display p.b.display p.c.display (quotedInputs inputs)

/-- `serialize_proof`: the `format!` text run through the source's chain
of ten `String::replace` calls, in order. -/
def serialize_proof (p : BProof) (inputs : List FValue) : List Char :=
  replaceAll (str ")") []
    (replaceAll (str "Fr(") []
      (replaceAll (str "))") (str "\"]")
        (replaceAll (str ") * u))") (str "\"]]")
          (replaceAll (str ") * u]") (str "\"]]")
            (replaceAll (str ") * u), y=Fq2(Fq(") (str "\"], [\"")
              (replaceAll (str ") + Fq(") (str "\", \"")
                (replaceAll (str "G1(x=Fq(") (str "[\"")
                  (replaceAll (str "), y=Fq(") (str "\", \"")
                    (replaceAll (str "G2(x=Fq2(Fq(") (str "[[\"")
                      (proofRaw p inputs))))))))))

/-! Claim-side renderings: the output shapes the specification describes,
built directly from the structured coordinates. -/

/-- A G1 point in the verifying-key text's `[x, y]` shape. -/
def g1Bracket (p : G1Point) : List Char :=
  str "[" ++ (p.x ++ (str ", " ++ (p.y ++ str "]")))

/-- A G2 point in the verifying-key text's `[[x0, x1], [y0, y1]]` shape. -/
def g2Bracket (p : G2Point) : List Char :=
  str "[[" ++ (p.x0 ++ (str ", " ++ (p.x1 ++ (str "], [" ++
    (p.y0 ++ (str ", " ++ (p.y1 ++ str "]]")))))))

/-- A G1 point in the proof JSON's `["x", "y"]` shape. -/
def g1Quoted (p : G1Point) : List Char :=
  str "[\"" ++ (p.x ++ (str "\", \"" ++ (p.y ++ str "\"]")))

/-- A G2 point in the proof JSON's `[["x0", "x1"], ["y0", "y1"]]` shape. -/
def g2Quoted (p : G2Point) : List Char :=
  str "[[\"" ++ (p.x0 ++ (str "\", \"" ++ (p.x1 ++ (str "\"], [\"" ++
    (p.y0 ++ (str "\", \"" ++ (p.y1 ++ str "\"]]")))))))

/-- The proof JSON's `inputs` list: each public input as a quoted
canonical decimal, in the order of the vector passed in. -/
def jsonInputs : List FValue → List Char
  | [] => []
  | [v] => '"' :: (natDec v ++ ['"'])
  | v :: vs => '"' :: (natDec v ++ ('"' :: (',' :: (' ' :: jsonInputs vs))))

/-- The proof text shape asserted by the specification (§4.5): a JSON
object with the three proof points and the quoted decimal inputs in
order. -/
def proofJson (p : BProof) (inputs : List FValue) : List Char :=
  proofBody (g1Quoted p.a) (g2Quoted p.b) (g1Quoted p.c) (jsonInputs inputs)

/-- The verifying-key text in its final shape: one line per key component
in the order alpha, beta, gamma, delta, then the basis-point count, then
one indexed line per basis point. -/
def vkText (vk : VerifyingKey) : List Char :=
  vkBody (g1Bracket vk.alpha_g1) (g2Bracket vk.beta_g2) (g2Bracket vk.gamma_g2)
    (g2Bracket vk.delta_g2) (natDec vk.ic.length) (icMid g1Bracket 0 vk.ic)

/-! Intermediate point renderings produced by the replacement chains. -/

/-- `serialize_proof` stage of a G1 point after the `), y=Fq(` pass. -/
def g1Pass2 (p : G1Point) : List Char :=
  str "G1(x=Fq(" ++ (p.x ++ (str "\", \"" ++ (p.y ++ str "))")))

/-- `serialize_proof` stage of a G1 point after the `G1(x=Fq(` pass. -/
def g1Pass3 (p : G1Point) : List Char :=
  str "[\"" ++ (p.x ++ (str "\", \"" ++ (p.y ++ str "))")))

/-- `serialize_proof` stage of a G2 point after the `G2(x=Fq2(Fq(` pass. -/
def g2Pass1 (p : G2Point) : List Char :=
  str "[[\"" ++ (p.x0 ++ (str ") + Fq(" ++ (p.x1 ++ (str ") * u), y=Fq2(Fq(" ++
    (p.y0 ++ (str ") + Fq(" ++ (p.y1 ++ str ") * u))")))))))

/-- `serialize_proof` stage of a G2 point after the `) + Fq(` pass. -/
def g2Pass4 (p : G2Point) : List Char :=
  str "[[\"" ++ (p.x0 ++ (str "\", \"" ++ (p.x1 ++ (str ") * u), y=Fq2(Fq(" ++
    (p.y0 ++ (str "\", \"" ++ (p.y1 ++ str ") * u))")))))))

/-- `serialize_proof` stage of a G2 point after the `) * u), y=Fq2(Fq(`
pass. -/
def g2Pass5 (p : G2Point) : List Char :=
  str "[[\"" ++ (p.x0 ++ (str "\", \"" ++ (p.x1 ++ (str "\"], [\"" ++
    (p.y0 ++ (str "\", \"" ++ (p.y1 ++ str ") * u))")))))))

/-- `serialize_proof` stage of the inputs block after the `Fr(` pass. -/
def inputsNoFr : List FValue → List Char
  | [] => []
  | [v] => '"' :: (natDec v ++ (str ")" ++ ['"']))
  | v :: vs => '"' :: (natDec v ++ (str ")" ++ ('"' :: (',' :: (' ' :: inputsNoFr vs)))))

/-- `serialize_vk` stage of a G1 point after the `), y=Fq(` pass. -/
def g1V2 (p : G1Point) : List Char :=
  str "G1(x=Fq(" ++ (p.x ++ (str ", " ++ (p.y ++ str "))")))

/-- `serialize_vk` stage of a G1 point after the `G1(x=Fq(` pass. -/
def g1V3 (p : G1Point) : List Char :=
  str "[" ++ (p.x ++ (str ", " ++ (p.y ++ str "))")))

/-- `serialize_vk` stage of a G2 point after the `G2(x=Fq2(Fq(` pass. -/
def g2V1 (p : G2Point) : List Char :=
  str "[[" ++ (p.x0 ++ (str ") + Fq(" ++ (p.x1 ++ (str ") * u), y=Fq2(Fq(" ++
    (p.y0 ++ (str ") + Fq(" ++ (p.y1 ++ str ") * u))")))))))

/-- `serialize_vk` stage of a G2 point after the `) + Fq(` pass. -/
def g2V4 (p : G2Point) : List Char :=
  str "[[" ++ (p.x0 ++ (str ", " ++ (p.x1 ++ (str ") * u), y=Fq2(Fq(" ++
    (p.y0 ++ (str ", " ++ (p.y1 ++ str ") * u))")))))))

/-- `serialize_vk` stage of a G2 point after the `))` pass. -/
def g2V5 (p : G2Point) : List Char :=
  str "[[" ++ (p.x0 ++ (str ", " ++ (p.x1 ++ (str ") * u), y=Fq2(Fq(" ++
    (p.y0 ++ (str ", " ++ (p.y1 ++ str ") * u]")))))))

/-- `serialize_vk` stage of a G2 point after the `) * u), y=Fq2(Fq(`
pass. -/
def g2V6 (p : G2Point) : List Char :=
  str "[[" ++ (p.x0 ++ (str ", " ++ (p.x1 ++ (str "], [" ++
    (p.y0 ++ (str ", " ++ (p.y1 ++ str ") * u]")))))))

/-- Modelled from the claim under examination (C8), for comparison with
the source's behavior: the verifying-key text with its component lines in
the order alpha, delta, beta, gamma. -/
def vkTextClaimOrder (vk : VerifyingKey) : List Char :=
  str "vk.alpha = " ++
    (g1Bracket vk.alpha_g1 ++ (str "\nvk.delta = " ++
      (g2Bracket vk.delta_g2 ++ (str "\nvk.beta = " ++
        (g2Bracket vk.beta_g2 ++ (str "\nvk.gamma = " ++
          (g2Bracket vk.gamma_g2 ++ (str "\nvk.gammaABC.len() = " ++
            (natDec vk.ic.length ++ (str "\n" ++ icMid g1Bracket 0 vk.ic))))))))))

/-- Split a string into its lines (at `'\n'`). -/
def linesOf (s : List Char) : List (List Char) :=
  match s with
  | [] => [[]]
  | c :: cs =>
    if c = '\n' then [] :: linesOf cs
    else
      match linesOf cs with
      | [] => [[c]]
      | l :: ls => (c :: l) :: ls

/-! Pattern-scan bookkeeping for the replacement chains.  A serializer
input is a concatenation of concrete literal segments and abstract numeral
segments; `check` below verifies, against one replacement pattern, that
every occurrence of the pattern in such a string is one of the designated
ones, so that a whole `String::replace` pass can be computed
symbolically. -/

/-- Characters that may appear in an abstract numeral segment (decimal or
hexadecimal digits of the external field renderings).  No replacement
pattern of the serializers starts with such a character. -/
def SafeChar (c : Char) : Bool :=
  c.isDigit || (('a' ≤ c) && (c ≤ 'f')) || c == 'x'

/-- A nonempty string of numeral characters. -/
def GoodStr (s : List Char) : Prop :=
  s ≠ [] ∧ ∀ c ∈ s, SafeChar c = true

instance decidableGoodStr (s : List Char) : Decidable (GoodStr s) :=
  inferInstanceAs (Decidable (s ≠ [] ∧ ∀ c ∈ s, SafeChar c = true))

/-- One segment of a serializer string: a concrete literal, an abstract
numeral segment, or a designated occurrence of the replacement pattern. -/
inductive Item where
  | lit (s : List Char)
  | hole (s : List Char)
  | hit

/-- The string a segment list denotes, with `hit` standing for the
pattern `p`. -/
def expandA (p : List Char) : List Item → List Char
  | [] => []
  | .lit s :: rest => s ++ expandA p rest
  | .hole s :: rest => s ++ expandA p rest
  | .hit :: rest => p ++ expandA p rest

/-- The string a segment list denotes after replacement, with `hit`
standing for the replacement `r`. -/
def expandB (r : List Char) : List Item → List Char
  | [] => []
  | .lit s :: rest => s ++ expandB r rest
  | .hole s :: rest => s ++ expandB r rest
  | .hit :: rest => r ++ expandB r rest

/-- Well-formedness of a segment list: every numeral segment is a
nonempty numeral string. -/
def SkelOK : List Item → Prop
  | [] => True
  | .hole s :: rest => GoodStr s ∧ SkelOK rest
  | _ :: rest => SkelOK rest

/-- Fuel bound for the candidate-match scan over a segment list. -/
def itemsFuel (p : List Char) : List Item → Nat
  | [] => 0
  | .lit s :: rest => s.length + 1 + itemsFuel p rest
  | .hole _ :: rest => 1 + itemsFuel p rest
  | .hit :: rest => p.length + 1 + itemsFuel p rest

/-- Candidate-match scan: `diesF p fuel pat cs items = true` certifies
that the pattern remainder `pat` mismatches the string `cs ++ expandA p
items ++ t` for every continuation `t` and every choice of numeral
segments — the candidate occurrence provably dies.  A numeral segment can
only be reached with a non-numeral pattern character (its first character
settles the mismatch); exhausting fuel, the segment list, or the pattern
itself yields `false` (no certificate). -/
def diesF (p : List Char) : Nat → List Char → List Char → List Item → Bool
  | _, [], _, _ => false
  | 0, _ :: _, _, _ => false
  | fuel + 1, q :: qs, c :: cs, items =>
    if q = c then diesF p fuel qs cs items else true
  | _ + 1, _ :: _, [], [] => false
  | fuel + 1, q :: qs, [], .lit s :: rest => diesF p fuel (q :: qs) s rest
  | _ + 1, q :: _, [], .hole _ :: _ => !SafeChar q
  | fuel + 1, q :: qs, [], .hit :: rest => diesF p fuel (q :: qs) p rest

/-- Candidate-match scan with sufficient fuel. -/
def dies (p pat cs : List Char) (items : List Item) : Bool :=
  diesF p (pat.length + cs.length + itemsFuel p items + 1) pat cs items

/-- Certify that no occurrence of `p` starts at any position of the
literal segment `s` (continued by `items`). -/
def scanLit (p : List Char) : List Char → List Item → Bool
  | [], _ => true
  | c :: cs, items => dies p p (c :: cs) items && scanLit p cs items

/-- Certify that scanning `expandA p items` matches `p` exactly at the
`hit` segments: candidates starting inside literals die, numeral segments
are opaque to the pattern, and every candidate resolves without looking
past the end of the segment list. -/
def check (p : List Char) : List Item → Bool
  | [] => true
  | .lit s :: rest => scanLit p s rest && check p rest
  | .hole _ :: rest => check p rest
  | .hit :: rest => check p rest

/-- Erase the abstract numeral payloads of a segment list; the scan
functions never read them, so `check` is invariant under this map and can
be evaluated on the erased, fully concrete list. -/
def shapeOf : List Item → List Item
  | [] => []
  | .hole _ :: rest => .hole [] :: shapeOf rest
  | it :: rest => it :: shapeOf rest

/-! Concrete example data, used by the witness theorems. -/

/-- Example program: two private/public arguments with non-contiguous raw
indices, two constraints writing the two output wires (the shape of the
source's `unordered_variables` test). -/
def progEx : Prog :=
  { main :=
      { id := "main",
        arguments := [FlatVariable.internal 42, FlatVariable.internal 51],
        returns := [FlatVariable.output 0, FlatVariable.output 1],
        statements :=
          [Statement.constraint [(FlatVariable.one, 1)]
            [(FlatVariable.internal 42, 1), (FlatVariable.internal 51, 1)]
            [(FlatVariable.output 0, 1)],
          Statement.directive,
          Statement.constraint [(FlatVariable.one, 1)]
            [(FlatVariable.one, 1), (FlatVariable.internal 42, 1)]
            [(FlatVariable.output 1, 1)]] },
    private_flags := [true, false] }

/-- A witness solving `progEx` on arguments `42 ↦ 3`, `51 ↦ 4`. -/
def wEx : Witness :=
  [(FlatVariable.internal 42, 3), (FlatVariable.internal 51, 4),
   (FlatVariable.output 0, 7), (FlatVariable.output 1, 4)]

/-- The constraint system produced by synthesizing `progEx` in
key-generation mode. -/
def csEx : CS :=
  ((synthesize progEx none (CS.init false)).map Prod.snd).getD (CS.init false)

/-- The constraint system produced by synthesizing `progEx` in proving
mode with `wEx`. -/
def csExP : CS :=
  ((synthesize progEx (some wEx) (CS.init true)).map Prod.snd).getD (CS.init true)

/-- Example verifying key with pairwise distinct coordinate renderings. -/
def vkEx : VerifyingKey :=
  { alpha_g1 := ⟨str "1", str "2"⟩,
    beta_g2 := ⟨str "3", str "4", str "5", str "6"⟩,
    gamma_g2 := ⟨str "7", str "8", str "9", str "10"⟩,
    delta_g2 := ⟨str "11", str "12", str "13", str "14"⟩,
    ic := [⟨str "15", str "16"⟩, ⟨str "17", str "18"⟩] }

/-- Example proof points. -/
def pfEx : BProof :=
  { a := ⟨str "11", str "12"⟩,
    b := ⟨str "21", str "22", str "23", str "24"⟩,
    c := ⟨str "31", str "32"⟩ }

/-! Basic facts about the witness and symbol maps. -/

theorem wlookup_removeKey_self (w : Witness) (k : FlatVariable) :
    wlookup (removeKey w k) k = none := by
  induction w with
  | nil => rfl
  | cons e rest ih =>
    by_cases h : e.1 = k
    · simpa [removeKey, h] using ih
    · simp [removeKey, h, wlookup, ih]

theorem wremove_eq_some (w : Witness) (k : FlatVariable) (v : FValue) (w' : Witness)
    (h : wremove w k = some (v, w')) :
    wlookup w k = some v ∧ w' = removeKey w k := by
  unfold wremove at h
  cases hw : wlookup w k <;> rw [hw] at h <;> simp_all

theorem find_isSome_iff_mem (sy : Symbols) (k : FlatVariable) :
    (Symbols.find sy k).isSome ↔ k ∈ symKeys sy := by
  induction sy with
  | nil => simp [Symbols.find, symKeys]
  | cons e rest ih =>
    by_cases h : e.1 = k
    · simp [Symbols.find, symKeys, h]
    · simp only [Symbols.find, symKeys, List.map_cons, List.mem_cons, h, if_false]
      rw [symKeys] at ih
      rw [ih]
      constructor
      · exact Or.inr
      · rintro (rfl | hk)
        · exact absurd rfl h
        · exact hk

theorem find_eq_none_iff (sy : Symbols) (k : FlatVariable) :
    Symbols.find sy k = none ↔ k ∉ symKeys sy := by
  rw [← find_isSome_iff_mem]
  cases Symbols.find sy k <;> simp

/-! Characterization of the backend allocation step. -/

theorem csAlloc_some (asInput : Bool) (k : FlatVariable) (cs : CS) (w : Witness)
    (h : Variable) (cs' : CS) (w' : Witness)
    (hrun : csAlloc asInput k cs w = some (h, cs', w')) :
    cs'.allocLog = cs.allocLog ++ [k] ∧
    cs'.inputLog = (if asInput then cs.inputLog ++ [k] else cs.inputLog) ∧
    cs'.constraints = cs.constraints ∧
    cs'.evalMode = cs.evalMode := by
  unfold csAlloc at hrun
  by_cases hm : cs.evalMode
  · rw [if_pos hm] at hrun
    cases hw : wremove w k <;> rw [hw] at hrun
    · exact absurd hrun (by simp)
    · simp only [Option.some.injEq, Prod.mk.injEq] at hrun
      obtain ⟨-, h2, -⟩ := hrun
      subst h2
      simp
  · rw [if_neg hm] at hrun
    simp only [Option.some.injEq, Prod.mk.injEq] at hrun
    obtain ⟨-, h2, -⟩ := hrun
    subst h2
    simp

theorem csAlloc_keygen (asInput : Bool) (k : FlatVariable) (cs : CS) (w : Witness)
    (hm : cs.evalMode = false) :
    csAlloc asInput k cs w = some
      (if asInput then Variable.input cs.nextInput else Variable.aux cs.nextAux,
       { cs with
         nextInput := if asInput then cs.nextInput + 1 else cs.nextInput,
         nextAux := if asInput then cs.nextAux else cs.nextAux + 1,
         inputLog := if asInput then cs.inputLog ++ [k] else cs.inputLog,
         allocLog := cs.allocLog ++ [k] }, w) := by
  unfold csAlloc
  rw [hm]
  rfl

theorem csAlloc_eval (asInput : Bool) (k : FlatVariable) (cs : CS) (w : Witness)
    (h : Variable) (cs' : CS) (w' : Witness) (hm : cs.evalMode = true)
    (hrun : csAlloc asInput k cs w = some (h, cs', w')) :
    (∃ v, wlookup w k = some v) ∧ w' = removeKey w k := by
  unfold csAlloc at hrun
  rw [if_pos hm] at hrun
  cases hw : wremove w k <;> rw [hw] at hrun
  · exact absurd hrun (by simp)
  · rename_i p
    obtain ⟨v, w''⟩ := p
    obtain ⟨hl, hf⟩ := wremove_eq_some w k v w'' hw
    simp only [Option.some.injEq, Prod.mk.injEq] at hrun
    obtain ⟨-, -, h3⟩ := hrun
    exact ⟨⟨v, hl⟩, h3 ▸ hf⟩

/-! Characterization of variable resolution (`symbols.entry(k).or_insert_with`). -/

theorem resolveVar_found (k : FlatVariable) (cs : CS) (sy : Symbols) (w : Witness)
    (h : Variable) (hf : Symbols.find sy k = some h) :
    resolveVar k cs sy w = some (h, cs, sy, w) := by
  unfold resolveVar
  rw [hf]

theorem resolveVar_binds (k : FlatVariable) (cs : CS) (sy : Symbols) (w : Witness)
    (h : Variable) (cs' : CS) (sy' : Symbols) (w' : Witness)
    (hrun : resolveVar k cs sy w = some (h, cs', sy', w')) :
    Symbols.find sy' k = some h := by
  unfold resolveVar at hrun
  cases hf : Symbols.find sy k <;> rw [hf] at hrun
  · cases ha : csAlloc k.is_output k cs w <;> rw [ha] at hrun
    · exact absurd hrun (by simp)
    · simp only [Option.some.injEq, Prod.mk.injEq] at hrun
      obtain ⟨h1, -, h3, -⟩ := hrun
      subst h3
      simp [Symbols.insert, Symbols.find, h1]
  · simp only [Option.some.injEq, Prod.mk.injEq] at hrun
    obtain ⟨h1, -, h3, -⟩ := hrun
    subst h3
    exact h1 ▸ hf

/-- Claim C3 — within a single synthesis call each IR variable is
allocated at most one backend handle: a successful resolution leaves the
variable bound, so resolving it again returns the cached handle and
touches neither the constraint system, the symbol map, nor the witness;
a first resolution of an unbound variable in proving mode consumes the
variable's witness value and leaves no value behind to consume again; and
a resolution of an already-bound variable changes nothing at all. -/
theorem c3_single_allocation (k : FlatVariable) (cs : CS) (sy : Symbols) (w : Witness)
    (h : Variable) (cs' : CS) (sy' : Symbols) (w' : Witness)
    (hrun : resolveVar k cs sy w = some (h, cs', sy', w')) :
    resolveVar k cs' sy' w' = some (h, cs', sy', w') ∧
    (Symbols.find sy k = none → cs.evalMode = true →
      (∃ v, wlookup w k = some v) ∧ wlookup w' k = none) ∧
    (∀ h0, Symbols.find sy k = some h0 →
      h = h0 ∧ cs' = cs ∧ sy' = sy ∧ w' = w) := by
  refine ⟨resolveVar_found k cs' sy' w' h (resolveVar_binds k cs sy w h cs' sy' w' hrun), ?_, ?_⟩
  · intro hn hm
    unfold resolveVar at hrun
    rw [hn] at hrun
    cases ha : csAlloc k.is_output k cs w <;> rw [ha] at hrun
    · exact absurd hrun (by simp)
    · rename_i p
      obtain ⟨h1, cs1, w1⟩ := p
      obtain ⟨⟨v, hv⟩, hw⟩ := csAlloc_eval k.is_output k cs w h1 cs1 w1 hm ha
      simp only [Option.some.injEq, Prod.mk.injEq] at hrun
      obtain ⟨-, -, -, h4⟩ := hrun
      subst h4
      exact ⟨⟨v, hv⟩, hw ▸ wlookup_removeKey_self w k⟩
  · intro h0 hf
    rw [resolveVar_found k cs sy w h0 hf] at hrun
    simp only [Option.some.injEq, Prod.mk.injEq] at hrun
    obtain ⟨h1, h2, h3, h4⟩ := hrun
    exact ⟨h1.symm, h2.symm, h3.symm, h4.symm⟩

/-- Witness for C3 at a concrete first resolution. -/
theorem c3_single_allocation_witness :
    resolveVar (FlatVariable.internal 42) (CS.init true) [] wEx =
      some (Variable.aux 0,
        { evalMode := true, nextInput := 1, nextAux := 1, inputLog := [],
          allocLog := [FlatVariable.internal 42], constraints := [], closuresRun := 1 },
        [(FlatVariable.internal 42, Variable.aux 0)],
        [(FlatVariable.internal 51, 4), (FlatVariable.output 0, 7), (FlatVariable.output 1, 4)]) ∧
    resolveVar (FlatVariable.internal 42)
        { evalMode := true, nextInput := 1, nextAux := 1, inputLog := [],
          allocLog := [FlatVariable.internal 42], constraints := [], closuresRun := 1 }
        [(FlatVariable.internal 42, Variable.aux 0)]
        [(FlatVariable.internal 51, 4), (FlatVariable.output 0, 7), (FlatVariable.output 1, 4)] =
      some (Variable.aux 0,
        { evalMode := true, nextInput := 1, nextAux := 1, inputLog := [],
          allocLog := [FlatVariable.internal 42], constraints := [], closuresRun := 1 },
        [(FlatVariable.internal 42, Variable.aux 0)],
        [(FlatVariable.internal 51, 4), (FlatVariable.output 0, 7), (FlatVariable.output 1, 4)]) :=
  ⟨rfl,
    (c3_single_allocation (FlatVariable.internal 42) (CS.init true) [] wEx
      (Variable.aux 0)
      { evalMode := true, nextInput := 1, nextAux := 1, inputLog := [],
        allocLog := [FlatVariable.internal 42], constraints := [], closuresRun := 1 }
      [(FlatVariable.internal 42, Variable.aux 0)]
      [(FlatVariable.internal 51, 4), (FlatVariable.output 0, 7), (FlatVariable.output 1, 4)]
      rfl).1⟩

/-! Failure behavior of `public_inputs_values`. -/

theorem optionMapList_none (f : α → Option β) (l : List α) (a : α)
    (ha : a ∈ l) (hf : f a = none) : optionMapList f l = none := by
  induction l with
  | nil => cases ha
  | cons b rest ih =>
    rcases List.mem_cons.mp ha with rfl | hmem
    · simp [optionMapList, hf]
    · unfold optionMapList
      cases f b
      · rfl
      · rw [ih hmem]

/-- Claim C9 — `public_inputs_values` panics (`none`) rather than
returning a partial vector: on a computation built without a witness it
always fails, and on one whose witness lacks an entry for some public
argument it also fails. -/
theorem c9_public_inputs_panics :
    (∀ p, public_inputs_values (Computation.without_witness p) = none) ∧
    (∀ p w, (∃ a ∈ publicArguments p, wlookup w a = none) →
      public_inputs_values (Computation.with_witness p w) = none) := by
  constructor
  · intro p
    rfl
  · intro p w ⟨a, ha, hn⟩
    unfold public_inputs_values
    simp only [Computation.with_witness]
    rw [optionMapList_none (fun v => wlookup w v) (publicArguments p) a ha hn]

/-- Witness for C9: the missing-entry failure at a concrete input. -/
theorem c9_public_inputs_panics_witness :
    (∃ a ∈ publicArguments progEx, wlookup [] a = none) ∧
    public_inputs_values (Computation.with_witness progEx []) = none :=
  ⟨by decide, c9_public_inputs_panics.2 progEx [] (by decide)⟩

/-! Key-generation mode: closures are never evaluated and synthesis never
fails. -/

theorem resolveVar_keygen (k : FlatVariable) (cs : CS) (sy : Symbols) (w : Witness)
    (hm : cs.evalMode = false) :
    ∃ h cs' sy', resolveVar k cs sy w = some (h, cs', sy', w) ∧
      cs'.closuresRun = cs.closuresRun ∧ cs'.evalMode = false := by
  unfold resolveVar
  cases hf : Symbols.find sy k
  · rw [csAlloc_keygen k.is_output k cs w hm]
    exact ⟨_, _, _, rfl, rfl, hm⟩
  · exact ⟨_, _, _, rfl, rfl, hm⟩

theorem combLoop_keygen (l : LinComb) :
    ∀ acc cs sy (w : Witness), cs.evalMode = false →
    ∃ B cs' sy', combLoop l acc cs sy w = some (B, cs', sy', w) ∧
      cs'.closuresRun = cs.closuresRun ∧ cs'.evalMode = false := by
  induction l with
  | nil =>
    intro acc cs sy w hm
    exact ⟨acc, cs, sy, rfl, rfl, hm⟩
  | cons kv rest ih =>
    intro acc cs sy w hm
    obtain ⟨k, v⟩ := kv
    obtain ⟨h, cs1, sy1, hres, hc1, hm1⟩ := resolveVar_keygen k cs sy w hm
    obtain ⟨B, cs2, sy2, hloop, hc2, hm2⟩ := ih (BLC.add acc v h) cs1 sy1 w hm1
    refine ⟨B, cs2, sy2, ?_, hc2.trans hc1, hm2⟩
    unfold combLoop
    rw [hres]
    exact hloop

theorem processStatement_keygen (st : Statement) (cs : CS) (sy : Symbols) (w : Witness)
    (hm : cs.evalMode = false) :
    ∃ cs' sy', processStatement st cs sy w = some (cs', sy', w) ∧
      cs'.closuresRun = cs.closuresRun ∧ cs'.evalMode = false := by
  cases st with
  | directive => exact ⟨cs, sy, rfl, rfl, hm⟩
  | constraint left right target =>
    obtain ⟨a, cs1, sy1, h1, hc1, hm1⟩ := combLoop_keygen left BLC.zero cs sy w hm
    obtain ⟨b, cs2, sy2, h2, hc2, hm2⟩ := combLoop_keygen right BLC.zero cs1 sy1 w hm1
    obtain ⟨c, cs3, sy3, h3, hc3, hm3⟩ := combLoop_keygen target BLC.zero cs2 sy2 w hm2
    refine ⟨csEnforce a b c cs3, sy3, ?_, ?_, hm3⟩
    · simp only [processStatement, bellman_combination, h1, h2, h3]
    · simpa [csEnforce, hc3, hc2] using hc1

theorem synthStatements_keygen (stmts : List Statement) :
    ∀ cs sy (w : Witness), cs.evalMode = false →
    ∃ cs' sy', synthStatements stmts cs sy w = some (cs', sy', w) ∧
      cs'.closuresRun = cs.closuresRun ∧ cs'.evalMode = false := by
  induction stmts with
  | nil =>
    intro cs sy w hm
    exact ⟨cs, sy, rfl, rfl, hm⟩
  | cons st rest ih =>
    intro cs sy w hm
    obtain ⟨cs1, sy1, h1, hc1, hm1⟩ := processStatement_keygen st cs sy w hm
    obtain ⟨cs2, sy2, h2, hc2, hm2⟩ := ih cs1 sy1 w hm1
    refine ⟨cs2, sy2, ?_, hc2.trans hc1, hm2⟩
    unfold synthStatements
    rw [h1]
    exact h2

theorem allocArgs_keygen (pairs : List (FlatVariable × Bool)) :
    ∀ cs sy (w : Witness), cs.evalMode = false →
    ∃ cs' sy', allocArgs pairs cs sy w = some (cs', sy', w) ∧
      cs'.closuresRun = cs.closuresRun ∧ cs'.evalMode = false := by
  induction pairs with
  | nil =>
    intro cs sy w hm
    exact ⟨cs, sy, rfl, rfl, hm⟩
  | cons pr rest ih =>
    intro cs sy w hm
    obtain ⟨v, priv⟩ := pr
    obtain ⟨cs2, sy2, h2, hc2, hm2⟩ := ih
      { cs with
        nextInput := if !priv then cs.nextInput + 1 else cs.nextInput,
        nextAux := if !priv then cs.nextAux else cs.nextAux + 1,
        inputLog := if !priv then cs.inputLog ++ [v] else cs.inputLog,
        allocLog := cs.allocLog ++ [v] }
      (Symbols.insert v (if !priv then Variable.input cs.nextInput else Variable.aux cs.nextAux) sy)
      w hm
    refine ⟨cs2, sy2, ?_, hc2, hm2⟩
    unfold allocArgs
    rw [csAlloc_keygen (!priv) v cs w hm]
    exact h2

/-- Claim C5 — key-generation mode never evaluates a value-supplying
closure and never hits `MissingAssignment`: synthesizing any program with
no witness against the key-generation backend succeeds (returns `Ok(())`,
no panic) with zero closure evaluations. -/
theorem c5_setup_structural (p : Prog) :
    ∃ cs', synthesize p none (CS.init false) = some (Except.ok (), cs') ∧
      cs'.closuresRun = 0 := by
  obtain ⟨cs1, sy1, h1, hc1, hm1⟩ := allocArgs_keygen (p.main.arguments.zip p.private_flags)
    (CS.init false) (Symbols.insert FlatVariable.one (Variable.input 0) []) Witness.empty rfl
  obtain ⟨cs2, sy2, h2, hc2, hm2⟩ := synthStatements_keygen p.main.statements cs1 sy1
    Witness.empty hm1
  refine ⟨cs2, ?_, by rw [hc2, hc1]; rfl⟩
  simp only [synthesize, Option.getD_none, h1, h2]

/-! Allocation order: state evolution of one synthesis pass. -/

theorem mem_newRefs (x : FlatVariable) (vs : List FlatVariable) :
    ∀ b, x ∈ newRefs b vs ↔ x ∈ vs ∧ x ∉ b := by
  induction vs with
  | nil => intro b; simp [newRefs]
  | cons v vs ih =>
    intro b
    by_cases hv : v ∈ b
    · rw [newRefs, if_pos hv, ih b]
      constructor
      · rintro ⟨h1, h2⟩
        exact ⟨List.mem_cons_of_mem v h1, h2⟩
      · rintro ⟨h1, h2⟩
        rcases List.mem_cons.mp h1 with rfl | h1
        · exact absurd hv h2
        · exact ⟨h1, h2⟩
    · rw [newRefs, if_neg hv]
      by_cases hx : x = v
      · subst hx
        simp [hv]
      · simp only [List.mem_cons, hx, false_or, ih (v :: b)]

theorem newRefs_congr (vs : List FlatVariable) :
    ∀ b₁ b₂, (∀ v, v ∈ b₁ ↔ v ∈ b₂) → newRefs b₁ vs = newRefs b₂ vs := by
  induction vs with
  | nil => intro _ _ _; rfl
  | cons v vs ih =>
    intro b₁ b₂ hb
    by_cases hv : v ∈ b₁
    · rw [newRefs, if_pos hv, newRefs, if_pos ((hb v).mp hv), ih b₁ b₂ hb]
    · rw [newRefs, if_neg hv, newRefs, if_neg (fun h => hv ((hb v).mpr h)),
        ih (v :: b₁) (v :: b₂) (fun x => by simp [hb x])]

theorem newRefs_append (xs : List FlatVariable) :
    ∀ ys b, newRefs b (xs ++ ys) = newRefs b xs ++ newRefs (newRefs b xs ++ b) ys := by
  induction xs with
  | nil => intro ys b; rfl
  | cons v xs ih =>
    intro ys b
    by_cases hv : v ∈ b
    · rw [List.cons_append, newRefs, if_pos hv, newRefs, if_pos hv, ih]
    · rw [List.cons_append, newRefs, if_neg hv, newRefs, if_neg hv, ih ys (v :: b),
        List.cons_append]
      refine congrArg _ (congrArg _ ?_)
      exact newRefs_congr ys _ _ (fun x => by simp; tauto)

theorem combLoop_state (l : LinComb) :
    ∀ acc cs sy w B cs' sy' w',
    combLoop l acc cs sy w = some (B, cs', sy', w') →
    cs'.allocLog = cs.allocLog ++ newRefs (symKeys sy) (lcVars l) ∧
    cs'.inputLog = cs.inputLog ++ (newRefs (symKeys sy) (lcVars l)).filter FlatVariable.is_output ∧
    cs'.constraints = cs.constraints ∧
    cs'.evalMode = cs.evalMode ∧
    (∀ x, x ∈ symKeys sy' ↔ x ∈ symKeys sy ∨ x ∈ lcVars l) := by
  induction l with
  | nil =>
    intro acc cs sy w B cs' sy' w' hrun
    simp only [combLoop, Option.some.injEq, Prod.mk.injEq] at hrun
    obtain ⟨-, h2, h3, -⟩ := hrun
    subst h2
    subst h3
    simp [lcVars, newRefs]
  | cons kv rest ih =>
    intro acc cs sy w B cs' sy' w' hrun
    obtain ⟨k, v⟩ := kv
    unfold combLoop at hrun
    cases hres : resolveVar k cs sy w <;> rw [hres] at hrun
    · exact absurd hrun (by simp)
    · rename_i out
      obtain ⟨h, cs1, sy1, w1⟩ := out
      replace hrun : combLoop rest (BLC.add acc v h) cs1 sy1 w1 = some (B, cs', sy', w') := hrun
      obtain ⟨ha, hi, hc, hm, hk⟩ := ih _ _ _ _ _ _ _ _ hrun
      have hlv : lcVars ((k, v) :: rest) = k :: lcVars rest := rfl
      cases hf : Symbols.find sy k with
      | some h0 =>
        rw [resolveVar_found k cs sy w h0 hf] at hres
        simp only [Option.some.injEq, Prod.mk.injEq] at hres
        obtain ⟨-, e2, e3, e4⟩ := hres
        subst e2
        subst e3
        subst e4
        have hkmem : k ∈ symKeys sy := by
          rw [← find_isSome_iff_mem, hf]
          rfl
        rw [hlv, newRefs, if_pos hkmem]
        refine ⟨ha, hi, hc, hm, fun x => ?_⟩
        rw [hk x]
        simp only [List.mem_cons]
        constructor
        · rintro (h1 | h1)
          · exact Or.inl h1
          · exact Or.inr (Or.inr h1)
        · rintro (h1 | rfl | h1)
          · exact Or.inl h1
          · exact Or.inl hkmem
          · exact Or.inr h1
      | none =>
        unfold resolveVar at hres
        rw [hf] at hres
        cases ha2 : csAlloc k.is_output k cs w <;> rw [ha2] at hres
        · exact absurd hres (by simp)
        · rename_i out2
          obtain ⟨h2, cs2, w2⟩ := out2
          simp only [Option.some.injEq, Prod.mk.injEq] at hres
          obtain ⟨e1, e2, e3, e4⟩ := hres
          subst e1
          subst e2
          subst e3
          subst e4
          obtain ⟨ga, gi, gc, gm⟩ := csAlloc_some k.is_output k cs w h2 cs2 w2 ha2
          have hknot : k ∉ symKeys sy := (find_eq_none_iff sy k).mp hf
          have hkeys1 : symKeys (Symbols.insert k h2 sy) = k :: symKeys sy := rfl
          rw [hlv, newRefs, if_neg hknot]
          refine ⟨?_, ?_, hc.trans gc, hm.trans gm, fun x => ?_⟩
          · rw [ha, ga, hkeys1, List.append_assoc]
            rfl
          · rw [hi, gi, hkeys1, List.filter_cons]
            cases ho : k.is_output <;> simp [ho, List.append_assoc]
          · rw [hk x, hkeys1]
            simp only [List.mem_cons]
            tauto

theorem processStatement_state (st : Statement) (cs : CS) (sy : Symbols) (w : Witness)
    (cs' : CS) (sy' : Symbols) (w' : Witness)
    (hrun : processStatement st cs sy w = some (cs', sy', w')) :
    cs'.allocLog = cs.allocLog ++ newRefs (symKeys sy) (stmtVars st) ∧
    cs'.inputLog = cs.inputLog ++ (newRefs (symKeys sy) (stmtVars st)).filter FlatVariable.is_output ∧
    cs'.constraints.length = cs.constraints.length + (if st.isConstraint then 1 else 0) ∧
    cs'.evalMode = cs.evalMode ∧
    (∀ x, x ∈ symKeys sy' ↔ x ∈ symKeys sy ∨ x ∈ stmtVars st) := by
  cases st with
  | directive =>
    simp only [processStatement, Option.some.injEq, Prod.mk.injEq] at hrun
    obtain ⟨e1, e2, e3⟩ := hrun
    subst e1
    subst e2
    subst e3
    simp [stmtVars, newRefs, Statement.isConstraint]
  | constraint left right target =>
    replace hrun :
        (match bellman_combination left cs sy w with
          | none => none
          | some (a, cs1, sy1, w1) =>
            match bellman_combination right cs1 sy1 w1 with
            | none => none
            | some (b, cs2, sy2, w2) =>
              match bellman_combination target cs2 sy2 w2 with
              | none => none
              | some (c, cs3, sy3, w3) => some (csEnforce a b c cs3, sy3, w3)) =
          some (cs', sy', w') := hrun
    cases g1 : bellman_combination left cs sy w <;> rw [g1] at hrun
    · exact absurd hrun (by simp)
    rename_i o1
    obtain ⟨a, cs1, sy1, w1⟩ := o1
    replace hrun :
        (match bellman_combination right cs1 sy1 w1 with
          | none => none
          | some (b, cs2, sy2, w2) =>
            match bellman_combination target cs2 sy2 w2 with
            | none => none
            | some (c, cs3, sy3, w3) => some (csEnforce a b c cs3, sy3, w3)) =
          some (cs', sy', w') := hrun
    cases g2 : bellman_combination right cs1 sy1 w1 <;> rw [g2] at hrun
    · exact absurd hrun (by simp)
    rename_i o2
    obtain ⟨b, cs2, sy2, w2⟩ := o2
    replace hrun :
        (match bellman_combination target cs2 sy2 w2 with
          | none => none
          | some (c, cs3, sy3, w3) => some (csEnforce a b c cs3, sy3, w3)) =
          some (cs', sy', w') := hrun
    cases g3 : bellman_combination target cs2 sy2 w2 <;> rw [g3] at hrun
    · exact absurd hrun (by simp)
    rename_i o3
    obtain ⟨c, cs3, sy3, w3⟩ := o3
    simp only [Option.some.injEq, Prod.mk.injEq] at hrun
    obtain ⟨e1, e2, e3⟩ := hrun
    subst e1
    subst e2
    subst e3
    obtain ⟨a1, i1, c1, m1, k1⟩ := combLoop_state left BLC.zero cs sy w a cs1 sy1 w1 g1
    obtain ⟨a2, i2, c2, m2, k2⟩ := combLoop_state right BLC.zero cs1 sy1 w1 b cs2 sy2 w2 g2
    obtain ⟨a3, i3, c3, m3, k3⟩ := combLoop_state target BLC.zero cs2 sy2 w2 c cs3 sy3 w3 g3
    have hB : newRefs (symKeys sy1) (lcVars right) =
        newRefs (newRefs (symKeys sy) (lcVars left) ++ symKeys sy) (lcVars right) := by
      refine newRefs_congr _ _ _ (fun x => ?_)
      rw [k1 x, List.mem_append, mem_newRefs]
      tauto
    have hC : newRefs (symKeys sy2) (lcVars target) =
        newRefs (newRefs (symKeys sy) (lcVars left ++ lcVars right) ++ symKeys sy)
          (lcVars target) := by
      refine newRefs_congr _ _ _ (fun x => ?_)
      rw [k2 x, k1 x, List.mem_append, mem_newRefs, List.mem_append]
      tauto
    have hsv : stmtVars (Statement.constraint left right target) =
        lcVars left ++ lcVars right ++ lcVars target := rfl
    have hnr : newRefs (symKeys sy) (stmtVars (Statement.constraint left right target)) =
        newRefs (symKeys sy) (lcVars left) ++ newRefs (symKeys sy1) (lcVars right) ++
          newRefs (symKeys sy2) (lcVars target) := by
      rw [hsv, newRefs_append (lcVars left ++ lcVars right) (lcVars target) (symKeys sy),
        ← hC, newRefs_append (lcVars left) (lcVars right) (symKeys sy), ← hB]
    refine ⟨?_, ?_, ?_, ?_, ?_⟩
    · show cs3.allocLog = _
      rw [a3, a2, a1, hnr]
      simp [List.append_assoc]
    · show cs3.inputLog = _
      rw [i3, i2, i1, hnr]
      simp [List.append_assoc, List.filter_append]
    · show (cs3.constraints ++ [(a, b, c)]).length = _
      rw [List.length_append, c3, c2, c1]
      simp [Statement.isConstraint]
    · exact m3.trans (m2.trans m1)
    · intro x
      rw [k3 x, k2 x, k1 x, hsv, List.mem_append, List.mem_append]
      tauto

theorem synthStatements_state (stmts : List Statement) :
    ∀ cs sy w cs' sy' w', synthStatements stmts cs sy w = some (cs', sy', w') →
    cs'.allocLog = cs.allocLog ++ newRefs (symKeys sy) (stmts.flatMap stmtVars) ∧
    cs'.inputLog =
      cs.inputLog ++ (newRefs (symKeys sy) (stmts.flatMap stmtVars)).filter FlatVariable.is_output ∧
    cs'.constraints.length =
      cs.constraints.length + (stmts.filter Statement.isConstraint).length ∧
    cs'.evalMode = cs.evalMode ∧
    (∀ x, x ∈ symKeys sy' ↔ x ∈ symKeys sy ∨ x ∈ stmts.flatMap stmtVars) := by
  induction stmts with
  | nil =>
    intro cs sy w cs' sy' w' hrun
    simp only [synthStatements, Option.some.injEq, Prod.mk.injEq] at hrun
    obtain ⟨e1, e2, e3⟩ := hrun
    subst e1
    subst e2
    subst e3
    simp [newRefs]
  | cons st rest ih =>
    intro cs sy w cs' sy' w' hrun
    unfold synthStatements at hrun
    cases g1 : processStatement st cs sy w <;> rw [g1] at hrun
    · exact absurd hrun (by simp)
    rename_i o1
    obtain ⟨cs1, sy1, w1⟩ := o1
    replace hrun : synthStatements rest cs1 sy1 w1 = some (cs', sy', w') := hrun
    obtain ⟨a1, i1, c1, m1, k1⟩ := processStatement_state st cs sy w cs1 sy1 w1 g1
    obtain ⟨a2, i2, c2, m2, k2⟩ := ih cs1 sy1 w1 cs' sy' w' hrun
    have hrest : newRefs (symKeys sy1) (rest.flatMap stmtVars) =
        newRefs (newRefs (symKeys sy) (stmtVars st) ++ symKeys sy) (rest.flatMap stmtVars) := by
      refine newRefs_congr _ _ _ (fun x => ?_)
      rw [k1 x, List.mem_append, mem_newRefs]
      tauto
    have hfm : (st :: rest).flatMap stmtVars = stmtVars st ++ rest.flatMap stmtVars := by
      simp [List.flatMap_cons]
    have hnr : newRefs (symKeys sy) ((st :: rest).flatMap stmtVars) =
        newRefs (symKeys sy) (stmtVars st) ++ newRefs (symKeys sy1) (rest.flatMap stmtVars) := by
      rw [hfm, newRefs_append (stmtVars st) (rest.flatMap stmtVars) (symKeys sy), hrest]
    refine ⟨?_, ?_, ?_, m2.trans m1, ?_⟩
    · rw [a2, a1, hnr, List.append_assoc]
    · rw [i2, i1, hnr]
      simp [List.append_assoc, List.filter_append]
    · rw [c2, c1, List.filter_cons]
      cases hst : st.isConstraint <;> (simp [hst]; try omega)
    · intro x
      rw [k2 x, k1 x, hfm, List.mem_append]
      tauto

theorem allocArgs_state (pairs : List (FlatVariable × Bool)) :
    ∀ cs sy w cs' sy' w', allocArgs pairs cs sy w = some (cs', sy', w') →
    cs'.allocLog = cs.allocLog ++ pairs.map Prod.fst ∧
    cs'.inputLog = cs.inputLog ++ (pairs.filter (fun x => !x.2)).map Prod.fst ∧
    cs'.constraints = cs.constraints ∧
    cs'.evalMode = cs.evalMode ∧
    (∀ x, x ∈ symKeys sy' ↔ x ∈ symKeys sy ∨ x ∈ pairs.map Prod.fst) := by
  induction pairs with
  | nil =>
    intro cs sy w cs' sy' w' hrun
    simp only [allocArgs, Option.some.injEq, Prod.mk.injEq] at hrun
    obtain ⟨e1, e2, e3⟩ := hrun
    subst e1
    subst e2
    subst e3
    simp
  | cons pr rest ih =>
    intro cs sy w cs' sy' w' hrun
    obtain ⟨v, priv⟩ := pr
    unfold allocArgs at hrun
    cases g1 : csAlloc (!priv) v cs w <;> rw [g1] at hrun
    · exact absurd hrun (by simp)
    rename_i o1
    obtain ⟨h1, cs1, w1⟩ := o1
    replace hrun : allocArgs rest cs1 (Symbols.insert v h1 sy) w1 = some (cs', sy', w') := hrun
    obtain ⟨ga, gi, gc, gm⟩ := csAlloc_some (!priv) v cs w h1 cs1 w1 g1
    obtain ⟨a2, i2, c2, m2, k2⟩ := ih cs1 (Symbols.insert v h1 sy) w1 cs' sy' w' hrun
    have hkeys : symKeys (Symbols.insert v h1 sy) = v :: symKeys sy := rfl
    refine ⟨?_, ?_, c2.trans gc, m2.trans gm, ?_⟩
    · rw [a2, ga, List.append_assoc]
      rfl
    · rw [i2, gi, List.filter_cons]
      cases hp : priv <;> simp [hp, List.append_assoc]
    · intro x
      rw [k2 x, hkeys]
      simp only [List.map_cons, List.mem_cons]
      tauto

/-- Claim C6 — the number of backend equality constraints emitted by one
synthesis equals the number of `Constraint` statements of the program, and
every other statement kind is a complete no-op (no allocation, no
constraint, no state change at all). -/
theorem c6_constraint_count (p : Prog) (w? : Option Witness) (mode : Bool)
    (r : Except SynthesisError Unit) (cs' : CS)
    (hrun : synthesize p w? (CS.init mode) = some (r, cs')) :
    cs'.constraints.length = (p.main.statements.filter Statement.isConstraint).length ∧
    (∀ st, st.isConstraint = false →
      ∀ cs sy w, processStatement st cs sy w = some (cs, sy, w)) := by
  constructor
  · unfold synthesize at hrun
    cases g1 : allocArgs (p.main.arguments.zip p.private_flags) (CS.init mode)
        (Symbols.insert FlatVariable.one (Variable.input 0) [])
        (w?.getD Witness.empty) <;> rw [g1] at hrun
    · exact absurd hrun (by simp)
    rename_i o1
    obtain ⟨cs1, sy1, w1⟩ := o1
    replace hrun :
        (match synthStatements p.main.statements cs1 sy1 w1 with
          | none => none
          | some (cs2, _, _) => some (Except.ok (), cs2)) = some (r, cs') := hrun
    cases g2 : synthStatements p.main.statements cs1 sy1 w1 <;> rw [g2] at hrun
    · exact absurd hrun (by simp)
    rename_i o2
    obtain ⟨cs2, sy2, w2⟩ := o2
    simp only [Option.some.injEq, Prod.mk.injEq] at hrun
    obtain ⟨-, e2⟩ := hrun
    subst e2
    obtain ⟨-, -, gc, -, -⟩ := allocArgs_state _ _ _ _ _ _ _ g1
    obtain ⟨-, -, c2, -, -⟩ := synthStatements_state _ _ _ _ _ _ _ g2
    rw [c2, gc]
    simp [CS.init]
  · intro st hst cs sy w
    cases st with
    | constraint left right target => exact absurd hst (by simp [Statement.isConstraint])
    | directive => rfl

/-- Witness for C6 on a concrete program with one non-constraint
statement. -/
theorem c6_constraint_count_witness :
    synthesize progEx none (CS.init false) = some (Except.ok (), csEx) ∧
    csEx.constraints.length = (progEx.main.statements.filter Statement.isConstraint).length ∧
    (∀ st, st.isConstraint = false →
      ∀ cs sy w, processStatement st cs sy w = some (cs, sy, w)) :=
  ⟨rfl, c6_constraint_count progEx none false (Except.ok ()) csEx rfl⟩

/-- Claim C1 — one synthesis call allocates every declared argument, in
declaration order and in the category fixed by its paired privacy flag,
before any allocation triggered by constraint processing; hence the
backend's public-input slots (after the constant-one slot) are exactly the
public arguments in declaration order followed by the output wires in the
order constraints first reference them. -/
theorem c1_allocation_order (p : Prog) (w? : Option Witness) (mode : Bool)
    (r : Except SynthesisError Unit) (cs' : CS)
    (hlen : p.private_flags.length = p.main.arguments.length)
    (hrun : synthesize p w? (CS.init mode) = some (r, cs')) :
    cs'.allocLog =
      p.main.arguments ++
        firstRefs (FlatVariable.one :: p.main.arguments) p.main.statements ∧
    cs'.inputLog =
      publicArguments p ++
        (firstRefs (FlatVariable.one :: p.main.arguments) p.main.statements).filter
          FlatVariable.is_output := by
  unfold synthesize at hrun
  cases g1 : allocArgs (p.main.arguments.zip p.private_flags) (CS.init mode)
      (Symbols.insert FlatVariable.one (Variable.input 0) [])
      (w?.getD Witness.empty) <;> rw [g1] at hrun
  · exact absurd hrun (by simp)
  rename_i o1
  obtain ⟨cs1, sy1, w1⟩ := o1
  replace hrun :
      (match synthStatements p.main.statements cs1 sy1 w1 with
        | none => none
        | some (cs2, _, _) => some (Except.ok (), cs2)) = some (r, cs') := hrun
  cases g2 : synthStatements p.main.statements cs1 sy1 w1 <;> rw [g2] at hrun
  · exact absurd hrun (by simp)
  rename_i o2
  obtain ⟨cs2, sy2, w2⟩ := o2
  simp only [Option.some.injEq, Prod.mk.injEq] at hrun
  obtain ⟨-, e2⟩ := hrun
  subst e2
  obtain ⟨a1, i1, -, -, k1⟩ := allocArgs_state _ _ _ _ _ _ _ g1
  obtain ⟨a2, i2, -, -, -⟩ := synthStatements_state _ _ _ _ _ _ _ g2
  have hzip : (p.main.arguments.zip p.private_flags).map Prod.fst = p.main.arguments :=
    List.map_fst_zip _ _ (le_of_eq hlen.symm)
  have hcong : newRefs (symKeys sy1) (p.main.statements.flatMap stmtVars) =
      newRefs (FlatVariable.one :: p.main.arguments)
        (p.main.statements.flatMap stmtVars) := by
    refine newRefs_congr _ _ _ (fun x => ?_)
    rw [k1 x, hzip]
    have : symKeys (Symbols.insert FlatVariable.one (Variable.input 0) []) =
        [FlatVariable.one] := rfl
    rw [this]
    simp
  constructor
  · rw [a2, a1, hcong, hzip]
    have h0 : (CS.init mode).allocLog = [] := rfl
    rw [h0, List.nil_append]
    rfl
  · rw [i2, i1, hcong]
    have h0 : (CS.init mode).inputLog = [] := rfl
    rw [h0, List.nil_append]
    rfl

/-- Witness for C1 on the concrete `progEx` run. -/
theorem c1_allocation_order_witness :
    progEx.private_flags.length = progEx.main.arguments.length ∧
    synthesize progEx none (CS.init false) = some (Except.ok (), csEx) ∧
    csEx.allocLog =
      progEx.main.arguments ++
        firstRefs (FlatVariable.one :: progEx.main.arguments) progEx.main.statements ∧
    csEx.inputLog =
      publicArguments progEx ++
        (firstRefs (FlatVariable.one :: progEx.main.arguments)
          progEx.main.statements).filter FlatVariable.is_output :=
  ⟨by decide, rfl,
    c1_allocation_order progEx none false (Except.ok ()) csEx (by decide) rfl⟩

/-! The linear-combination builder on an already-bound symbol map. -/

theorem combLoop_bound (l : LinComb) :
    ∀ acc cs sy (w : Witness), (∀ k ∈ lcVars l, (Symbols.find sy k).isSome) →
    combLoop l acc cs sy w = some (fun hd => acc hd + termSum l sy hd, cs, sy, w) := by
  induction l with
  | nil =>
    intro acc cs sy w _
    have hz : (fun hd => acc hd + termSum [] sy hd) = acc := by
      funext hd
      simp [termSum]
    rw [hz]
    rfl
  | cons kv rest ih =>
    intro acc cs sy w hb
    obtain ⟨k, v⟩ := kv
    have hk : (Symbols.find sy k).isSome := hb k (by simp [lcVars])
    obtain ⟨h, hf⟩ := Option.isSome_iff_exists.mp hk
    have hrest : ∀ k' ∈ lcVars rest, (Symbols.find sy k').isSome := fun k' hk' =>
      hb k' (List.mem_cons_of_mem _ hk')
    unfold combLoop
    rw [resolveVar_found k cs sy w h hf]
    show combLoop rest (BLC.add acc v h) cs sy w = _
    rw [ih (BLC.add acc v h) cs sy w hrest]
    have he : (fun hd => BLC.add acc v h hd + termSum rest sy hd) =
        (fun hd => acc hd + termSum ((k, v) :: rest) sy hd) := by
      funext hd
      rw [termSum, termSum]
      by_cases hhd : hd = h
      · subst hhd
        rw [List.filter_cons_of_pos (by simp [hf])]
        simp [BLC.add]
        rw [Nat.add_assoc]
      · rw [List.filter_cons_of_neg (by simp [hf]; exact Ne.symm hhd)]
        simp [BLC.add, hhd]
    rw [he]

/-- Claim C7 — building a backend linear combination from an IR linear
combination whose variables are all bound visits every (variable,
coefficient) term exactly once, accumulating into a zero-initialized
combination whose coefficient at each handle is the total over the terms
resolving to it; the result is invariant under permutation of the term
order, and the pass changes no state. -/
theorem c7_combination_order_independent (l₁ l₂ : LinComb) (cs : CS) (sy : Symbols)
    (w : Witness) (hperm : l₁.Perm l₂)
    (hb : ∀ k ∈ lcVars l₁, (Symbols.find sy k).isSome) :
    ∃ B, bellman_combination l₁ cs sy w = some (B, cs, sy, w) ∧
      bellman_combination l₂ cs sy w = some (B, cs, sy, w) ∧
      ∀ hd, B hd = termSum l₁ sy hd := by
  have hb₂ : ∀ k ∈ lcVars l₂, (Symbols.find sy k).isSome := by
    intro k hk
    exact hb k ((hperm.map Prod.fst).mem_iff.mpr hk)
  have hsum : ∀ hd, termSum l₂ sy hd = termSum l₁ sy hd := by
    intro hd
    exact (((hperm.filter _).map Prod.snd).sum_eq).symm
  refine ⟨fun hd => BLC.zero hd + termSum l₁ sy hd,
    combLoop_bound l₁ BLC.zero cs sy w hb, ?_, ?_⟩
  · have he : (fun hd => BLC.zero hd + termSum l₂ sy hd) =
        (fun hd => BLC.zero hd + termSum l₁ sy hd) := by
      funext hd
      rw [hsum hd]
    have h2 := combLoop_bound l₂ BLC.zero cs sy w hb₂
    rw [he] at h2
    exact h2
  · intro hd
    simp [BLC.zero]

/-- Witness for C7 on two permuted two-term combinations over a bound
map. -/
theorem c7_combination_order_independent_witness :
    ([(FlatVariable.internal 1, 2), (FlatVariable.internal 2, 3)] : LinComb).Perm
      [(FlatVariable.internal 2, 3), (FlatVariable.internal 1, 2)] ∧
    (∀ k ∈ lcVars [(FlatVariable.internal 1, 2), (FlatVariable.internal 2, 3)],
      (Symbols.find [(FlatVariable.internal 1, Variable.aux 0),
        (FlatVariable.internal 2, Variable.aux 1)] k).isSome) ∧
    ∃ B, bellman_combination [(FlatVariable.internal 1, 2), (FlatVariable.internal 2, 3)]
        (CS.init false)
        [(FlatVariable.internal 1, Variable.aux 0), (FlatVariable.internal 2, Variable.aux 1)]
        [] = some (B, CS.init false,
          [(FlatVariable.internal 1, Variable.aux 0), (FlatVariable.internal 2, Variable.aux 1)],
          []) ∧
      bellman_combination [(FlatVariable.internal 2, 3), (FlatVariable.internal 1, 2)]
        (CS.init false)
        [(FlatVariable.internal 1, Variable.aux 0), (FlatVariable.internal 2, Variable.aux 1)]
        [] = some (B, CS.init false,
          [(FlatVariable.internal 1, Variable.aux 0), (FlatVariable.internal 2, Variable.aux 1)],
          []) ∧
      ∀ hd, B hd = termSum [(FlatVariable.internal 1, 2), (FlatVariable.internal 2, 3)]
        [(FlatVariable.internal 1, Variable.aux 0), (FlatVariable.internal 2, Variable.aux 1)]
        hd :=
  ⟨by decide, by decide,
    c7_combination_order_independent _ _ (CS.init false) _ [] (by decide) (by decide)⟩

/-! `public_inputs_values` on a complete witness. -/

theorem optionMapList_map (f : β → Option γ) (g : α → β) (l : List α) :
    optionMapList f (l.map g) = optionMapList (fun a => f (g a)) l := by
  induction l with
  | nil => rfl
  | cons a rest ih =>
    show (match f (g a) with
      | none => none
      | some b =>
        match optionMapList f (rest.map g) with
        | none => none
        | some bs => some (b :: bs)) =
      (match f (g a) with
      | none => none
      | some b =>
        match optionMapList (fun a => f (g a)) rest with
        | none => none
        | some bs => some (b :: bs))
    rw [ih]

theorem optionMapList_filterMap (f : α → Option β) (l : List α) :
    ∀ ys, optionMapList f l = some ys → l.filterMap f = ys := by
  induction l with
  | nil =>
    intro ys h
    simp only [optionMapList, Option.some.injEq] at h
    simp [h.symm]
  | cons a rest ih =>
    intro ys h
    unfold optionMapList at h
    cases hf : f a <;> rw [hf] at h
    · exact absurd h (by simp)
    rename_i b
    cases hr : optionMapList f rest <;> rw [hr] at h
    · exact absurd h (by simp)
    rename_i bs
    simp only [Option.some.injEq] at h
    rw [List.filterMap_cons_some hf, ih bs hr, h]

/-- Claim C2 — for a computation holding a complete witness whose return
wires are the program's declared (canonically indexed) returns,
`public_inputs_values` returns exactly the witness values of the
non-private arguments in declaration order followed by the values of the
declared return wires in declaration order; the read is non-destructive
(the function is pure and the witness is read only through `wlookup`). -/
theorem c2_public_inputs_values (p : Prog) (w : Witness) (pvals rvals : List FValue)
    (hargs : optionMapList (fun v => wlookup w v) (publicArguments p) = some pvals)
    (hret : p.main.returns = (List.range p.main.returns.length).map FlatVariable.output)
    (hcount : (w.filter (fun e => e.1.is_output)).length = p.main.returns.length)
    (hrv : optionMapList (fun v => wlookup w v) p.main.returns = some rvals) :
    public_inputs_values (Computation.with_witness p w) = some (pvals ++ rvals) := by
  have hrvals : Witness.return_values w = rvals := by
    rw [Witness.return_values, hcount]
    rw [hret, optionMapList_map] at hrv
    exact optionMapList_filterMap _ _ _ hrv
  show (match optionMapList (fun v => wlookup w v) (publicArguments p) with
      | none => none
      | some pv => some (pv ++ Witness.return_values w)) = some (pvals ++ rvals)
  rw [hargs]
  show some (pvals ++ Witness.return_values w) = some (pvals ++ rvals)
  rw [hrvals]

/-- Witness for C2 on the concrete `progEx`/`wEx`. -/
theorem c2_public_inputs_values_witness :
    optionMapList (fun v => wlookup wEx v) (publicArguments progEx) = some [4] ∧
    progEx.main.returns =
      (List.range progEx.main.returns.length).map FlatVariable.output ∧
    (wEx.filter (fun e => e.1.is_output)).length = progEx.main.returns.length ∧
    optionMapList (fun v => wlookup wEx v) progEx.main.returns = some [7, 4] ∧
    public_inputs_values (Computation.with_witness progEx wEx) = some ([4] ++ [7, 4]) :=
  ⟨rfl, by decide, by decide, rfl,
    c2_public_inputs_values progEx wEx [4] [7, 4] rfl (by decide) (by decide) rfl⟩

/-- Claim C10 — `synthesize` never returns an `Err`: every failure path
panics inside an `unwrap` (modelled as `none`), so whenever it returns a
`Result` at all, that result is `Ok(())`. -/
theorem c10_synthesize_never_err (p : Prog) (w? : Option Witness) (cs : CS)
    (r : Except SynthesisError Unit) (cs' : CS)
    (hrun : synthesize p w? cs = some (r, cs')) : r = Except.ok () := by
  unfold synthesize at hrun
  split at hrun
  · exact absurd hrun (by simp)
  · split at hrun
    · exact absurd hrun (by simp)
    · simp only [Option.some.injEq, Prod.mk.injEq] at hrun
      exact hrun.1.symm

/-- Witness for C10 at a concrete proving-mode run. -/
theorem c10_synthesize_never_err_witness :
    synthesize progEx (some wEx) (CS.init true) = some (Except.ok (), csExP) ∧
    (Except.ok () : Except SynthesisError Unit) = Except.ok () :=
  ⟨rfl, c10_synthesize_never_err progEx (some wEx) (CS.init true) (Except.ok ()) csExP rfl⟩

/-! Soundness of the pattern-scan bookkeeping: a `check`-ed segment list
pushes one whole `String::replace` pass through symbolically. -/

theorem isPre_self (p : List Char) : ∀ t, isPre p (p ++ t) = true := by
  induction p with
  | nil => intro t; rfl
  | cons q qs ih =>
    intro t
    simp [isPre, ih]

theorem isPre_cons_ne (q c : Char) (qs s : List Char) (h : ¬q = c) :
    isPre (q :: qs) (c :: s) = false := by
  simp [isPre, h]

theorem replAux_fuel (p r : List Char) :
    ∀ f₁ f₂ (s : List Char), s.length ≤ f₁ → s.length ≤ f₂ →
    replAux p r f₁ s = replAux p r f₂ s := by
  intro f₁
  induction f₁ with
  | zero =>
    intro f₂ s h1 _
    have : s = [] := List.eq_nil_of_length_eq_zero (Nat.le_zero.mp h1)
    subst this
    cases f₂ <;> rfl
  | succ n ih =>
    intro f₂ s h1 h2
    cases s with
    | nil => cases f₂ <;> rfl
    | cons c cs =>
      cases f₂ with
      | zero => exact absurd h2 (by simp)
      | succ m =>
        rw [replAux, replAux]
        by_cases hm : isPre p (c :: cs) = true
        · rw [if_pos hm, if_pos hm]
          have hd : (List.drop (p.length - 1) cs).length ≤ cs.length := by
            rw [List.length_drop]
            omega
          have hc1 : cs.length ≤ n := by simpa using h1
          have hc2 : cs.length ≤ m := by simpa using h2
          rw [ih m (List.drop (p.length - 1) cs) (le_trans hd hc1) (le_trans hd hc2)]
        · rw [if_neg hm, if_neg hm]
          have hc1 : cs.length ≤ n := by simpa using h1
          have hc2 : cs.length ≤ m := by simpa using h2
          rw [ih m cs hc1 hc2]

theorem replaceAll_cons_no_match (p r : List Char) (c : Char) (s : List Char)
    (h : isPre p (c :: s) = false) :
    replaceAll p r (c :: s) = c :: replaceAll p r s := by
  show replAux p r (c :: s).length (c :: s) = c :: replAux p r s.length s
  rw [List.length_cons, replAux, if_neg (by rw [h]; simp)]

theorem replaceAll_match (p r : List Char) (q : Char) (qs : List Char)
    (hp : p = q :: qs) :
    ∀ x, replaceAll p r (p ++ x) = r ++ replaceAll p r x := by
  intro x
  show replAux p r (p ++ x).length (p ++ x) = r ++ replAux p r x.length x
  rw [hp, List.cons_append, List.length_cons, replAux,
    if_pos (by rw [← List.cons_append, ← hp, isPre_self])]
  have hlen : (q :: qs).length - 1 = qs.length := by simp
  rw [hlen, List.drop_left qs x]
  rw [replAux_fuel (q :: qs) r (qs ++ x).length x.length x (by simp) (le_refl _)]

theorem replaceAll_safe_transparent (p r : List Char) (q : Char) (qs : List Char)
    (hp : p = q :: qs) (hq : SafeChar q = false) :
    ∀ (s x : List Char), (∀ c ∈ s, SafeChar c = true) →
    replaceAll p r (s ++ x) = s ++ replaceAll p r x := by
  intro s
  induction s with
  | nil => intro x _; rfl
  | cons c cs ih =>
    intro x hsafe
    have hc : SafeChar c = true := hsafe c (by simp)
    have hqc : ¬q = c := fun e => by rw [e, hc] at hq; cases hq
    rw [List.cons_append, replaceAll_cons_no_match p r c (cs ++ x)
      (by rw [hp]; exact isPre_cons_ne q c qs _ hqc)]
    rw [ih x (fun c' hc' => hsafe c' (List.mem_cons_of_mem _ hc'))]
    rfl

theorem diesF_sound (p : List Char) :
    ∀ fuel pat (cs : List Char) items t, diesF p fuel pat cs items = true → SkelOK items →
    isPre pat (cs ++ (expandA p items ++ t)) = false := by
  intro fuel
  induction fuel with
  | zero =>
    intro pat cs items t hd _
    cases pat with
    | nil => exact absurd hd (by simp [diesF])
    | cons q qs => exact absurd hd (by simp [diesF])
  | succ n ih =>
    intro pat cs items t hd hok
    cases pat with
    | nil => exact absurd hd (by simp [diesF])
    | cons q qs =>
      cases cs with
      | cons c cs' =>
        simp only [diesF] at hd
        by_cases hqc : q = c
        · rw [if_pos hqc] at hd
          subst hqc
          rw [List.cons_append, isPre]
          simp only [beq_self_eq_true, Bool.true_and]
          exact ih qs cs' items t hd hok
        · rw [List.cons_append]
          exact isPre_cons_ne q c qs _ hqc
      | nil =>
        cases items with
        | nil => exact absurd hd (by simp [diesF])
        | cons it rest =>
          cases it with
          | lit s =>
            simp only [diesF] at hd
            have hres := ih (q :: qs) s rest t hd hok
            simpa [expandA, List.append_assoc] using hres
          | hole s =>
            obtain ⟨⟨hne, hsafe⟩, hok'⟩ := hok
            cases s with
            | nil => exact absurd rfl hne
            | cons c s' =>
              simp only [diesF] at hd
              have hq : SafeChar q = false := by simpa using hd
              have hc : SafeChar c = true := hsafe c (by simp)
              have hqc : ¬q = c := fun e => by rw [e, hc] at hq; cases hq
              rw [List.nil_append, expandA, List.cons_append, List.cons_append]
              exact isPre_cons_ne q c qs _ hqc
          | hit =>
            simp only [diesF] at hd
            have hres := ih (q :: qs) p rest t hd hok
            simpa [expandA, List.append_assoc] using hres

theorem dies_sound (p pat cs : List Char) (items : List Item) (t : List Char)
    (h : dies p pat cs items = true) (hok : SkelOK items) :
    isPre pat (cs ++ (expandA p items ++ t)) = false :=
  diesF_sound p _ pat cs items t h hok

theorem replaceAll_lit_step (p r : List Char) :
    ∀ (s : List Char) items t, scanLit p s items = true → SkelOK items →
    replaceAll p r (expandA p items ++ t) = expandB r items ++ replaceAll p r t →
    replaceAll p r (s ++ (expandA p items ++ t)) =
      s ++ (expandB r items ++ replaceAll p r t) := by
  intro s
  induction s with
  | nil => intro items t _ _ hbase; exact hbase
  | cons c cs ih =>
    intro items t hscan hok hbase
    have hsc : dies p p (c :: cs) items = true ∧ scanLit p cs items = true := by
      simpa [scanLit, Bool.and_eq_true] using hscan
    have hnm : isPre p ((c :: cs) ++ (expandA p items ++ t)) = false :=
      dies_sound p p (c :: cs) items t hsc.1 hok
    rw [List.cons_append, List.cons_append]
    rw [List.cons_append] at hnm
    rw [replaceAll_cons_no_match p r c _ hnm]
    rw [ih items t hsc.2 hok hbase]

theorem replaceAll_skel (p r : List Char) (q : Char) (qs : List Char)
    (hp : p = q :: qs) (hq : SafeChar q = false) :
    ∀ items, SkelOK items → check p items = true →
    ∀ t, replaceAll p r (expandA p items ++ t) = expandB r items ++ replaceAll p r t := by
  intro items
  induction items with
  | nil =>
    intro _ _ t
    simp [expandA, expandB]
  | cons it rest ih =>
    intro hok hch t
    cases it with
    | lit s =>
      have hsc : scanLit p s rest = true ∧ check p rest = true := by
        simpa [check, Bool.and_eq_true] using hch
      have hbase := ih hok hsc.2 t
      rw [expandA, expandB]
      simp only [List.append_assoc]
      exact replaceAll_lit_step p r s rest t hsc.1 hok hbase
    | hole s =>
      obtain ⟨⟨hne, hsafe⟩, hok'⟩ := hok
      have hbase := ih hok' hch t
      rw [expandA, expandB]
      simp only [List.append_assoc]
      rw [replaceAll_safe_transparent p r q qs hp hq s _ hsafe, hbase]
    | hit =>
      have hbase := ih hok hch t
      rw [expandA, expandB]
      simp only [List.append_assoc]
      rw [replaceAll_match p r q qs hp _, hbase]

/-! Numeral renderings are nonempty strings of safe characters. -/

theorem digitChar_digit : ∀ m, (digitChar m).isDigit = true
  | 0 => rfl
  | 1 => rfl
  | 2 => rfl
  | 3 => rfl
  | 4 => rfl
  | 5 => rfl
  | 6 => rfl
  | 7 => rfl
  | 8 => rfl
  | _ + 9 => rfl

theorem safeChar_of_digit (c : Char) (h : c.isDigit = true) : SafeChar c = true := by
  simp [SafeChar, h]

theorem natDecAux_digits : ∀ (fuel n : Nat) (acc : List Char),
    (∀ c ∈ acc, c.isDigit = true) → ∀ c ∈ natDecAux fuel n acc, c.isDigit = true := by
  intro fuel
  induction fuel with
  | zero =>
    intro n acc hacc c hc
    cases n with
    | zero => exact hacc c hc
    | succ m => exact hacc c hc
  | succ f ih =>
    intro n acc hacc c hc
    cases n with
    | zero => exact hacc c hc
    | succ m =>
      exact ih ((m + 1) / 10) _
        (fun c' hc' => by
          rcases List.mem_cons.mp hc' with rfl | hmem
          · exact digitChar_digit _
          · exact hacc c' hmem) c hc

theorem natDecAux_ne_nil : ∀ (fuel n : Nat) (acc : List Char),
    acc ≠ [] ∨ (n ≠ 0 ∧ fuel ≠ 0) → natDecAux fuel n acc ≠ [] := by
  intro fuel
  induction fuel with
  | zero =>
    intro n acc hd
    rcases hd with h | ⟨_, hf⟩
    · cases n with
      | zero => exact h
      | succ m => exact h
    · exact absurd rfl hf
  | succ f ih =>
    intro n acc hd
    cases n with
    | zero =>
      rcases hd with h | ⟨hn, _⟩
      · exact h
      · exact absurd rfl hn
    | succ m =>
      exact ih ((m + 1) / 10) _ (Or.inl (by simp))

theorem natDec_good (n : Nat) : GoodStr (natDec n) := by
  constructor
  · cases n with
    | zero => simp [natDec]
    | succ m => exact natDecAux_ne_nil (m + 1) (m + 1) [] (Or.inr (by simp))
  · intro c hc
    cases n with
    | zero =>
      simp [natDec] at hc
      subst hc
      rfl
    | succ m =>
      refine safeChar_of_digit c (natDecAux_digits (m + 1) (m + 1) [] (by simp) c ?_)
      simpa [natDec] using hc

theorem itemsFuel_shape (p : List Char) :
    ∀ items, itemsFuel p (shapeOf items) = itemsFuel p items := by
  intro items
  induction items with
  | nil => rfl
  | cons it rest ih =>
    cases it with
    | lit s => simp [shapeOf, itemsFuel, ih]
    | hole s => simp [shapeOf, itemsFuel, ih]
    | hit => simp [shapeOf, itemsFuel, ih]

theorem diesF_shape (p : List Char) :
    ∀ (fuel : Nat) (pat cs : List Char) (items : List Item),
    diesF p fuel pat cs (shapeOf items) = diesF p fuel pat cs items := by
  intro fuel
  induction fuel with
  | zero =>
    intro pat cs items
    cases pat with
    | nil => rfl
    | cons q qs => rfl
  | succ f ih =>
    intro pat cs items
    cases pat with
    | nil => rfl
    | cons q qs =>
      cases cs with
      | cons c cs2 => simp [diesF, ih]
      | nil =>
        cases items with
        | nil => rfl
        | cons it rest =>
          cases it with
          | lit s => simp [shapeOf, diesF, ih]
          | hole s => simp [shapeOf, diesF]
          | hit => simp [shapeOf, diesF, ih]

theorem dies_shape (p pat cs : List Char) (items : List Item) :
    dies p pat cs (shapeOf items) = dies p pat cs items := by
  simp [dies, itemsFuel_shape, diesF_shape]

theorem scanLit_shape (p : List Char) : ∀ (s : List Char) (items : List Item),
    scanLit p s (shapeOf items) = scanLit p s items := by
  intro s
  induction s with
  | nil => intro items; rfl
  | cons c cs ih => intro items; simp [scanLit, dies_shape, ih]

theorem check_shape (p : List Char) :
    ∀ items, check p (shapeOf items) = check p items := by
  intro items
  induction items with
  | nil => rfl
  | cons it rest ih =>
    cases it with
    | lit s => simp [shapeOf, check, scanLit_shape, ih]
    | hole s => simp [shapeOf, check, ih]
    | hit => simp [shapeOf, check, ih]

/-! Per-segment step combinators for pushing one replacement pass through
a serializer string. -/

theorem skel_step (p r : List Char) (q : Char) (qs : List Char)
    (hp : p = q :: qs) (hq : SafeChar q = false) (items : List Item)
    (hok : SkelOK items) (hch : check p items = true)
    (src dst : List Char) (hsrc : src = expandA p items) (hdst : dst = expandB r items) :
    ∀ t, replaceAll p r (src ++ t) = dst ++ replaceAll p r t := by
  intro t
  rw [hsrc, hdst]
  exact replaceAll_skel p r q qs hp hq items hok hch t

theorem lit_step (p r : List Char) (q : Char) (qs : List Char)
    (hp : p = q :: qs) (hq : SafeChar q = false) (L : List Char)
    (hch : check p [Item.lit L] = true) :
    ∀ t, replaceAll p r (L ++ t) = L ++ replaceAll p r t :=
  skel_step p r q qs hp hq [Item.lit L] True.intro hch L L
    (by simp [expandA]) (by simp [expandB])

theorem append_merge (u v w : List Char) (h : u ++ v = w) :
    ∀ x : List Char, u ++ (v ++ x) = w ++ x := by
  intro x
  rw [← List.append_assoc, h]

/-! The inputs block of the proof text under each replacement pass. -/

theorem quotedInputs_transparent (p r : List Char) (q : Char) (qs : List Char)
    (hp : p = q :: qs) (hq : SafeChar q = false)
    (h1 : ∀ d : List Char, check p [Item.lit ['"'], Item.lit (str "Fr("), Item.hole d,
      Item.lit (str ")"), Item.lit ['"']] = true)
    (h2 : ∀ d : List Char, check p [Item.lit ['"'], Item.lit (str "Fr("), Item.hole d,
      Item.lit (str ")"), Item.lit ['"'], Item.lit [','], Item.lit [' ']] = true) :
    ∀ (ins : List FValue) (t : List Char),
    replaceAll p r (quotedInputs ins ++ t) = quotedInputs ins ++ replaceAll p r t := by
  intro ins
  induction ins with
  | nil => intro t; rfl
  | cons v rest ih =>
    intro t
    cases rest with
    | nil =>
      exact skel_step p r q qs hp hq
        [Item.lit ['"'], Item.lit (str "Fr("), Item.hole (natDec v), Item.lit (str ")"),
          Item.lit ['"']]
        ⟨natDec_good v, True.intro⟩ (h1 (natDec v))
        (quotedInputs [v]) (quotedInputs [v])
        (by simp [quotedInputs, frDisplay, expandA, List.append_assoc])
        (by simp [quotedInputs, frDisplay, expandB, List.append_assoc]) t
    | cons v2 rest2 =>
      have e : quotedInputs (v :: v2 :: rest2) ++ t =
          ('"' :: (frDisplay v ++ str "\", ")) ++ (quotedInputs (v2 :: rest2) ++ t) := by
        simp [quotedInputs, List.append_assoc, str]
      rw [e, skel_step p r q qs hp hq
        [Item.lit ['"'], Item.lit (str "Fr("), Item.hole (natDec v), Item.lit (str ")"),
          Item.lit ['"'], Item.lit [','], Item.lit [' ']]
        ⟨natDec_good v, True.intro⟩ (h2 (natDec v))
        ('"' :: (frDisplay v ++ str "\", ")) ('"' :: (frDisplay v ++ str "\", "))
        (by simp [frDisplay, expandA, List.append_assoc, str])
        (by simp [frDisplay, expandB, List.append_assoc, str])
        (quotedInputs (v2 :: rest2) ++ t), ih t]
      simp [quotedInputs, List.append_assoc, str]

theorem quotedInputs_pass9 :
    ∀ (ins : List FValue) (t : List Char),
    replaceAll (str "Fr(") [] (quotedInputs ins ++ t) =
      inputsNoFr ins ++ replaceAll (str "Fr(") [] t := by
  intro ins
  induction ins with
  | nil => intro t; rfl
  | cons v rest ih =>
    intro t
    cases rest with
    | nil =>
      exact skel_step (str "Fr(") [] 'F' (str "r(") rfl (by decide)
        [Item.lit ['"'], Item.hit, Item.hole (natDec v), Item.lit (str ")"), Item.lit ['"']]
        ⟨natDec_good v, True.intro⟩ rfl
        (quotedInputs [v]) (inputsNoFr [v])
        (by simp [quotedInputs, frDisplay, expandA, List.append_assoc])
        (by simp [inputsNoFr, expandB, List.append_assoc]) t
    | cons v2 rest2 =>
      have e : quotedInputs (v :: v2 :: rest2) ++ t =
          ('"' :: (frDisplay v ++ str "\", ")) ++ (quotedInputs (v2 :: rest2) ++ t) := by
        simp [quotedInputs, List.append_assoc, str]
      rw [e, skel_step (str "Fr(") [] 'F' (str "r(") rfl (by decide)
        [Item.lit ['"'], Item.hit, Item.hole (natDec v), Item.lit (str ")"), Item.lit ['"'],
          Item.lit [','], Item.lit [' ']]
        ⟨natDec_good v, True.intro⟩ rfl
        ('"' :: (frDisplay v ++ str "\", "))
        ('"' :: (natDec v ++ (str ")" ++ str "\", ")))
        (by simp [frDisplay, expandA, List.append_assoc, str])
        (by simp [expandB, List.append_assoc, str])
        (quotedInputs (v2 :: rest2) ++ t), ih t]
      simp [inputsNoFr, List.append_assoc, str]

theorem inputsNoFr_pass10 :
    ∀ (ins : List FValue) (t : List Char),
    replaceAll (str ")") [] (inputsNoFr ins ++ t) =
      jsonInputs ins ++ replaceAll (str ")") [] t := by
  intro ins
  induction ins with
  | nil => intro t; rfl
  | cons v rest ih =>
    intro t
    cases rest with
    | nil =>
      exact skel_step (str ")") [] ')' [] rfl (by decide)
        [Item.lit ['"'], Item.hole (natDec v), Item.hit, Item.lit ['"']]
        ⟨natDec_good v, True.intro⟩ rfl
        (inputsNoFr [v]) (jsonInputs [v])
        (by simp [inputsNoFr, expandA, List.append_assoc, str])
        (by simp [jsonInputs, expandB, List.append_assoc]) t
    | cons v2 rest2 =>
      have e : inputsNoFr (v :: v2 :: rest2) ++ t =
          ('"' :: (natDec v ++ (str ")" ++ str "\", "))) ++ (inputsNoFr (v2 :: rest2) ++ t) := by
        simp [inputsNoFr, List.append_assoc, str]
      rw [e, skel_step (str ")") [] ')' [] rfl (by decide)
        [Item.lit ['"'], Item.hole (natDec v), Item.hit, Item.lit ['"'],
          Item.lit [','], Item.lit [' ']]
        ⟨natDec_good v, True.intro⟩ rfl
        ('"' :: (natDec v ++ (str ")" ++ str "\", ")))
        ('"' :: (natDec v ++ str "\", "))
        (by simp [expandA, List.append_assoc, str])
        (by simp [expandB, List.append_assoc, str])
        (inputsNoFr (v2 :: rest2) ++ t), ih t]
      simp [jsonInputs, List.append_assoc, str]

/-! The basis-point block of the verifying-key text under each
replacement pass. -/

theorem icMid_step (p r : List Char) (q : Char) (qs : List Char)
    (hp : p = q :: qs) (hq : SafeChar q = false) (g g' : G1Point → List Char)
    (hpt : ∀ (pt : G1Point) (t : List Char), GoodStr pt.x → GoodStr pt.y →
      replaceAll p r ((g pt ++ str "\n") ++ t) = (g' pt ++ str "\n") ++ replaceAll p r t)
    (hlast : ∀ pt : G1Point, GoodStr pt.x → GoodStr pt.y →
      replaceAll p r (g pt) = g' pt)
    (hch : ∀ d : List Char, check p [Item.lit (str "vk.gammaABC["), Item.hole d,
      Item.lit (str "] = ")] = true) :
    ∀ (ics : List G1Point) (i : Nat), (∀ pt ∈ ics, GoodStr pt.x ∧ GoodStr pt.y) →
    replaceAll p r (icMid g i ics) = icMid g' i ics := by
  intro ics
  induction ics with
  | nil => intro i _; rfl
  | cons x rest ih =>
    intro i hic
    obtain ⟨hx, hy⟩ := hic x (by simp)
    have hpre := skel_step p r q qs hp hq
      [Item.lit (str "vk.gammaABC["), Item.hole (natDec i), Item.lit (str "] = ")]
      ⟨natDec_good i, True.intro⟩ (hch (natDec i))
      (str "vk.gammaABC[" ++ (natDec i ++ str "] = "))
      (str "vk.gammaABC[" ++ (natDec i ++ str "] = "))
      (by simp [expandA, List.append_assoc]) (by simp [expandB, List.append_assoc])
    cases rest with
    | nil =>
      have e : icMid g i [x] =
          (str "vk.gammaABC[" ++ (natDec i ++ str "] = ")) ++ g x := by
        simp [icMid, List.append_assoc]
      rw [e, hpre (g x), hlast x hx hy]
      simp [icMid, List.append_assoc]
    | cons x2 rest2 =>
      have e : icMid g i (x :: x2 :: rest2) =
          (str "vk.gammaABC[" ++ (natDec i ++ str "] = ")) ++
            ((g x ++ str "\n") ++ icMid g (i + 1) (x2 :: rest2)) := by
        simp [icMid, List.append_assoc]
      rw [e, hpre _, hpt x _ hx hy, ih (i + 1) (fun pt hm => hic pt (by simp [hm]))]
      simp [icMid, List.append_assoc]

theorem g1pt_nl_v1 (pt : G1Point) (hx : GoodStr pt.x) (hy : GoodStr pt.y) :
    ∀ t, replaceAll (str "G2(x=Fq2(Fq(") (str "[[")
      ((G1Point.display pt ++ str "\n") ++ t) =
      (G1Point.display pt ++ str "\n") ++ replaceAll (str "G2(x=Fq2(Fq(") (str "[[") t :=
  skel_step (str "G2(x=Fq2(Fq(") (str "[[") 'G' (str "2(x=Fq2(Fq(") rfl (by decide)
    [Item.lit (str "G1(x=Fq("), Item.hole pt.x, Item.lit (str "), y=Fq("), Item.hole pt.y, Item.lit (str "))"), Item.lit (str "\n")]
    ⟨hx, hy, True.intro⟩ rfl
    (G1Point.display pt ++ str "\n") (G1Point.display pt ++ str "\n")
    (by simp [G1Point.display, expandA, List.append_assoc, str])
    (by simp [G1Point.display, expandB, List.append_assoc, str])

theorem g1pt_last_v1 (pt : G1Point) (hx : GoodStr pt.x) (hy : GoodStr pt.y) :
    replaceAll (str "G2(x=Fq2(Fq(") (str "[[") (G1Point.display pt) = G1Point.display pt := by
  have h1 := skel_step (str "G2(x=Fq2(Fq(") (str "[[") 'G' (str "2(x=Fq2(Fq(") rfl (by decide)
    [Item.lit (str "G1(x=Fq("), Item.hole pt.x, Item.lit (str "), y=Fq(")]
    ⟨hx, True.intro⟩ rfl
    (str "G1(x=Fq(" ++ (pt.x ++ str "), y=Fq(")) (str "G1(x=Fq(" ++ (pt.x ++ str "), y=Fq("))
    (by simp [expandA, List.append_assoc, str])
    (by simp [expandB, List.append_assoc, str])
    (pt.y ++ str "))")
  have e : G1Point.display pt = (str "G1(x=Fq(" ++ (pt.x ++ str "), y=Fq(")) ++ (pt.y ++ str "))") := by
    simp [G1Point.display, List.append_assoc]
  rw [e, h1,
    replaceAll_safe_transparent (str "G2(x=Fq2(Fq(") (str "[[") 'G' (str "2(x=Fq2(Fq(") rfl (by decide) pt.y (str "))") hy.2,
    show replaceAll (str "G2(x=Fq2(Fq(") (str "[[") (str "))") = str "))" from by decide]

theorem g1pt_nl_v2 (pt : G1Point) (hx : GoodStr pt.x) (hy : GoodStr pt.y) :
    ∀ t, replaceAll (str "), y=Fq(") (str ", ")
      ((G1Point.display pt ++ str "\n") ++ t) =
      (g1V2 pt ++ str "\n") ++ replaceAll (str "), y=Fq(") (str ", ") t :=
  skel_step (str "), y=Fq(") (str ", ") ')' (str ", y=Fq(") rfl (by decide)
    [Item.lit (str "G1(x=Fq("), Item.hole pt.x, Item.hit, Item.hole pt.y, Item.lit (str "))"), Item.lit (str "\n")]
    ⟨hx, hy, True.intro⟩ rfl
    (G1Point.display pt ++ str "\n") (g1V2 pt ++ str "\n")
    (by simp [G1Point.display, expandA, List.append_assoc, str])
    (by simp [g1V2, expandB, List.append_assoc, str])

theorem g1pt_last_v2 (pt : G1Point) (hx : GoodStr pt.x) (hy : GoodStr pt.y) :
    replaceAll (str "), y=Fq(") (str ", ") (G1Point.display pt) = g1V2 pt := by
  have h1 := skel_step (str "), y=Fq(") (str ", ") ')' (str ", y=Fq(") rfl (by decide)
    [Item.lit (str "G1(x=Fq("), Item.hole pt.x, Item.hit]
    ⟨hx, True.intro⟩ rfl
    (str "G1(x=Fq(" ++ (pt.x ++ str "), y=Fq(")) (str "G1(x=Fq(" ++ (pt.x ++ str ", "))
    (by simp [expandA, List.append_assoc, str])
    (by simp [expandB, List.append_assoc, str])
    (pt.y ++ str "))")
  have e : G1Point.display pt = (str "G1(x=Fq(" ++ (pt.x ++ str "), y=Fq(")) ++ (pt.y ++ str "))") := by
    simp [G1Point.display, List.append_assoc]
  rw [e, h1,
    replaceAll_safe_transparent (str "), y=Fq(") (str ", ") ')' (str ", y=Fq(") rfl (by decide) pt.y (str "))") hy.2,
    show replaceAll (str "), y=Fq(") (str ", ") (str "))") = str "))" from by decide]
  simp [g1V2, List.append_assoc]

theorem g1pt_nl_v3 (pt : G1Point) (hx : GoodStr pt.x) (hy : GoodStr pt.y) :
    ∀ t, replaceAll (str "G1(x=Fq(") (str "[")
      ((g1V2 pt ++ str "\n") ++ t) =
      (g1V3 pt ++ str "\n") ++ replaceAll (str "G1(x=Fq(") (str "[") t :=
  skel_step (str "G1(x=Fq(") (str "[") 'G' (str "1(x=Fq(") rfl (by decide)
    [Item.hit, Item.hole pt.x, Item.lit (str ", "), Item.hole pt.y, Item.lit (str "))"), Item.lit (str "\n")]
    ⟨hx, hy, True.intro⟩ rfl
    (g1V2 pt ++ str "\n") (g1V3 pt ++ str "\n")
    (by simp [g1V2, expandA, List.append_assoc, str])
    (by simp [g1V3, expandB, List.append_assoc, str])

theorem g1pt_last_v3 (pt : G1Point) (hx : GoodStr pt.x) (hy : GoodStr pt.y) :
    replaceAll (str "G1(x=Fq(") (str "[") (g1V2 pt) = g1V3 pt := by
  have h1 := skel_step (str "G1(x=Fq(") (str "[") 'G' (str "1(x=Fq(") rfl (by decide)
    [Item.hit, Item.hole pt.x, Item.lit (str ", ")]
    ⟨hx, True.intro⟩ rfl
    (str "G1(x=Fq(" ++ (pt.x ++ str ", ")) (str "[" ++ (pt.x ++ str ", "))
    (by simp [expandA, List.append_assoc, str])
    (by simp [expandB, List.append_assoc, str])
    (pt.y ++ str "))")
  have e : g1V2 pt = (str "G1(x=Fq(" ++ (pt.x ++ str ", ")) ++ (pt.y ++ str "))") := by
    simp [g1V2, List.append_assoc]
  rw [e, h1,
    replaceAll_safe_transparent (str "G1(x=Fq(") (str "[") 'G' (str "1(x=Fq(") rfl (by decide) pt.y (str "))") hy.2,
    show replaceAll (str "G1(x=Fq(") (str "[") (str "))") = str "))" from by decide]
  simp [g1V3, List.append_assoc]

theorem g1pt_nl_v4 (pt : G1Point) (hx : GoodStr pt.x) (hy : GoodStr pt.y) :
    ∀ t, replaceAll (str ") + Fq(") (str ", ")
      ((g1V3 pt ++ str "\n") ++ t) =
      (g1V3 pt ++ str "\n") ++ replaceAll (str ") + Fq(") (str ", ") t :=
  skel_step (str ") + Fq(") (str ", ") ')' (str " + Fq(") rfl (by decide)
    [Item.lit (str "["), Item.hole pt.x, Item.lit (str ", "), Item.hole pt.y, Item.lit (str "))"), Item.lit (str "\n")]
    ⟨hx, hy, True.intro⟩ rfl
    (g1V3 pt ++ str "\n") (g1V3 pt ++ str "\n")
    (by simp [g1V3, expandA, List.append_assoc, str])
    (by simp [g1V3, expandB, List.append_assoc, str])

theorem g1pt_last_v4 (pt : G1Point) (hx : GoodStr pt.x) (hy : GoodStr pt.y) :
    replaceAll (str ") + Fq(") (str ", ") (g1V3 pt) = g1V3 pt := by
  have h1 := skel_step (str ") + Fq(") (str ", ") ')' (str " + Fq(") rfl (by decide)
    [Item.lit (str "["), Item.hole pt.x, Item.lit (str ", ")]
    ⟨hx, True.intro⟩ rfl
    (str "[" ++ (pt.x ++ str ", ")) (str "[" ++ (pt.x ++ str ", "))
    (by simp [expandA, List.append_assoc, str])
    (by simp [expandB, List.append_assoc, str])
    (pt.y ++ str "))")
  have e : g1V3 pt = (str "[" ++ (pt.x ++ str ", ")) ++ (pt.y ++ str "))") := by
    simp [g1V3, List.append_assoc]
  rw [e, h1,
    replaceAll_safe_transparent (str ") + Fq(") (str ", ") ')' (str " + Fq(") rfl (by decide) pt.y (str "))") hy.2,
    show replaceAll (str ") + Fq(") (str ", ") (str "))") = str "))" from by decide]

theorem g1pt_nl_v5 (pt : G1Point) (hx : GoodStr pt.x) (hy : GoodStr pt.y) :
    ∀ t, replaceAll (str "))") (str "]")
      ((g1V3 pt ++ str "\n") ++ t) =
      (g1Bracket pt ++ str "\n") ++ replaceAll (str "))") (str "]") t :=
  skel_step (str "))") (str "]") ')' (str ")") rfl (by decide)
    [Item.lit (str "["), Item.hole pt.x, Item.lit (str ", "), Item.hole pt.y, Item.hit, Item.lit (str "\n")]
    ⟨hx, hy, True.intro⟩ rfl
    (g1V3 pt ++ str "\n") (g1Bracket pt ++ str "\n")
    (by simp [g1V3, expandA, List.append_assoc, str])
    (by simp [g1Bracket, expandB, List.append_assoc, str])

theorem g1pt_last_v5 (pt : G1Point) (hx : GoodStr pt.x) (hy : GoodStr pt.y) :
    replaceAll (str "))") (str "]") (g1V3 pt) = g1Bracket pt := by
  have h1 := skel_step (str "))") (str "]") ')' (str ")") rfl (by decide)
    [Item.lit (str "["), Item.hole pt.x, Item.lit (str ", ")]
    ⟨hx, True.intro⟩ rfl
    (str "[" ++ (pt.x ++ str ", ")) (str "[" ++ (pt.x ++ str ", "))
    (by simp [expandA, List.append_assoc, str])
    (by simp [expandB, List.append_assoc, str])
    (pt.y ++ str "))")
  have e : g1V3 pt = (str "[" ++ (pt.x ++ str ", ")) ++ (pt.y ++ str "))") := by
    simp [g1V3, List.append_assoc]
  rw [e, h1,
    replaceAll_safe_transparent (str "))") (str "]") ')' (str ")") rfl (by decide) pt.y (str "))") hy.2,
    show replaceAll (str "))") (str "]") (str "))") = str "]" from by decide]
  simp [g1Bracket, List.append_assoc]

theorem g1pt_nl_v6 (pt : G1Point) (hx : GoodStr pt.x) (hy : GoodStr pt.y) :
    ∀ t, replaceAll (str ") * u), y=Fq2(Fq(") (str "], [")
      ((g1Bracket pt ++ str "\n") ++ t) =
      (g1Bracket pt ++ str "\n") ++ replaceAll (str ") * u), y=Fq2(Fq(") (str "], [") t :=
  skel_step (str ") * u), y=Fq2(Fq(") (str "], [") ')' (str " * u), y=Fq2(Fq(") rfl (by decide)
    [Item.lit (str "["), Item.hole pt.x, Item.lit (str ", "), Item.hole pt.y, Item.lit (str "]"), Item.lit (str "\n")]
    ⟨hx, hy, True.intro⟩ rfl
    (g1Bracket pt ++ str "\n") (g1Bracket pt ++ str "\n")
    (by simp [g1Bracket, expandA, List.append_assoc, str])
    (by simp [g1Bracket, expandB, List.append_assoc, str])

theorem g1pt_last_v6 (pt : G1Point) (hx : GoodStr pt.x) (hy : GoodStr pt.y) :
    replaceAll (str ") * u), y=Fq2(Fq(") (str "], [") (g1Bracket pt) = g1Bracket pt := by
  have h1 := skel_step (str ") * u), y=Fq2(Fq(") (str "], [") ')' (str " * u), y=Fq2(Fq(") rfl (by decide)
    [Item.lit (str "["), Item.hole pt.x, Item.lit (str ", ")]
    ⟨hx, True.intro⟩ rfl
    (str "[" ++ (pt.x ++ str ", ")) (str "[" ++ (pt.x ++ str ", "))
    (by simp [expandA, List.append_assoc, str])
    (by simp [expandB, List.append_assoc, str])
    (pt.y ++ str "]")
  have e : g1Bracket pt = (str "[" ++ (pt.x ++ str ", ")) ++ (pt.y ++ str "]") := by
    simp [g1Bracket, List.append_assoc]
  rw [e, h1,
    replaceAll_safe_transparent (str ") * u), y=Fq2(Fq(") (str "], [") ')' (str " * u), y=Fq2(Fq(") rfl (by decide) pt.y (str "]") hy.2,
    show replaceAll (str ") * u), y=Fq2(Fq(") (str "], [") (str "]") = str "]" from by decide]

theorem g1pt_nl_v7 (pt : G1Point) (hx : GoodStr pt.x) (hy : GoodStr pt.y) :
    ∀ t, replaceAll (str ") * u]") (str "]]")
      ((g1Bracket pt ++ str "\n") ++ t) =
      (g1Bracket pt ++ str "\n") ++ replaceAll (str ") * u]") (str "]]") t :=
  skel_step (str ") * u]") (str "]]") ')' (str " * u]") rfl (by decide)
    [Item.lit (str "["), Item.hole pt.x, Item.lit (str ", "), Item.hole pt.y, Item.lit (str "]"), Item.lit (str "\n")]
    ⟨hx, hy, True.intro⟩ rfl
    (g1Bracket pt ++ str "\n") (g1Bracket pt ++ str "\n")
    (by simp [g1Bracket, expandA, List.append_assoc, str])
    (by simp [g1Bracket, expandB, List.append_assoc, str])

theorem g1pt_last_v7 (pt : G1Point) (hx : GoodStr pt.x) (hy : GoodStr pt.y) :
    replaceAll (str ") * u]") (str "]]") (g1Bracket pt) = g1Bracket pt := by
  have h1 := skel_step (str ") * u]") (str "]]") ')' (str " * u]") rfl (by decide)
    [Item.lit (str "["), Item.hole pt.x, Item.lit (str ", ")]
    ⟨hx, True.intro⟩ rfl
    (str "[" ++ (pt.x ++ str ", ")) (str "[" ++ (pt.x ++ str ", "))
    (by simp [expandA, List.append_assoc, str])
    (by simp [expandB, List.append_assoc, str])
    (pt.y ++ str "]")
  have e : g1Bracket pt = (str "[" ++ (pt.x ++ str ", ")) ++ (pt.y ++ str "]") := by
    simp [g1Bracket, List.append_assoc]
  rw [e, h1,
    replaceAll_safe_transparent (str ") * u]") (str "]]") ')' (str " * u]") rfl (by decide) pt.y (str "]") hy.2,
    show replaceAll (str ") * u]") (str "]]") (str "]") = str "]" from by decide]

theorem icReg_v1 (ics : List G1Point) (i : Nat)
    (hic : ∀ pt ∈ ics, GoodStr pt.x ∧ GoodStr pt.y) :
    replaceAll (str "G2(x=Fq2(Fq(") (str "[[") (icMid G1Point.display i ics) =
      icMid G1Point.display i ics :=
  icMid_step (str "G2(x=Fq2(Fq(") (str "[[") 'G' (str "2(x=Fq2(Fq(") rfl (by decide)
    G1Point.display G1Point.display
    (fun pt t hx hy => g1pt_nl_v1 pt hx hy t) (fun pt hx hy => g1pt_last_v1 pt hx hy)
    (fun _ => rfl) ics i hic

theorem icReg_v2 (ics : List G1Point) (i : Nat)
    (hic : ∀ pt ∈ ics, GoodStr pt.x ∧ GoodStr pt.y) :
    replaceAll (str "), y=Fq(") (str ", ") (icMid G1Point.display i ics) =
      icMid g1V2 i ics :=
  icMid_step (str "), y=Fq(") (str ", ") ')' (str ", y=Fq(") rfl (by decide)
    G1Point.display g1V2
    (fun pt t hx hy => g1pt_nl_v2 pt hx hy t) (fun pt hx hy => g1pt_last_v2 pt hx hy)
    (fun _ => rfl) ics i hic

theorem icReg_v3 (ics : List G1Point) (i : Nat)
    (hic : ∀ pt ∈ ics, GoodStr pt.x ∧ GoodStr pt.y) :
    replaceAll (str "G1(x=Fq(") (str "[") (icMid g1V2 i ics) = icMid g1V3 i ics :=
  icMid_step (str "G1(x=Fq(") (str "[") 'G' (str "1(x=Fq(") rfl (by decide)
    g1V2 g1V3
    (fun pt t hx hy => g1pt_nl_v3 pt hx hy t) (fun pt hx hy => g1pt_last_v3 pt hx hy)
    (fun _ => rfl) ics i hic

theorem icReg_v4 (ics : List G1Point) (i : Nat)
    (hic : ∀ pt ∈ ics, GoodStr pt.x ∧ GoodStr pt.y) :
    replaceAll (str ") + Fq(") (str ", ") (icMid g1V3 i ics) = icMid g1V3 i ics :=
  icMid_step (str ") + Fq(") (str ", ") ')' (str " + Fq(") rfl (by decide)
    g1V3 g1V3
    (fun pt t hx hy => g1pt_nl_v4 pt hx hy t) (fun pt hx hy => g1pt_last_v4 pt hx hy)
    (fun _ => rfl) ics i hic

theorem icReg_v5 (ics : List G1Point) (i : Nat)
    (hic : ∀ pt ∈ ics, GoodStr pt.x ∧ GoodStr pt.y) :
    replaceAll (str "))") (str "]") (icMid g1V3 i ics) = icMid g1Bracket i ics :=
  icMid_step (str "))") (str "]") ')' (str ")") rfl (by decide)
    g1V3 g1Bracket
    (fun pt t hx hy => g1pt_nl_v5 pt hx hy t) (fun pt hx hy => g1pt_last_v5 pt hx hy)
    (fun _ => rfl) ics i hic

theorem icReg_v6 (ics : List G1Point) (i : Nat)
    (hic : ∀ pt ∈ ics, GoodStr pt.x ∧ GoodStr pt.y) :
    replaceAll (str ") * u), y=Fq2(Fq(") (str "], [") (icMid g1Bracket i ics) =
      icMid g1Bracket i ics :=
  icMid_step (str ") * u), y=Fq2(Fq(") (str "], [") ')' (str " * u), y=Fq2(Fq(") rfl
    (by decide) g1Bracket g1Bracket
    (fun pt t hx hy => g1pt_nl_v6 pt hx hy t) (fun pt hx hy => g1pt_last_v6 pt hx hy)
    (fun _ => rfl) ics i hic

theorem icReg_v7 (ics : List G1Point) (i : Nat)
    (hic : ∀ pt ∈ ics, GoodStr pt.x ∧ GoodStr pt.y) :
    replaceAll (str ") * u]") (str "]]") (icMid g1Bracket i ics) =
      icMid g1Bracket i ics :=
  icMid_step (str ") * u]") (str "]]") ')' (str " * u]") rfl (by decide)
    g1Bracket g1Bracket
    (fun pt t hx hy => g1pt_nl_v7 pt hx hy t) (fun pt hx hy => g1pt_last_v7 pt hx hy)
    (fun _ => rfl) ics i hic

/-- Occurrence-scan certificate for pass 1 of `serialize_vk`, on the
payload-erased skeleton of the verifying-key text. -/
theorem checkVk1 : check (str "G2(x=Fq2(Fq(")
    [Item.lit (str "vk.alpha = "),
      Item.lit (str "G1(x=Fq("),
      Item.hole [],
      Item.lit (str "), y=Fq("),
      Item.hole [],
      Item.lit (str "))"),
      Item.lit (str "\nvk.beta = "),
      Item.hit,
      Item.hole [],
      Item.lit (str ") + Fq("),
      Item.hole [],
      Item.lit (str ") * u), y=Fq2(Fq("),
      Item.hole [],
      Item.lit (str ") + Fq("),
      Item.hole [],
      Item.lit (str ") * u))"),
      Item.lit (str "\nvk.gamma = "),
      Item.hit,
      Item.hole [],
      Item.lit (str ") + Fq("),
      Item.hole [],
      Item.lit (str ") * u), y=Fq2(Fq("),
      Item.hole [],
      Item.lit (str ") + Fq("),
      Item.hole [],
      Item.lit (str ") * u))"),
      Item.lit (str "\nvk.delta = "),
      Item.hit,
      Item.hole [],
      Item.lit (str ") + Fq("),
      Item.hole [],
      Item.lit (str ") * u), y=Fq2(Fq("),
      Item.hole [],
      Item.lit (str ") + Fq("),
      Item.hole [],
      Item.lit (str ") * u))"),
      Item.lit (str "\nvk.gammaABC.len() = "),
      Item.hole [],
      Item.lit (str "\n")] = true := by decide

/-- Occurrence-scan certificate for pass 2 of `serialize_vk`, on the
payload-erased skeleton of the verifying-key text. -/
theorem checkVk2 : check (str "), y=Fq(")
    [Item.lit (str "vk.alpha = "),
      Item.lit (str "G1(x=Fq("),
      Item.hole [],
      Item.hit,
      Item.hole [],
      Item.lit (str "))"),
      Item.lit (str "\nvk.beta = "),
      Item.lit (str "[["),
      Item.hole [],
      Item.lit (str ") + Fq("),
      Item.hole [],
      Item.lit (str ") * u), y=Fq2(Fq("),
      Item.hole [],
      Item.lit (str ") + Fq("),
      Item.hole [],
      Item.lit (str ") * u))"),
      Item.lit (str "\nvk.gamma = "),
      Item.lit (str "[["),
      Item.hole [],
      Item.lit (str ") + Fq("),
      Item.hole [],
      Item.lit (str ") * u), y=Fq2(Fq("),
      Item.hole [],
      Item.lit (str ") + Fq("),
      Item.hole [],
      Item.lit (str ") * u))"),
      Item.lit (str "\nvk.delta = "),
      Item.lit (str "[["),
      Item.hole [],
      Item.lit (str ") + Fq("),
      Item.hole [],
      Item.lit (str ") * u), y=Fq2(Fq("),
      Item.hole [],
      Item.lit (str ") + Fq("),
      Item.hole [],
      Item.lit (str ") * u))"),
      Item.lit (str "\nvk.gammaABC.len() = "),
      Item.hole [],
      Item.lit (str "\n")] = true := by decide

/-- Occurrence-scan certificate for pass 3 of `serialize_vk`, on the
payload-erased skeleton of the verifying-key text. -/
theorem checkVk3 : check (str "G1(x=Fq(")
    [Item.lit (str "vk.alpha = "),
      Item.hit,
      Item.hole [],
      Item.lit (str ", "),
      Item.hole [],
      Item.lit (str "))"),
      Item.lit (str "\nvk.beta = "),
      Item.lit (str "[["),
      Item.hole [],
      Item.lit (str ") + Fq("),
      Item.hole [],
      Item.lit (str ") * u), y=Fq2(Fq("),
      Item.hole [],
      Item.lit (str ") + Fq("),
      Item.hole [],
      Item.lit (str ") * u))"),
      Item.lit (str "\nvk.gamma = "),
      Item.lit (str "[["),
      Item.hole [],
      Item.lit (str ") + Fq("),
      Item.hole [],
      Item.lit (str ") * u), y=Fq2(Fq("),
      Item.hole [],
      Item.lit (str ") + Fq("),
      Item.hole [],
      Item.lit (str ") * u))"),
      Item.lit (str "\nvk.delta = "),
      Item.lit (str "[["),
      Item.hole [],
      Item.lit (str ") + Fq("),
      Item.hole [],
      Item.lit (str ") * u), y=Fq2(Fq("),
      Item.hole [],
      Item.lit (str ") + Fq("),
      Item.hole [],
      Item.lit (str ") * u))"),
      Item.lit (str "\nvk.gammaABC.len() = "),
      Item.hole [],
      Item.lit (str "\n")] = true := by decide

/-- Occurrence-scan certificate for pass 4 of `serialize_vk`, on the
payload-erased skeleton of the verifying-key text. -/
theorem checkVk4 : check (str ") + Fq(")
    [Item.lit (str "vk.alpha = "),
      Item.lit (str "["),
      Item.hole [],
      Item.lit (str ", "),
      Item.hole [],
      Item.lit (str "))"),
      Item.lit (str "\nvk.beta = "),
      Item.lit (str "[["),
      Item.hole [],
      Item.hit,
      Item.hole [],
      Item.lit (str ") * u), y=Fq2(Fq("),
      Item.hole [],
      Item.hit,
      Item.hole [],
      Item.lit (str ") * u))"),
      Item.lit (str "\nvk.gamma = "),
      Item.lit (str "[["),
      Item.hole [],
      Item.hit,
      Item.hole [],
      Item.lit (str ") * u), y=Fq2(Fq("),
      Item.hole [],
      Item.hit,
      Item.hole [],
      Item.lit (str ") * u))"),
      Item.lit (str "\nvk.delta = "),
      Item.lit (str "[["),
      Item.hole [],
      Item.hit,
      Item.hole [],
      Item.lit (str ") * u), y=Fq2(Fq("),
      Item.hole [],
      Item.hit,
      Item.hole [],
      Item.lit (str ") * u))"),
      Item.lit (str "\nvk.gammaABC.len() = "),
      Item.hole [],
      Item.lit (str "\n")] = true := by decide

/-- Occurrence-scan certificate for pass 5 of `serialize_vk`, on the
payload-erased skeleton of the verifying-key text. -/
theorem checkVk5 : check (str "))")
    [Item.lit (str "vk.alpha = "),
      Item.lit (str "["),
      Item.hole [],
      Item.lit (str ", "),
      Item.hole [],
      Item.hit,
      Item.lit (str "\nvk.beta = "),
      Item.lit (str "[["),
      Item.hole [],
      Item.lit (str ", "),
      Item.hole [],
      Item.lit (str ") * u), y=Fq2(Fq("),
      Item.hole [],
      Item.lit (str ", "),
      Item.hole [],
      Item.lit (str ") * u"),
      Item.hit,
      Item.lit (str "\nvk.gamma = "),
      Item.lit (str "[["),
      Item.hole [],
      Item.lit (str ", "),
      Item.hole [],
      Item.lit (str ") * u), y=Fq2(Fq("),
      Item.hole [],
      Item.lit (str ", "),
      Item.hole [],
      Item.lit (str ") * u"),
      Item.hit,
      Item.lit (str "\nvk.delta = "),
      Item.lit (str "[["),
      Item.hole [],
      Item.lit (str ", "),
      Item.hole [],
      Item.lit (str ") * u), y=Fq2(Fq("),
      Item.hole [],
      Item.lit (str ", "),
      Item.hole [],
      Item.lit (str ") * u"),
      Item.hit,
      Item.lit (str "\nvk.gammaABC.len() = "),
      Item.hole [],
      Item.lit (str "\n")] = true := by decide

/-- Occurrence-scan certificate for pass 6 of `serialize_vk`, on the
payload-erased skeleton of the verifying-key text. -/
theorem checkVk6 : check (str ") * u), y=Fq2(Fq(")
    [Item.lit (str "vk.alpha = "),
      Item.lit (str "["),
      Item.hole [],
      Item.lit (str ", "),
      Item.hole [],
      Item.lit (str "]"),
      Item.lit (str "\nvk.beta = "),
      Item.lit (str "[["),
      Item.hole [],
      Item.lit (str ", "),
      Item.hole [],
      Item.hit,
      Item.hole [],
      Item.lit (str ", "),
      Item.hole [],
      Item.lit (str ") * u]"),
      Item.lit (str "\nvk.gamma = "),
      Item.lit (str "[["),
      Item.hole [],
      Item.lit (str ", "),
      Item.hole [],
      Item.hit,
      Item.hole [],
      Item.lit (str ", "),
      Item.hole [],
      Item.lit (str ") * u]"),
      Item.lit (str "\nvk.delta = "),
      Item.lit (str "[["),
      Item.hole [],
      Item.lit (str ", "),
      Item.hole [],
      Item.hit,
      Item.hole [],
      Item.lit (str ", "),
      Item.hole [],
      Item.lit (str ") * u]"),
      Item.lit (str "\nvk.gammaABC.len() = "),
      Item.hole [],
      Item.lit (str "\n")] = true := by decide

/-- Occurrence-scan certificate for pass 7 of `serialize_vk`, on the
payload-erased skeleton of the verifying-key text. -/
theorem checkVk7 : check (str ") * u]")
    [Item.lit (str "vk.alpha = "),
      Item.lit (str "["),
      Item.hole [],
      Item.lit (str ", "),
      Item.hole [],
      Item.lit (str "]"),
      Item.lit (str "\nvk.beta = "),
      Item.lit (str "[["),
      Item.hole [],
      Item.lit (str ", "),
      Item.hole [],
      Item.lit (str "], ["),
      Item.hole [],
      Item.lit (str ", "),
      Item.hole [],
      Item.hit,
      Item.lit (str "\nvk.gamma = "),
      Item.lit (str "[["),
      Item.hole [],
      Item.lit (str ", "),
      Item.hole [],
      Item.lit (str "], ["),
      Item.hole [],
      Item.lit (str ", "),
      Item.hole [],
      Item.hit,
      Item.lit (str "\nvk.delta = "),
      Item.lit (str "[["),
      Item.hole [],
      Item.lit (str ", "),
      Item.hole [],
      Item.lit (str "], ["),
      Item.hole [],
      Item.lit (str ", "),
      Item.hole [],
      Item.hit,
      Item.lit (str "\nvk.gammaABC.len() = "),
      Item.hole [],
      Item.lit (str "\n")] = true := by decide

set_option maxHeartbeats 2000000 in
set_option maxRecDepth 8000 in
/-- C8 (amended): `serialize_vk` writes one line per verifying-key
component in the source order alpha, beta, gamma, delta — not the claimed
order alpha, delta, beta, gamma — followed by the `vk.gammaABC.len()`
count line and one indexed `vk.gammaABC[i]` line per basis point: whenever
every displayed coordinate is a nonempty numeral string, the seven
replacement passes turn the `format!` text into exactly the bracketed
rendering `vkText`. -/
theorem c8_serialize_vk_amended (vk : VerifyingKey)
    (hax : GoodStr vk.alpha_g1.x)
    (hay : GoodStr vk.alpha_g1.y)
    (hbx0 : GoodStr vk.beta_g2.x0)
    (hbx1 : GoodStr vk.beta_g2.x1)
    (hby0 : GoodStr vk.beta_g2.y0)
    (hby1 : GoodStr vk.beta_g2.y1)
    (hgx0 : GoodStr vk.gamma_g2.x0)
    (hgx1 : GoodStr vk.gamma_g2.x1)
    (hgy0 : GoodStr vk.gamma_g2.y0)
    (hgy1 : GoodStr vk.gamma_g2.y1)
    (hdx0 : GoodStr vk.delta_g2.x0)
    (hdx1 : GoodStr vk.delta_g2.x1)
    (hdy0 : GoodStr vk.delta_g2.y0)
    (hdy1 : GoodStr vk.delta_g2.y1)
    (hic : ∀ pt ∈ vk.ic, GoodStr pt.x ∧ GoodStr pt.y) :
    serialize_vk vk = vkText vk := by
  have s1 := skel_step (str "G2(x=Fq2(Fq(") (str "[[") 'G' (str "2(x=Fq2(Fq(") rfl (by decide)
    [Item.lit (str "vk.alpha = "),
      Item.lit (str "G1(x=Fq("),
      Item.hole vk.alpha_g1.x,
      Item.lit (str "), y=Fq("),
      Item.hole vk.alpha_g1.y,
      Item.lit (str "))"),
      Item.lit (str "\nvk.beta = "),
      Item.hit,
      Item.hole vk.beta_g2.x0,
      Item.lit (str ") + Fq("),
      Item.hole vk.beta_g2.x1,
      Item.lit (str ") * u), y=Fq2(Fq("),
      Item.hole vk.beta_g2.y0,
      Item.lit (str ") + Fq("),
      Item.hole vk.beta_g2.y1,
      Item.lit (str ") * u))"),
      Item.lit (str "\nvk.gamma = "),
      Item.hit,
      Item.hole vk.gamma_g2.x0,
      Item.lit (str ") + Fq("),
      Item.hole vk.gamma_g2.x1,
      Item.lit (str ") * u), y=Fq2(Fq("),
      Item.hole vk.gamma_g2.y0,
      Item.lit (str ") + Fq("),
      Item.hole vk.gamma_g2.y1,
      Item.lit (str ") * u))"),
      Item.lit (str "\nvk.delta = "),
      Item.hit,
      Item.hole vk.delta_g2.x0,
      Item.lit (str ") + Fq("),
      Item.hole vk.delta_g2.x1,
      Item.lit (str ") * u), y=Fq2(Fq("),
      Item.hole vk.delta_g2.y0,
      Item.lit (str ") + Fq("),
      Item.hole vk.delta_g2.y1,
      Item.lit (str ") * u))"),
      Item.lit (str "\nvk.gammaABC.len() = "),
      Item.hole (natDec vk.ic.length),
      Item.lit (str "\n")]
    ⟨hax, hay, hbx0, hbx1, hby0, hby1, hgx0, hgx1, hgy0, hgy1, hdx0, hdx1,
      hdy0, hdy1, natDec_good vk.ic.length, True.intro⟩
    (by rw [← check_shape]; exact checkVk1)
    (vkBody (G1Point.display vk.alpha_g1) (G2Point.display vk.beta_g2) (G2Point.display vk.gamma_g2)
        (G2Point.display vk.delta_g2) (natDec vk.ic.length) [])
    (vkBody (G1Point.display vk.alpha_g1) (g2V1 vk.beta_g2) (g2V1 vk.gamma_g2)
        (g2V1 vk.delta_g2) (natDec vk.ic.length) [])
    (by simp [G1Point.display, G2Point.display, vkBody, expandA, List.append_assoc, str])
    (by simp [G1Point.display, g2V1, vkBody, expandB, List.append_assoc, str])
    (icMid G1Point.display 0 vk.ic)
  have e1 : vkRaw vk =
      (vkBody (G1Point.display vk.alpha_g1) (G2Point.display vk.beta_g2) (G2Point.display vk.gamma_g2)
        (G2Point.display vk.delta_g2) (natDec vk.ic.length) []) ++ icMid G1Point.display 0 vk.ic := by
    simp [vkRaw, vkBody, List.append_assoc]
  have t1 : replaceAll (str "G2(x=Fq2(Fq(") (str "[[") (vkRaw vk) =
      vkBody (G1Point.display vk.alpha_g1) (g2V1 vk.beta_g2) (g2V1 vk.gamma_g2)
        (g2V1 vk.delta_g2) (natDec vk.ic.length) (icMid G1Point.display 0 vk.ic) := by
    rw [e1, s1, icReg_v1 vk.ic 0 hic]
    simp [vkBody, List.append_assoc]
  have s2 := skel_step (str "), y=Fq(") (str ", ") ')' (str ", y=Fq(") rfl (by decide)
    [Item.lit (str "vk.alpha = "),
      Item.lit (str "G1(x=Fq("),
      Item.hole vk.alpha_g1.x,
      Item.hit,
      Item.hole vk.alpha_g1.y,
      Item.lit (str "))"),
      Item.lit (str "\nvk.beta = "),
      Item.lit (str "[["),
      Item.hole vk.beta_g2.x0,
      Item.lit (str ") + Fq("),
      Item.hole vk.beta_g2.x1,
      Item.lit (str ") * u), y=Fq2(Fq("),
      Item.hole vk.beta_g2.y0,
      Item.lit (str ") + Fq("),
      Item.hole vk.beta_g2.y1,
      Item.lit (str ") * u))"),
      Item.lit (str "\nvk.gamma = "),
      Item.lit (str "[["),
      Item.hole vk.gamma_g2.x0,
      Item.lit (str ") + Fq("),
      Item.hole vk.gamma_g2.x1,
      Item.lit (str ") * u), y=Fq2(Fq("),
      Item.hole vk.gamma_g2.y0,
      Item.lit (str ") + Fq("),
      Item.hole vk.gamma_g2.y1,
      Item.lit (str ") * u))"),
      Item.lit (str "\nvk.delta = "),
      Item.lit (str "[["),
      Item.hole vk.delta_g2.x0,
      Item.lit (str ") + Fq("),
      Item.hole vk.delta_g2.x1,
      Item.lit (str ") * u), y=Fq2(Fq("),
      Item.hole vk.delta_g2.y0,
      Item.lit (str ") + Fq("),
      Item.hole vk.delta_g2.y1,
      Item.lit (str ") * u))"),
      Item.lit (str "\nvk.gammaABC.len() = "),
      Item.hole (natDec vk.ic.length),
      Item.lit (str "\n")]
    ⟨hax, hay, hbx0, hbx1, hby0, hby1, hgx0, hgx1, hgy0, hgy1, hdx0, hdx1,
      hdy0, hdy1, natDec_good vk.ic.length, True.intro⟩
    (by rw [← check_shape]; exact checkVk2)
    (vkBody (G1Point.display vk.alpha_g1) (g2V1 vk.beta_g2) (g2V1 vk.gamma_g2)
        (g2V1 vk.delta_g2) (natDec vk.ic.length) [])
    (vkBody (g1V2 vk.alpha_g1) (g2V1 vk.beta_g2) (g2V1 vk.gamma_g2)
        (g2V1 vk.delta_g2) (natDec vk.ic.length) [])
    (by simp [G1Point.display, g2V1, vkBody, expandA, List.append_assoc, str])
    (by simp [g1V2, g2V1, vkBody, expandB, List.append_assoc, str])
    (icMid G1Point.display 0 vk.ic)
  have e2 : vkBody (G1Point.display vk.alpha_g1) (g2V1 vk.beta_g2) (g2V1 vk.gamma_g2)
        (g2V1 vk.delta_g2) (natDec vk.ic.length) (icMid G1Point.display 0 vk.ic) =
      (vkBody (G1Point.display vk.alpha_g1) (g2V1 vk.beta_g2) (g2V1 vk.gamma_g2)
        (g2V1 vk.delta_g2) (natDec vk.ic.length) []) ++ icMid G1Point.display 0 vk.ic := by
    simp [vkBody, List.append_assoc]
  have t2 : replaceAll (str "), y=Fq(") (str ", ") (vkBody (G1Point.display vk.alpha_g1) (g2V1 vk.beta_g2) (g2V1 vk.gamma_g2)
        (g2V1 vk.delta_g2) (natDec vk.ic.length) (icMid G1Point.display 0 vk.ic)) =
      vkBody (g1V2 vk.alpha_g1) (g2V1 vk.beta_g2) (g2V1 vk.gamma_g2)
        (g2V1 vk.delta_g2) (natDec vk.ic.length) (icMid g1V2 0 vk.ic) := by
    rw [e2, s2, icReg_v2 vk.ic 0 hic]
    simp [vkBody, List.append_assoc]
  have s3 := skel_step (str "G1(x=Fq(") (str "[") 'G' (str "1(x=Fq(") rfl (by decide)
    [Item.lit (str "vk.alpha = "),
      Item.hit,
      Item.hole vk.alpha_g1.x,
      Item.lit (str ", "),
      Item.hole vk.alpha_g1.y,
      Item.lit (str "))"),
      Item.lit (str "\nvk.beta = "),
      Item.lit (str "[["),
      Item.hole vk.beta_g2.x0,
      Item.lit (str ") + Fq("),
      Item.hole vk.beta_g2.x1,
      Item.lit (str ") * u), y=Fq2(Fq("),
      Item.hole vk.beta_g2.y0,
      Item.lit (str ") + Fq("),
      Item.hole vk.beta_g2.y1,
      Item.lit (str ") * u))"),
      Item.lit (str "\nvk.gamma = "),
      Item.lit (str "[["),
      Item.hole vk.gamma_g2.x0,
      Item.lit (str ") + Fq("),
      Item.hole vk.gamma_g2.x1,
      Item.lit (str ") * u), y=Fq2(Fq("),
      Item.hole vk.gamma_g2.y0,
      Item.lit (str ") + Fq("),
      Item.hole vk.gamma_g2.y1,
      Item.lit (str ") * u))"),
      Item.lit (str "\nvk.delta = "),
      Item.lit (str "[["),
      Item.hole vk.delta_g2.x0,
      Item.lit (str ") + Fq("),
      Item.hole vk.delta_g2.x1,
      Item.lit (str ") * u), y=Fq2(Fq("),
      Item.hole vk.delta_g2.y0,
      Item.lit (str ") + Fq("),
      Item.hole vk.delta_g2.y1,
      Item.lit (str ") * u))"),
      Item.lit (str "\nvk.gammaABC.len() = "),
      Item.hole (natDec vk.ic.length),
      Item.lit (str "\n")]
    ⟨hax, hay, hbx0, hbx1, hby0, hby1, hgx0, hgx1, hgy0, hgy1, hdx0, hdx1,
      hdy0, hdy1, natDec_good vk.ic.length, True.intro⟩
    (by rw [← check_shape]; exact checkVk3)
    (vkBody (g1V2 vk.alpha_g1) (g2V1 vk.beta_g2) (g2V1 vk.gamma_g2)
        (g2V1 vk.delta_g2) (natDec vk.ic.length) [])
    (vkBody (g1V3 vk.alpha_g1) (g2V1 vk.beta_g2) (g2V1 vk.gamma_g2)
        (g2V1 vk.delta_g2) (natDec vk.ic.length) [])
    (by simp [g1V2, g2V1, vkBody, expandA, List.append_assoc, str])
    (by simp [g1V3, g2V1, vkBody, expandB, List.append_assoc, str])
    (icMid g1V2 0 vk.ic)
  have e3 : vkBody (g1V2 vk.alpha_g1) (g2V1 vk.beta_g2) (g2V1 vk.gamma_g2)
        (g2V1 vk.delta_g2) (natDec vk.ic.length) (icMid g1V2 0 vk.ic) =
      (vkBody (g1V2 vk.alpha_g1) (g2V1 vk.beta_g2) (g2V1 vk.gamma_g2)
        (g2V1 vk.delta_g2) (natDec vk.ic.length) []) ++ icMid g1V2 0 vk.ic := by
    simp [vkBody, List.append_assoc]
  have t3 : replaceAll (str "G1(x=Fq(") (str "[") (vkBody (g1V2 vk.alpha_g1) (g2V1 vk.beta_g2) (g2V1 vk.gamma_g2)
        (g2V1 vk.delta_g2) (natDec vk.ic.length) (icMid g1V2 0 vk.ic)) =
      vkBody (g1V3 vk.alpha_g1) (g2V1 vk.beta_g2) (g2V1 vk.gamma_g2)
        (g2V1 vk.delta_g2) (natDec vk.ic.length) (icMid g1V3 0 vk.ic) := by
    rw [e3, s3, icReg_v3 vk.ic 0 hic]
    simp [vkBody, List.append_assoc]
  have s4 := skel_step (str ") + Fq(") (str ", ") ')' (str " + Fq(") rfl (by decide)
    [Item.lit (str "vk.alpha = "),
      Item.lit (str "["),
      Item.hole vk.alpha_g1.x,
      Item.lit (str ", "),
      Item.hole vk.alpha_g1.y,
      Item.lit (str "))"),
      Item.lit (str "\nvk.beta = "),
      Item.lit (str "[["),
      Item.hole vk.beta_g2.x0,
      Item.hit,
      Item.hole vk.beta_g2.x1,
      Item.lit (str ") * u), y=Fq2(Fq("),
      Item.hole vk.beta_g2.y0,
      Item.hit,
      Item.hole vk.beta_g2.y1,
      Item.lit (str ") * u))"),
      Item.lit (str "\nvk.gamma = "),
      Item.lit (str "[["),
      Item.hole vk.gamma_g2.x0,
      Item.hit,
      Item.hole vk.gamma_g2.x1,
      Item.lit (str ") * u), y=Fq2(Fq("),
      Item.hole vk.gamma_g2.y0,
      Item.hit,
      Item.hole vk.gamma_g2.y1,
      Item.lit (str ") * u))"),
      Item.lit (str "\nvk.delta = "),
      Item.lit (str "[["),
      Item.hole vk.delta_g2.x0,
      Item.hit,
      Item.hole vk.delta_g2.x1,
      Item.lit (str ") * u), y=Fq2(Fq("),
      Item.hole vk.delta_g2.y0,
      Item.hit,
      Item.hole vk.delta_g2.y1,
      Item.lit (str ") * u))"),
      Item.lit (str "\nvk.gammaABC.len() = "),
      Item.hole (natDec vk.ic.length),
      Item.lit (str "\n")]
    ⟨hax, hay, hbx0, hbx1, hby0, hby1, hgx0, hgx1, hgy0, hgy1, hdx0, hdx1,
      hdy0, hdy1, natDec_good vk.ic.length, True.intro⟩
    (by rw [← check_shape]; exact checkVk4)
    (vkBody (g1V3 vk.alpha_g1) (g2V1 vk.beta_g2) (g2V1 vk.gamma_g2)
        (g2V1 vk.delta_g2) (natDec vk.ic.length) [])
    (vkBody (g1V3 vk.alpha_g1) (g2V4 vk.beta_g2) (g2V4 vk.gamma_g2)
        (g2V4 vk.delta_g2) (natDec vk.ic.length) [])
    (by simp [g1V3, g2V1, vkBody, expandA, List.append_assoc, str])
    (by simp [g1V3, g2V4, vkBody, expandB, List.append_assoc, str])
    (icMid g1V3 0 vk.ic)
  have e4 : vkBody (g1V3 vk.alpha_g1) (g2V1 vk.beta_g2) (g2V1 vk.gamma_g2)
        (g2V1 vk.delta_g2) (natDec vk.ic.length) (icMid g1V3 0 vk.ic) =
      (vkBody (g1V3 vk.alpha_g1) (g2V1 vk.beta_g2) (g2V1 vk.gamma_g2)
        (g2V1 vk.delta_g2) (natDec vk.ic.length) []) ++ icMid g1V3 0 vk.ic := by
    simp [vkBody, List.append_assoc]
  have t4 : replaceAll (str ") + Fq(") (str ", ") (vkBody (g1V3 vk.alpha_g1) (g2V1 vk.beta_g2) (g2V1 vk.gamma_g2)
        (g2V1 vk.delta_g2) (natDec vk.ic.length) (icMid g1V3 0 vk.ic)) =
      vkBody (g1V3 vk.alpha_g1) (g2V4 vk.beta_g2) (g2V4 vk.gamma_g2)
        (g2V4 vk.delta_g2) (natDec vk.ic.length) (icMid g1V3 0 vk.ic) := by
    rw [e4, s4, icReg_v4 vk.ic 0 hic]
    simp [vkBody, List.append_assoc]
  have s5 := skel_step (str "))") (str "]") ')' (str ")") rfl (by decide)
    [Item.lit (str "vk.alpha = "),
      Item.lit (str "["),
      Item.hole vk.alpha_g1.x,
      Item.lit (str ", "),
      Item.hole vk.alpha_g1.y,
      Item.hit,
      Item.lit (str "\nvk.beta = "),
      Item.lit (str "[["),
      Item.hole vk.beta_g2.x0,
      Item.lit (str ", "),
      Item.hole vk.beta_g2.x1,
      Item.lit (str ") * u), y=Fq2(Fq("),
      Item.hole vk.beta_g2.y0,
      Item.lit (str ", "),
      Item.hole vk.beta_g2.y1,
      Item.lit (str ") * u"),
      Item.hit,
      Item.lit (str "\nvk.gamma = "),
      Item.lit (str "[["),
      Item.hole vk.gamma_g2.x0,
      Item.lit (str ", "),
      Item.hole vk.gamma_g2.x1,
      Item.lit (str ") * u), y=Fq2(Fq("),
      Item.hole vk.gamma_g2.y0,
      Item.lit (str ", "),
      Item.hole vk.gamma_g2.y1,
      Item.lit (str ") * u"),
      Item.hit,
      Item.lit (str "\nvk.delta = "),
      Item.lit (str "[["),
      Item.hole vk.delta_g2.x0,
      Item.lit (str ", "),
      Item.hole vk.delta_g2.x1,
      Item.lit (str ") * u), y=Fq2(Fq("),
      Item.hole vk.delta_g2.y0,
      Item.lit (str ", "),
      Item.hole vk.delta_g2.y1,
      Item.lit (str ") * u"),
      Item.hit,
      Item.lit (str "\nvk.gammaABC.len() = "),
      Item.hole (natDec vk.ic.length),
      Item.lit (str "\n")]
    ⟨hax, hay, hbx0, hbx1, hby0, hby1, hgx0, hgx1, hgy0, hgy1, hdx0, hdx1,
      hdy0, hdy1, natDec_good vk.ic.length, True.intro⟩
    (by rw [← check_shape]; exact checkVk5)
    (vkBody (g1V3 vk.alpha_g1) (g2V4 vk.beta_g2) (g2V4 vk.gamma_g2)
        (g2V4 vk.delta_g2) (natDec vk.ic.length) [])
    (vkBody (g1Bracket vk.alpha_g1) (g2V5 vk.beta_g2) (g2V5 vk.gamma_g2)
        (g2V5 vk.delta_g2) (natDec vk.ic.length) [])
    (by simp [g1V3, g2V4, vkBody, expandA, List.append_assoc, str])
    (by simp [g1Bracket, g2V5, vkBody, expandB, List.append_assoc, str])
    (icMid g1V3 0 vk.ic)
  have e5 : vkBody (g1V3 vk.alpha_g1) (g2V4 vk.beta_g2) (g2V4 vk.gamma_g2)
        (g2V4 vk.delta_g2) (natDec vk.ic.length) (icMid g1V3 0 vk.ic) =
      (vkBody (g1V3 vk.alpha_g1) (g2V4 vk.beta_g2) (g2V4 vk.gamma_g2)
        (g2V4 vk.delta_g2) (natDec vk.ic.length) []) ++ icMid g1V3 0 vk.ic := by
    simp [vkBody, List.append_assoc]
  have t5 : replaceAll (str "))") (str "]") (vkBody (g1V3 vk.alpha_g1) (g2V4 vk.beta_g2) (g2V4 vk.gamma_g2)
        (g2V4 vk.delta_g2) (natDec vk.ic.length) (icMid g1V3 0 vk.ic)) =
      vkBody (g1Bracket vk.alpha_g1) (g2V5 vk.beta_g2) (g2V5 vk.gamma_g2)
        (g2V5 vk.delta_g2) (natDec vk.ic.length) (icMid g1Bracket 0 vk.ic) := by
    rw [e5, s5, icReg_v5 vk.ic 0 hic]
    simp [vkBody, List.append_assoc]
  have s6 := skel_step (str ") * u), y=Fq2(Fq(") (str "], [") ')' (str " * u), y=Fq2(Fq(") rfl (by decide)
    [Item.lit (str "vk.alpha = "),
      Item.lit (str "["),
      Item.hole vk.alpha_g1.x,
      Item.lit (str ", "),
      Item.hole vk.alpha_g1.y,
      Item.lit (str "]"),
      Item.lit (str "\nvk.beta = "),
      Item.lit (str "[["),
      Item.hole vk.beta_g2.x0,
      Item.lit (str ", "),
      Item.hole vk.beta_g2.x1,
      Item.hit,
      Item.hole vk.beta_g2.y0,
      Item.lit (str ", "),
      Item.hole vk.beta_g2.y1,
      Item.lit (str ") * u]"),
      Item.lit (str "\nvk.gamma = "),
      Item.lit (str "[["),
      Item.hole vk.gamma_g2.x0,
      Item.lit (str ", "),
      Item.hole vk.gamma_g2.x1,
      Item.hit,
      Item.hole vk.gamma_g2.y0,
      Item.lit (str ", "),
      Item.hole vk.gamma_g2.y1,
      Item.lit (str ") * u]"),
      Item.lit (str "\nvk.delta = "),
      Item.lit (str "[["),
      Item.hole vk.delta_g2.x0,
      Item.lit (str ", "),
      Item.hole vk.delta_g2.x1,
      Item.hit,
      Item.hole vk.delta_g2.y0,
      Item.lit (str ", "),
      Item.hole vk.delta_g2.y1,
      Item.lit (str ") * u]"),
      Item.lit (str "\nvk.gammaABC.len() = "),
      Item.hole (natDec vk.ic.length),
      Item.lit (str "\n")]
    ⟨hax, hay, hbx0, hbx1, hby0, hby1, hgx0, hgx1, hgy0, hgy1, hdx0, hdx1,
      hdy0, hdy1, natDec_good vk.ic.length, True.intro⟩
    (by rw [← check_shape]; exact checkVk6)
    (vkBody (g1Bracket vk.alpha_g1) (g2V5 vk.beta_g2) (g2V5 vk.gamma_g2)
        (g2V5 vk.delta_g2) (natDec vk.ic.length) [])
    (vkBody (g1Bracket vk.alpha_g1) (g2V6 vk.beta_g2) (g2V6 vk.gamma_g2)
        (g2V6 vk.delta_g2) (natDec vk.ic.length) [])
    (by simp [g1Bracket, g2V5, vkBody, expandA, List.append_assoc, str])
    (by simp [g1Bracket, g2V6, vkBody, expandB, List.append_assoc, str])
    (icMid g1Bracket 0 vk.ic)
  have e6 : vkBody (g1Bracket vk.alpha_g1) (g2V5 vk.beta_g2) (g2V5 vk.gamma_g2)
        (g2V5 vk.delta_g2) (natDec vk.ic.length) (icMid g1Bracket 0 vk.ic) =
      (vkBody (g1Bracket vk.alpha_g1) (g2V5 vk.beta_g2) (g2V5 vk.gamma_g2)
        (g2V5 vk.delta_g2) (natDec vk.ic.length) []) ++ icMid g1Bracket 0 vk.ic := by
    simp [vkBody, List.append_assoc]
  have t6 : replaceAll (str ") * u), y=Fq2(Fq(") (str "], [") (vkBody (g1Bracket vk.alpha_g1) (g2V5 vk.beta_g2) (g2V5 vk.gamma_g2)
        (g2V5 vk.delta_g2) (natDec vk.ic.length) (icMid g1Bracket 0 vk.ic)) =
      vkBody (g1Bracket vk.alpha_g1) (g2V6 vk.beta_g2) (g2V6 vk.gamma_g2)
        (g2V6 vk.delta_g2) (natDec vk.ic.length) (icMid g1Bracket 0 vk.ic) := by
    rw [e6, s6, icReg_v6 vk.ic 0 hic]
    simp [vkBody, List.append_assoc]
  have s7 := skel_step (str ") * u]") (str "]]") ')' (str " * u]") rfl (by decide)
    [Item.lit (str "vk.alpha = "),
      Item.lit (str "["),
      Item.hole vk.alpha_g1.x,
      Item.lit (str ", "),
      Item.hole vk.alpha_g1.y,
      Item.lit (str "]"),
      Item.lit (str "\nvk.beta = "),
      Item.lit (str "[["),
      Item.hole vk.beta_g2.x0,
      Item.lit (str ", "),
      Item.hole vk.beta_g2.x1,
      Item.lit (str "], ["),
      Item.hole vk.beta_g2.y0,
      Item.lit (str ", "),
      Item.hole vk.beta_g2.y1,
      Item.hit,
      Item.lit (str "\nvk.gamma = "),
      Item.lit (str "[["),
      Item.hole vk.gamma_g2.x0,
      Item.lit (str ", "),
      Item.hole vk.gamma_g2.x1,
      Item.lit (str "], ["),
      Item.hole vk.gamma_g2.y0,
      Item.lit (str ", "),
      Item.hole vk.gamma_g2.y1,
      Item.hit,
      Item.lit (str "\nvk.delta = "),
      Item.lit (str "[["),
      Item.hole vk.delta_g2.x0,
      Item.lit (str ", "),
      Item.hole vk.delta_g2.x1,
      Item.lit (str "], ["),
      Item.hole vk.delta_g2.y0,
      Item.lit (str ", "),
      Item.hole vk.delta_g2.y1,
      Item.hit,
      Item.lit (str "\nvk.gammaABC.len() = "),
      Item.hole (natDec vk.ic.length),
      Item.lit (str "\n")]
    ⟨hax, hay, hbx0, hbx1, hby0, hby1, hgx0, hgx1, hgy0, hgy1, hdx0, hdx1,
      hdy0, hdy1, natDec_good vk.ic.length, True.intro⟩
    (by rw [← check_shape]; exact checkVk7)
    (vkBody (g1Bracket vk.alpha_g1) (g2V6 vk.beta_g2) (g2V6 vk.gamma_g2)
        (g2V6 vk.delta_g2) (natDec vk.ic.length) [])
    (vkBody (g1Bracket vk.alpha_g1) (g2Bracket vk.beta_g2) (g2Bracket vk.gamma_g2)
        (g2Bracket vk.delta_g2) (natDec vk.ic.length) [])
    (by simp [g1Bracket, g2V6, vkBody, expandA, List.append_assoc, str])
    (by simp [g1Bracket, g2Bracket, vkBody, expandB, List.append_assoc, str])
    (icMid g1Bracket 0 vk.ic)
  have e7 : vkBody (g1Bracket vk.alpha_g1) (g2V6 vk.beta_g2) (g2V6 vk.gamma_g2)
        (g2V6 vk.delta_g2) (natDec vk.ic.length) (icMid g1Bracket 0 vk.ic) =
      (vkBody (g1Bracket vk.alpha_g1) (g2V6 vk.beta_g2) (g2V6 vk.gamma_g2)
        (g2V6 vk.delta_g2) (natDec vk.ic.length) []) ++ icMid g1Bracket 0 vk.ic := by
    simp [vkBody, List.append_assoc]
  have t7 : replaceAll (str ") * u]") (str "]]") (vkBody (g1Bracket vk.alpha_g1) (g2V6 vk.beta_g2) (g2V6 vk.gamma_g2)
        (g2V6 vk.delta_g2) (natDec vk.ic.length) (icMid g1Bracket 0 vk.ic)) =
      vkText vk := by
    rw [e7, s7, icReg_v7 vk.ic 0 hic]
    simp [vkText, vkBody, List.append_assoc]
  show replaceAll (str ") * u]") (str "]]")
    (replaceAll (str ") * u), y=Fq2(Fq(") (str "], [")
      (replaceAll (str "))") (str "]")
        (replaceAll (str ") + Fq(") (str ", ")
          (replaceAll (str "G1(x=Fq(") (str "[")
            (replaceAll (str "), y=Fq(") (str ", ")
              (replaceAll (str "G2(x=Fq2(Fq(") (str "[[") (vkRaw vk))))))) = vkText vk
  rw [t1, t2, t3, t4, t5, t6]
  exact t7

set_option maxRecDepth 100000 in
/-- C8 counterexample: on a concrete verifying key the serializer output
equals the alpha, beta, gamma, delta rendering and differs from the
rendering in the claimed order alpha, delta, beta, gamma. -/
theorem c8_line_order_counterexample :
    serialize_vk vkEx = vkText vkEx ∧ serialize_vk vkEx ≠ vkTextClaimOrder vkEx := by
  constructor
  · decide
  · decide

set_option maxRecDepth 100000 in
theorem c8_serialize_vk_amended_witness :
    serialize_vk vkEx = vkText vkEx :=
  c8_serialize_vk_amended vkEx (by decide) (by decide) (by decide) (by decide)
    (by decide) (by decide) (by decide) (by decide) (by decide) (by decide)
    (by decide) (by decide) (by decide) (by decide) (by decide)

/-- Occurrence-scan certificate for pass 1 of `serialize_proof`, on the
payload-erased skeleton of the proof text. -/
theorem checkPf1 : check (str "G2(x=Fq2(Fq(")
    [Item.lit (str "\x7b\n    \"proof\": \x7b\n        \"a\": "),
      Item.lit (str "G1(x=Fq("),
      Item.hole [],
      Item.lit (str "), y=Fq("),
      Item.hole [],
      Item.lit (str "))"),
      Item.lit (str ",\n        \"b\": "),
      Item.hit,
      Item.hole [],
      Item.lit (str ") + Fq("),
      Item.hole [],
      Item.lit (str ") * u), y=Fq2(Fq("),
      Item.hole [],
      Item.lit (str ") + Fq("),
      Item.hole [],
      Item.lit (str ") * u))"),
      Item.lit (str ",\n        \"c\": "),
      Item.lit (str "G1(x=Fq("),
      Item.hole [],
      Item.lit (str "), y=Fq("),
      Item.hole [],
      Item.lit (str "))"),
      Item.lit (str "\n    \x7d,\n    \"inputs\": [")] = true := by decide

/-- Occurrence-scan certificate for pass 2 of `serialize_proof`, on the
payload-erased skeleton of the proof text. -/
theorem checkPf2 : check (str "), y=Fq(")
    [Item.lit (str "\x7b\n    \"proof\": \x7b\n        \"a\": "),
      Item.lit (str "G1(x=Fq("),
      Item.hole [],
      Item.hit,
      Item.hole [],
      Item.lit (str "))"),
      Item.lit (str ",\n        \"b\": "),
      Item.lit (str "[[\""),
      Item.hole [],
      Item.lit (str ") + Fq("),
      Item.hole [],
      Item.lit (str ") * u), y=Fq2(Fq("),
      Item.hole [],
      Item.lit (str ") + Fq("),
      Item.hole [],
      Item.lit (str ") * u))"),
      Item.lit (str ",\n        \"c\": "),
      Item.lit (str "G1(x=Fq("),
      Item.hole [],
      Item.hit,
      Item.hole [],
      Item.lit (str "))"),
      Item.lit (str "\n    \x7d,\n    \"inputs\": [")] = true := by decide

/-- Occurrence-scan certificate for pass 3 of `serialize_proof`, on the
payload-erased skeleton of the proof text. -/
theorem checkPf3 : check (str "G1(x=Fq(")
    [Item.lit (str "\x7b\n    \"proof\": \x7b\n        \"a\": "),
      Item.hit,
      Item.hole [],
      Item.lit (str "\", \""),
      Item.hole [],
      Item.lit (str "))"),
      Item.lit (str ",\n        \"b\": "),
      Item.lit (str "[[\""),
      Item.hole [],
      Item.lit (str ") + Fq("),
      Item.hole [],
      Item.lit (str ") * u), y=Fq2(Fq("),
      Item.hole [],
      Item.lit (str ") + Fq("),
      Item.hole [],
      Item.lit (str ") * u))"),
      Item.lit (str ",\n        \"c\": "),
      Item.hit,
      Item.hole [],
      Item.lit (str "\", \""),
      Item.hole [],
      Item.lit (str "))"),
      Item.lit (str "\n    \x7d,\n    \"inputs\": [")] = true := by decide

/-- Occurrence-scan certificate for pass 4 of `serialize_proof`, on the
payload-erased skeleton of the proof text. -/
theorem checkPf4 : check (str ") + Fq(")
    [Item.lit (str "\x7b\n    \"proof\": \x7b\n        \"a\": "),
      Item.lit (str "[\""),
      Item.hole [],
      Item.lit (str "\", \""),
      Item.hole [],
      Item.lit (str "))"),
      Item.lit (str ",\n        \"b\": "),
      Item.lit (str "[[\""),
      Item.hole [],
      Item.hit,
      Item.hole [],
      Item.lit (str ") * u), y=Fq2(Fq("),
      Item.hole [],
      Item.hit,
      Item.hole [],
      Item.lit (str ") * u))"),
      Item.lit (str ",\n        \"c\": "),
      Item.lit (str "[\""),
      Item.hole [],
      Item.lit (str "\", \""),
      Item.hole [],
      Item.lit (str "))"),
      Item.lit (str "\n    \x7d,\n    \"inputs\": [")] = true := by decide

/-- Occurrence-scan certificate for pass 5 of `serialize_proof`, on the
payload-erased skeleton of the proof text. -/
theorem checkPf5 : check (str ") * u), y=Fq2(Fq(")
    [Item.lit (str "\x7b\n    \"proof\": \x7b\n        \"a\": "),
      Item.lit (str "[\""),
      Item.hole [],
      Item.lit (str "\", \""),
      Item.hole [],
      Item.lit (str "))"),
      Item.lit (str ",\n        \"b\": "),
      Item.lit (str "[[\""),
      Item.hole [],
      Item.lit (str "\", \""),
      Item.hole [],
      Item.hit,
      Item.hole [],
      Item.lit (str "\", \""),
      Item.hole [],
      Item.lit (str ") * u))"),
      Item.lit (str ",\n        \"c\": "),
      Item.lit (str "[\""),
      Item.hole [],
      Item.lit (str "\", \""),
      Item.hole [],
      Item.lit (str "))"),
      Item.lit (str "\n    \x7d,\n    \"inputs\": [")] = true := by decide

/-- Occurrence-scan certificate for pass 6 of `serialize_proof`, on the
payload-erased skeleton of the proof text. -/
theorem checkPf6 : check (str ") * u]")
    [Item.lit (str "\x7b\n    \"proof\": \x7b\n        \"a\": "),
      Item.lit (str "[\""),
      Item.hole [],
      Item.lit (str "\", \""),
      Item.hole [],
      Item.lit (str "))"),
      Item.lit (str ",\n        \"b\": "),
      Item.lit (str "[[\""),
      Item.hole [],
      Item.lit (str "\", \""),
      Item.hole [],
      Item.lit (str "\"], [\""),
      Item.hole [],
      Item.lit (str "\", \""),
      Item.hole [],
      Item.lit (str ") * u))"),
      Item.lit (str ",\n        \"c\": "),
      Item.lit (str "[\""),
      Item.hole [],
      Item.lit (str "\", \""),
      Item.hole [],
      Item.lit (str "))"),
      Item.lit (str "\n    \x7d,\n    \"inputs\": [")] = true := by decide

/-- Occurrence-scan certificate for pass 7 of `serialize_proof`, on the
payload-erased skeleton of the proof text. -/
theorem checkPf7 : check (str ") * u))")
    [Item.lit (str "\x7b\n    \"proof\": \x7b\n        \"a\": "),
      Item.lit (str "[\""),
      Item.hole [],
      Item.lit (str "\", \""),
      Item.hole [],
      Item.lit (str "))"),
      Item.lit (str ",\n        \"b\": "),
      Item.lit (str "[[\""),
      Item.hole [],
      Item.lit (str "\", \""),
      Item.hole [],
      Item.lit (str "\"], [\""),
      Item.hole [],
      Item.lit (str "\", \""),
      Item.hole [],
      Item.hit,
      Item.lit (str ",\n        \"c\": "),
      Item.lit (str "[\""),
      Item.hole [],
      Item.lit (str "\", \""),
      Item.hole [],
      Item.lit (str "))"),
      Item.lit (str "\n    \x7d,\n    \"inputs\": [")] = true := by decide

/-- Occurrence-scan certificate for pass 8 of `serialize_proof`, on the
payload-erased skeleton of the proof text. -/
theorem checkPf8 : check (str "))")
    [Item.lit (str "\x7b\n    \"proof\": \x7b\n        \"a\": "),
      Item.lit (str "[\""),
      Item.hole [],
      Item.lit (str "\", \""),
      Item.hole [],
      Item.hit,
      Item.lit (str ",\n        \"b\": "),
      Item.lit (str "[[\""),
      Item.hole [],
      Item.lit (str "\", \""),
      Item.hole [],
      Item.lit (str "\"], [\""),
      Item.hole [],
      Item.lit (str "\", \""),
      Item.hole [],
      Item.lit (str "\"]]"),
      Item.lit (str ",\n        \"c\": "),
      Item.lit (str "[\""),
      Item.hole [],
      Item.lit (str "\", \""),
      Item.hole [],
      Item.hit,
      Item.lit (str "\n    \x7d,\n    \"inputs\": [")] = true := by decide

/-- Occurrence-scan certificate for pass 9 of `serialize_proof`, on the
payload-erased skeleton of the proof text. -/
theorem checkPf9 : check (str "Fr(")
    [Item.lit (str "\x7b\n    \"proof\": \x7b\n        \"a\": "),
      Item.lit (str "[\""),
      Item.hole [],
      Item.lit (str "\", \""),
      Item.hole [],
      Item.lit (str "\"]"),
      Item.lit (str ",\n        \"b\": "),
      Item.lit (str "[[\""),
      Item.hole [],
      Item.lit (str "\", \""),
      Item.hole [],
      Item.lit (str "\"], [\""),
      Item.hole [],
      Item.lit (str "\", \""),
      Item.hole [],
      Item.lit (str "\"]]"),
      Item.lit (str ",\n        \"c\": "),
      Item.lit (str "[\""),
      Item.hole [],
      Item.lit (str "\", \""),
      Item.hole [],
      Item.lit (str "\"]"),
      Item.lit (str "\n    \x7d,\n    \"inputs\": [")] = true := by decide

/-- Occurrence-scan certificate for pass 10 of `serialize_proof`, on the
payload-erased skeleton of the proof text. -/
theorem checkPf10 : check (str ")")
    [Item.lit (str "\x7b\n    \"proof\": \x7b\n        \"a\": "),
      Item.lit (str "[\""),
      Item.hole [],
      Item.lit (str "\", \""),
      Item.hole [],
      Item.lit (str "\"]"),
      Item.lit (str ",\n        \"b\": "),
      Item.lit (str "[[\""),
      Item.hole [],
      Item.lit (str "\", \""),
      Item.hole [],
      Item.lit (str "\"], [\""),
      Item.hole [],
      Item.lit (str "\", \""),
      Item.hole [],
      Item.lit (str "\"]]"),
      Item.lit (str ",\n        \"c\": "),
      Item.lit (str "[\""),
      Item.hole [],
      Item.lit (str "\", \""),
      Item.hole [],
      Item.lit (str "\"]"),
      Item.lit (str "\n    \x7d,\n    \"inputs\": [")] = true := by decide

set_option maxHeartbeats 2000000 in
set_option maxRecDepth 8000 in
/-- C4: `serialize_proof` produces the JSON-shaped proof text: an object
with `proof.a`, `proof.b`, `proof.c` holding the bracketed,
quoted-coordinate points and `inputs` holding each public input as a
quoted canonical decimal in vector order — whenever every displayed proof
coordinate is a nonempty numeral string, the ten replacement passes turn
the `format!` text into exactly `proofJson`. -/
theorem c4_serialize_proof (pf : BProof) (ins : List FValue)
    (hax : GoodStr pf.a.x) (hay : GoodStr pf.a.y)
    (hbx0 : GoodStr pf.b.x0) (hbx1 : GoodStr pf.b.x1)
    (hby0 : GoodStr pf.b.y0) (hby1 : GoodStr pf.b.y1)
    (hcx : GoodStr pf.c.x) (hcy : GoodStr pf.c.y) :
    serialize_proof pf ins = proofJson pf ins := by
  have s1 := skel_step (str "G2(x=Fq2(Fq(") (str "[[\"") 'G' (str "2(x=Fq2(Fq(") rfl (by decide)
    [Item.lit (str "\x7b\n    \"proof\": \x7b\n        \"a\": "),
      Item.lit (str "G1(x=Fq("),
      Item.hole pf.a.x,
      Item.lit (str "), y=Fq("),
      Item.hole pf.a.y,
      Item.lit (str "))"),
      Item.lit (str ",\n        \"b\": "),
      Item.hit,
      Item.hole pf.b.x0,
      Item.lit (str ") + Fq("),
      Item.hole pf.b.x1,
      Item.lit (str ") * u), y=Fq2(Fq("),
      Item.hole pf.b.y0,
      Item.lit (str ") + Fq("),
      Item.hole pf.b.y1,
      Item.lit (str ") * u))"),
      Item.lit (str ",\n        \"c\": "),
      Item.lit (str "G1(x=Fq("),
      Item.hole pf.c.x,
      Item.lit (str "), y=Fq("),
      Item.hole pf.c.y,
      Item.lit (str "))"),
      Item.lit (str "\n    \x7d,\n    \"inputs\": [")]
    ⟨hax, hay, hbx0, hbx1, hby0, hby1, hcx, hcy, True.intro⟩
    (by rw [← check_shape]; exact checkPf1)
    ((str "\x7b\n    \"proof\": \x7b\n        \"a\": " ++ ((G1Point.display pf.a) ++ (str ",\n        \"b\": " ++ ((G2Point.display pf.b) ++
      (str ",\n        \"c\": " ++ ((G1Point.display pf.c) ++ str "\n    \x7d,\n    \"inputs\": [")))))))
    ((str "\x7b\n    \"proof\": \x7b\n        \"a\": " ++ ((G1Point.display pf.a) ++ (str ",\n        \"b\": " ++ ((g2Pass1 pf.b) ++
      (str ",\n        \"c\": " ++ ((G1Point.display pf.c) ++ str "\n    \x7d,\n    \"inputs\": [")))))))
    (by simp [G1Point.display, G2Point.display, expandA, List.append_assoc, str])
    (by simp [G1Point.display, G2Point.display, g2Pass1, expandB, List.append_assoc, str])
    (quotedInputs ins ++ str "]\n\x7d")
  have e1 : proofRaw pf ins =
      ((str "\x7b\n    \"proof\": \x7b\n        \"a\": " ++ ((G1Point.display pf.a) ++ (str ",\n        \"b\": " ++ ((G2Point.display pf.b) ++
      (str ",\n        \"c\": " ++ ((G1Point.display pf.c) ++ str "\n    \x7d,\n    \"inputs\": ["))))))) ++ (quotedInputs ins ++ str "]\n\x7d") := by
    simp [proofRaw, proofBody, List.append_assoc]
  have t1 : replaceAll (str "G2(x=Fq2(Fq(") (str "[[\"") (proofRaw pf ins) =
      proofBody (G1Point.display pf.a) (g2Pass1 pf.b) (G1Point.display pf.c)
      (quotedInputs ins) := by
    rw [e1, s1, quotedInputs_transparent (str "G2(x=Fq2(Fq(") (str "[[\"") 'G' (str "2(x=Fq2(Fq(") rfl (by decide)
      (fun d => rfl) (fun d => rfl) ins (str "]\n\x7d"),
      show replaceAll (str "G2(x=Fq2(Fq(") (str "[[\"") (str "]\n\x7d") = str "]\n\x7d" from by decide]
    simp [proofBody, List.append_assoc]
  have s2 := skel_step (str "), y=Fq(") (str "\", \"") ')' (str ", y=Fq(") rfl (by decide)
    [Item.lit (str "\x7b\n    \"proof\": \x7b\n        \"a\": "),
      Item.lit (str "G1(x=Fq("),
      Item.hole pf.a.x,
      Item.hit,
      Item.hole pf.a.y,
      Item.lit (str "))"),
      Item.lit (str ",\n        \"b\": "),
      Item.lit (str "[[\""),
      Item.hole pf.b.x0,
      Item.lit (str ") + Fq("),
      Item.hole pf.b.x1,
      Item.lit (str ") * u), y=Fq2(Fq("),
      Item.hole pf.b.y0,
      Item.lit (str ") + Fq("),
      Item.hole pf.b.y1,
      Item.lit (str ") * u))"),
      Item.lit (str ",\n        \"c\": "),
      Item.lit (str "G1(x=Fq("),
      Item.hole pf.c.x,
      Item.hit,
      Item.hole pf.c.y,
      Item.lit (str "))"),
      Item.lit (str "\n    \x7d,\n    \"inputs\": [")]
    ⟨hax, hay, hbx0, hbx1, hby0, hby1, hcx, hcy, True.intro⟩
    (by rw [← check_shape]; exact checkPf2)
    ((str "\x7b\n    \"proof\": \x7b\n        \"a\": " ++ ((G1Point.display pf.a) ++ (str ",\n        \"b\": " ++ ((g2Pass1 pf.b) ++
      (str ",\n        \"c\": " ++ ((G1Point.display pf.c) ++ str "\n    \x7d,\n    \"inputs\": [")))))))
    ((str "\x7b\n    \"proof\": \x7b\n        \"a\": " ++ ((g1Pass2 pf.a) ++ (str ",\n        \"b\": " ++ ((g2Pass1 pf.b) ++
      (str ",\n        \"c\": " ++ ((g1Pass2 pf.c) ++ str "\n    \x7d,\n    \"inputs\": [")))))))
    (by simp [G1Point.display, G2Point.display, g2Pass1, expandA, List.append_assoc, str])
    (by simp [g1Pass2, g2Pass1, expandB, List.append_assoc, str])
    (quotedInputs ins ++ str "]\n\x7d")
  have e2 : proofBody (G1Point.display pf.a) (g2Pass1 pf.b) (G1Point.display pf.c)
      (quotedInputs ins) =
      ((str "\x7b\n    \"proof\": \x7b\n        \"a\": " ++ ((G1Point.display pf.a) ++ (str ",\n        \"b\": " ++ ((g2Pass1 pf.b) ++
      (str ",\n        \"c\": " ++ ((G1Point.display pf.c) ++ str "\n    \x7d,\n    \"inputs\": ["))))))) ++ (quotedInputs ins ++ str "]\n\x7d") := by
    simp [proofBody, List.append_assoc]
  have t2 : replaceAll (str "), y=Fq(") (str "\", \"") (proofBody (G1Point.display pf.a) (g2Pass1 pf.b) (G1Point.display pf.c)
      (quotedInputs ins)) =
      proofBody (g1Pass2 pf.a) (g2Pass1 pf.b) (g1Pass2 pf.c)
      (quotedInputs ins) := by
    rw [e2, s2, quotedInputs_transparent (str "), y=Fq(") (str "\", \"") ')' (str ", y=Fq(") rfl (by decide)
      (fun d => rfl) (fun d => rfl) ins (str "]\n\x7d"),
      show replaceAll (str "), y=Fq(") (str "\", \"") (str "]\n\x7d") = str "]\n\x7d" from by decide]
    simp [proofBody, List.append_assoc]
  have s3 := skel_step (str "G1(x=Fq(") (str "[\"") 'G' (str "1(x=Fq(") rfl (by decide)
    [Item.lit (str "\x7b\n    \"proof\": \x7b\n        \"a\": "),
      Item.hit,
      Item.hole pf.a.x,
      Item.lit (str "\", \""),
      Item.hole pf.a.y,
      Item.lit (str "))"),
      Item.lit (str ",\n        \"b\": "),
      Item.lit (str "[[\""),
      Item.hole pf.b.x0,
      Item.lit (str ") + Fq("),
      Item.hole pf.b.x1,
      Item.lit (str ") * u), y=Fq2(Fq("),
      Item.hole pf.b.y0,
      Item.lit (str ") + Fq("),
      Item.hole pf.b.y1,
      Item.lit (str ") * u))"),
      Item.lit (str ",\n        \"c\": "),
      Item.hit,
      Item.hole pf.c.x,
      Item.lit (str "\", \""),
      Item.hole pf.c.y,
      Item.lit (str "))"),
      Item.lit (str "\n    \x7d,\n    \"inputs\": [")]
    ⟨hax, hay, hbx0, hbx1, hby0, hby1, hcx, hcy, True.intro⟩
    (by rw [← check_shape]; exact checkPf3)
    ((str "\x7b\n    \"proof\": \x7b\n        \"a\": " ++ ((g1Pass2 pf.a) ++ (str ",\n        \"b\": " ++ ((g2Pass1 pf.b) ++
      (str ",\n        \"c\": " ++ ((g1Pass2 pf.c) ++ str "\n    \x7d,\n    \"inputs\": [")))))))
    ((str "\x7b\n    \"proof\": \x7b\n        \"a\": " ++ ((g1Pass3 pf.a) ++ (str ",\n        \"b\": " ++ ((g2Pass1 pf.b) ++
      (str ",\n        \"c\": " ++ ((g1Pass3 pf.c) ++ str "\n    \x7d,\n    \"inputs\": [")))))))
    (by simp [g1Pass2, g2Pass1, expandA, List.append_assoc, str])
    (by simp [g1Pass3, g2Pass1, expandB, List.append_assoc, str])
    (quotedInputs ins ++ str "]\n\x7d")
  have e3 : proofBody (g1Pass2 pf.a) (g2Pass1 pf.b) (g1Pass2 pf.c)
      (quotedInputs ins) =
      ((str "\x7b\n    \"proof\": \x7b\n        \"a\": " ++ ((g1Pass2 pf.a) ++ (str ",\n        \"b\": " ++ ((g2Pass1 pf.b) ++
      (str ",\n        \"c\": " ++ ((g1Pass2 pf.c) ++ str "\n    \x7d,\n    \"inputs\": ["))))))) ++ (quotedInputs ins ++ str "]\n\x7d") := by
    simp [proofBody, List.append_assoc]
  have t3 : replaceAll (str "G1(x=Fq(") (str "[\"") (proofBody (g1Pass2 pf.a) (g2Pass1 pf.b) (g1Pass2 pf.c)
      (quotedInputs ins)) =
      proofBody (g1Pass3 pf.a) (g2Pass1 pf.b) (g1Pass3 pf.c)
      (quotedInputs ins) := by
    rw [e3, s3, quotedInputs_transparent (str "G1(x=Fq(") (str "[\"") 'G' (str "1(x=Fq(") rfl (by decide)
      (fun d => rfl) (fun d => rfl) ins (str "]\n\x7d"),
      show replaceAll (str "G1(x=Fq(") (str "[\"") (str "]\n\x7d") = str "]\n\x7d" from by decide]
    simp [proofBody, List.append_assoc]
  have s4 := skel_step (str ") + Fq(") (str "\", \"") ')' (str " + Fq(") rfl (by decide)
    [Item.lit (str "\x7b\n    \"proof\": \x7b\n        \"a\": "),
      Item.lit (str "[\""),
      Item.hole pf.a.x,
      Item.lit (str "\", \""),
      Item.hole pf.a.y,
      Item.lit (str "))"),
      Item.lit (str ",\n        \"b\": "),
      Item.lit (str "[[\""),
      Item.hole pf.b.x0,
      Item.hit,
      Item.hole pf.b.x1,
      Item.lit (str ") * u), y=Fq2(Fq("),
      Item.hole pf.b.y0,
      Item.hit,
      Item.hole pf.b.y1,
      Item.lit (str ") * u))"),
      Item.lit (str ",\n        \"c\": "),
      Item.lit (str "[\""),
      Item.hole pf.c.x,
      Item.lit (str "\", \""),
      Item.hole pf.c.y,
      Item.lit (str "))"),
      Item.lit (str "\n    \x7d,\n    \"inputs\": [")]
    ⟨hax, hay, hbx0, hbx1, hby0, hby1, hcx, hcy, True.intro⟩
    (by rw [← check_shape]; exact checkPf4)
    ((str "\x7b\n    \"proof\": \x7b\n        \"a\": " ++ ((g1Pass3 pf.a) ++ (str ",\n        \"b\": " ++ ((g2Pass1 pf.b) ++
      (str ",\n        \"c\": " ++ ((g1Pass3 pf.c) ++ str "\n    \x7d,\n    \"inputs\": [")))))))
    ((str "\x7b\n    \"proof\": \x7b\n        \"a\": " ++ ((g1Pass3 pf.a) ++ (str ",\n        \"b\": " ++ ((g2Pass4 pf.b) ++
      (str ",\n        \"c\": " ++ ((g1Pass3 pf.c) ++ str "\n    \x7d,\n    \"inputs\": [")))))))
    (by simp [g1Pass3, g2Pass1, expandA, List.append_assoc, str])
    (by simp [g1Pass3, g2Pass4, expandB, List.append_assoc, str])
    (quotedInputs ins ++ str "]\n\x7d")
  have e4 : proofBody (g1Pass3 pf.a) (g2Pass1 pf.b) (g1Pass3 pf.c)
      (quotedInputs ins) =
      ((str "\x7b\n    \"proof\": \x7b\n        \"a\": " ++ ((g1Pass3 pf.a) ++ (str ",\n        \"b\": " ++ ((g2Pass1 pf.b) ++
      (str ",\n        \"c\": " ++ ((g1Pass3 pf.c) ++ str "\n    \x7d,\n    \"inputs\": ["))))))) ++ (quotedInputs ins ++ str "]\n\x7d") := by
    simp [proofBody, List.append_assoc]
  have t4 : replaceAll (str ") + Fq(") (str "\", \"") (proofBody (g1Pass3 pf.a) (g2Pass1 pf.b) (g1Pass3 pf.c)
      (quotedInputs ins)) =
      proofBody (g1Pass3 pf.a) (g2Pass4 pf.b) (g1Pass3 pf.c)
      (quotedInputs ins) := by
    rw [e4, s4, quotedInputs_transparent (str ") + Fq(") (str "\", \"") ')' (str " + Fq(") rfl (by decide)
      (fun d => rfl) (fun d => rfl) ins (str "]\n\x7d"),
      show replaceAll (str ") + Fq(") (str "\", \"") (str "]\n\x7d") = str "]\n\x7d" from by decide]
    simp [proofBody, List.append_assoc]
  have s5 := skel_step (str ") * u), y=Fq2(Fq(") (str "\"], [\"") ')' (str " * u), y=Fq2(Fq(") rfl (by decide)
    [Item.lit (str "\x7b\n    \"proof\": \x7b\n        \"a\": "),
      Item.lit (str "[\""),
      Item.hole pf.a.x,
      Item.lit (str "\", \""),
      Item.hole pf.a.y,
      Item.lit (str "))"),
      Item.lit (str ",\n        \"b\": "),
      Item.lit (str "[[\""),
      Item.hole pf.b.x0,
      Item.lit (str "\", \""),
      Item.hole pf.b.x1,
      Item.hit,
      Item.hole pf.b.y0,
      Item.lit (str "\", \""),
      Item.hole pf.b.y1,
      Item.lit (str ") * u))"),
      Item.lit (str ",\n        \"c\": "),
      Item.lit (str "[\""),
      Item.hole pf.c.x,
      Item.lit (str "\", \""),
      Item.hole pf.c.y,
      Item.lit (str "))"),
      Item.lit (str "\n    \x7d,\n    \"inputs\": [")]
    ⟨hax, hay, hbx0, hbx1, hby0, hby1, hcx, hcy, True.intro⟩
    (by rw [← check_shape]; exact checkPf5)
    ((str "\x7b\n    \"proof\": \x7b\n        \"a\": " ++ ((g1Pass3 pf.a) ++ (str ",\n        \"b\": " ++ ((g2Pass4 pf.b) ++
      (str ",\n        \"c\": " ++ ((g1Pass3 pf.c) ++ str "\n    \x7d,\n    \"inputs\": [")))))))
    ((str "\x7b\n    \"proof\": \x7b\n        \"a\": " ++ ((g1Pass3 pf.a) ++ (str ",\n        \"b\": " ++ ((g2Pass5 pf.b) ++
      (str ",\n        \"c\": " ++ ((g1Pass3 pf.c) ++ str "\n    \x7d,\n    \"inputs\": [")))))))
    (by simp [g1Pass3, g2Pass4, expandA, List.append_assoc, str])
    (by simp [g1Pass3, g2Pass5, expandB, List.append_assoc, str])
    (quotedInputs ins ++ str "]\n\x7d")
  have e5 : proofBody (g1Pass3 pf.a) (g2Pass4 pf.b) (g1Pass3 pf.c)
      (quotedInputs ins) =
      ((str "\x7b\n    \"proof\": \x7b\n        \"a\": " ++ ((g1Pass3 pf.a) ++ (str ",\n        \"b\": " ++ ((g2Pass4 pf.b) ++
      (str ",\n        \"c\": " ++ ((g1Pass3 pf.c) ++ str "\n    \x7d,\n    \"inputs\": ["))))))) ++ (quotedInputs ins ++ str "]\n\x7d") := by
    simp [proofBody, List.append_assoc]
  have t5 : replaceAll (str ") * u), y=Fq2(Fq(") (str "\"], [\"") (proofBody (g1Pass3 pf.a) (g2Pass4 pf.b) (g1Pass3 pf.c)
      (quotedInputs ins)) =
      proofBody (g1Pass3 pf.a) (g2Pass5 pf.b) (g1Pass3 pf.c)
      (quotedInputs ins) := by
    rw [e5, s5, quotedInputs_transparent (str ") * u), y=Fq2(Fq(") (str "\"], [\"") ')' (str " * u), y=Fq2(Fq(") rfl (by decide)
      (fun d => rfl) (fun d => rfl) ins (str "]\n\x7d"),
      show replaceAll (str ") * u), y=Fq2(Fq(") (str "\"], [\"") (str "]\n\x7d") = str "]\n\x7d" from by decide]
    simp [proofBody, List.append_assoc]
  have s6 := skel_step (str ") * u]") (str "\"]]") ')' (str " * u]") rfl (by decide)
    [Item.lit (str "\x7b\n    \"proof\": \x7b\n        \"a\": "),
      Item.lit (str "[\""),
      Item.hole pf.a.x,
      Item.lit (str "\", \""),
      Item.hole pf.a.y,
      Item.lit (str "))"),
      Item.lit (str ",\n        \"b\": "),
      Item.lit (str "[[\""),
      Item.hole pf.b.x0,
      Item.lit (str "\", \""),
      Item.hole pf.b.x1,
      Item.lit (str "\"], [\""),
      Item.hole pf.b.y0,
      Item.lit (str "\", \""),
      Item.hole pf.b.y1,
      Item.lit (str ") * u))"),
      Item.lit (str ",\n        \"c\": "),
      Item.lit (str "[\""),
      Item.hole pf.c.x,
      Item.lit (str "\", \""),
      Item.hole pf.c.y,
      Item.lit (str "))"),
      Item.lit (str "\n    \x7d,\n    \"inputs\": [")]
    ⟨hax, hay, hbx0, hbx1, hby0, hby1, hcx, hcy, True.intro⟩
    (by rw [← check_shape]; exact checkPf6)
    ((str "\x7b\n    \"proof\": \x7b\n        \"a\": " ++ ((g1Pass3 pf.a) ++ (str ",\n        \"b\": " ++ ((g2Pass5 pf.b) ++
      (str ",\n        \"c\": " ++ ((g1Pass3 pf.c) ++ str "\n    \x7d,\n    \"inputs\": [")))))))
    ((str "\x7b\n    \"proof\": \x7b\n        \"a\": " ++ ((g1Pass3 pf.a) ++ (str ",\n        \"b\": " ++ ((g2Pass5 pf.b) ++
      (str ",\n        \"c\": " ++ ((g1Pass3 pf.c) ++ str "\n    \x7d,\n    \"inputs\": [")))))))
    (by simp [g1Pass3, g2Pass5, expandA, List.append_assoc, str])
    (by simp [g1Pass3, g2Pass5, expandB, List.append_assoc, str])
    (quotedInputs ins ++ str "]\n\x7d")
  have e6 : proofBody (g1Pass3 pf.a) (g2Pass5 pf.b) (g1Pass3 pf.c)
      (quotedInputs ins) =
      ((str "\x7b\n    \"proof\": \x7b\n        \"a\": " ++ ((g1Pass3 pf.a) ++ (str ",\n        \"b\": " ++ ((g2Pass5 pf.b) ++
      (str ",\n        \"c\": " ++ ((g1Pass3 pf.c) ++ str "\n    \x7d,\n    \"inputs\": ["))))))) ++ (quotedInputs ins ++ str "]\n\x7d") := by
    simp [proofBody, List.append_assoc]
  have t6 : replaceAll (str ") * u]") (str "\"]]") (proofBody (g1Pass3 pf.a) (g2Pass5 pf.b) (g1Pass3 pf.c)
      (quotedInputs ins)) =
      proofBody (g1Pass3 pf.a) (g2Pass5 pf.b) (g1Pass3 pf.c)
      (quotedInputs ins) := by
    rw [e6, s6, quotedInputs_transparent (str ") * u]") (str "\"]]") ')' (str " * u]") rfl (by decide)
      (fun d => rfl) (fun d => rfl) ins (str "]\n\x7d"),
      show replaceAll (str ") * u]") (str "\"]]") (str "]\n\x7d") = str "]\n\x7d" from by decide]
  have s7 := skel_step (str ") * u))") (str "\"]]") ')' (str " * u))") rfl (by decide)
    [Item.lit (str "\x7b\n    \"proof\": \x7b\n        \"a\": "),
      Item.lit (str "[\""),
      Item.hole pf.a.x,
      Item.lit (str "\", \""),
      Item.hole pf.a.y,
      Item.lit (str "))"),
      Item.lit (str ",\n        \"b\": "),
      Item.lit (str "[[\""),
      Item.hole pf.b.x0,
      Item.lit (str "\", \""),
      Item.hole pf.b.x1,
      Item.lit (str "\"], [\""),
      Item.hole pf.b.y0,
      Item.lit (str "\", \""),
      Item.hole pf.b.y1,
      Item.hit,
      Item.lit (str ",\n        \"c\": "),
      Item.lit (str "[\""),
      Item.hole pf.c.x,
      Item.lit (str "\", \""),
      Item.hole pf.c.y,
      Item.lit (str "))"),
      Item.lit (str "\n    \x7d,\n    \"inputs\": [")]
    ⟨hax, hay, hbx0, hbx1, hby0, hby1, hcx, hcy, True.intro⟩
    (by rw [← check_shape]; exact checkPf7)
    ((str "\x7b\n    \"proof\": \x7b\n        \"a\": " ++ ((g1Pass3 pf.a) ++ (str ",\n        \"b\": " ++ ((g2Pass5 pf.b) ++
      (str ",\n        \"c\": " ++ ((g1Pass3 pf.c) ++ str "\n    \x7d,\n    \"inputs\": [")))))))
    ((str "\x7b\n    \"proof\": \x7b\n        \"a\": " ++ ((g1Pass3 pf.a) ++ (str ",\n        \"b\": " ++ ((g2Quoted pf.b) ++
      (str ",\n        \"c\": " ++ ((g1Pass3 pf.c) ++ str "\n    \x7d,\n    \"inputs\": [")))))))
    (by simp [g1Pass3, g2Pass5, expandA, List.append_assoc, str])
    (by simp [g1Pass3, g2Quoted, expandB, List.append_assoc, str])
    (quotedInputs ins ++ str "]\n\x7d")
  have e7 : proofBody (g1Pass3 pf.a) (g2Pass5 pf.b) (g1Pass3 pf.c)
      (quotedInputs ins) =
      ((str "\x7b\n    \"proof\": \x7b\n        \"a\": " ++ ((g1Pass3 pf.a) ++ (str ",\n        \"b\": " ++ ((g2Pass5 pf.b) ++
      (str ",\n        \"c\": " ++ ((g1Pass3 pf.c) ++ str "\n    \x7d,\n    \"inputs\": ["))))))) ++ (quotedInputs ins ++ str "]\n\x7d") := by
    simp [proofBody, List.append_assoc]
  have t7 : replaceAll (str ") * u))") (str "\"]]") (proofBody (g1Pass3 pf.a) (g2Pass5 pf.b) (g1Pass3 pf.c)
      (quotedInputs ins)) =
      proofBody (g1Pass3 pf.a) (g2Quoted pf.b) (g1Pass3 pf.c)
      (quotedInputs ins) := by
    rw [e7, s7, quotedInputs_transparent (str ") * u))") (str "\"]]") ')' (str " * u))") rfl (by decide)
      (fun d => rfl) (fun d => rfl) ins (str "]\n\x7d"),
      show replaceAll (str ") * u))") (str "\"]]") (str "]\n\x7d") = str "]\n\x7d" from by decide]
    simp [proofBody, List.append_assoc]
  have s8 := skel_step (str "))") (str "\"]") ')' (str ")") rfl (by decide)
    [Item.lit (str "\x7b\n    \"proof\": \x7b\n        \"a\": "),
      Item.lit (str "[\""),
      Item.hole pf.a.x,
      Item.lit (str "\", \""),
      Item.hole pf.a.y,
      Item.hit,
      Item.lit (str ",\n        \"b\": "),
      Item.lit (str "[[\""),
      Item.hole pf.b.x0,
      Item.lit (str "\", \""),
      Item.hole pf.b.x1,
      Item.lit (str "\"], [\""),
      Item.hole pf.b.y0,
      Item.lit (str "\", \""),
      Item.hole pf.b.y1,
      Item.lit (str "\"]]"),
      Item.lit (str ",\n        \"c\": "),
      Item.lit (str "[\""),
      Item.hole pf.c.x,
      Item.lit (str "\", \""),
      Item.hole pf.c.y,
      Item.hit,
      Item.lit (str "\n    \x7d,\n    \"inputs\": [")]
    ⟨hax, hay, hbx0, hbx1, hby0, hby1, hcx, hcy, True.intro⟩
    (by rw [← check_shape]; exact checkPf8)
    ((str "\x7b\n    \"proof\": \x7b\n        \"a\": " ++ ((g1Pass3 pf.a) ++ (str ",\n        \"b\": " ++ ((g2Quoted pf.b) ++
      (str ",\n        \"c\": " ++ ((g1Pass3 pf.c) ++ str "\n    \x7d,\n    \"inputs\": [")))))))
    ((str "\x7b\n    \"proof\": \x7b\n        \"a\": " ++ ((g1Quoted pf.a) ++ (str ",\n        \"b\": " ++ ((g2Quoted pf.b) ++
      (str ",\n        \"c\": " ++ ((g1Quoted pf.c) ++ str "\n    \x7d,\n    \"inputs\": [")))))))
    (by simp [g1Pass3, g2Quoted, expandA, List.append_assoc, str])
    (by simp [g1Quoted, g2Quoted, expandB, List.append_assoc, str])
    (quotedInputs ins ++ str "]\n\x7d")
  have e8 : proofBody (g1Pass3 pf.a) (g2Quoted pf.b) (g1Pass3 pf.c)
      (quotedInputs ins) =
      ((str "\x7b\n    \"proof\": \x7b\n        \"a\": " ++ ((g1Pass3 pf.a) ++ (str ",\n        \"b\": " ++ ((g2Quoted pf.b) ++
      (str ",\n        \"c\": " ++ ((g1Pass3 pf.c) ++ str "\n    \x7d,\n    \"inputs\": ["))))))) ++ (quotedInputs ins ++ str "]\n\x7d") := by
    simp [proofBody, List.append_assoc]
  have t8 : replaceAll (str "))") (str "\"]") (proofBody (g1Pass3 pf.a) (g2Quoted pf.b) (g1Pass3 pf.c)
      (quotedInputs ins)) =
      proofBody (g1Quoted pf.a) (g2Quoted pf.b) (g1Quoted pf.c)
      (quotedInputs ins) := by
    rw [e8, s8, quotedInputs_transparent (str "))") (str "\"]") ')' (str ")") rfl (by decide)
      (fun d => rfl) (fun d => rfl) ins (str "]\n\x7d"),
      show replaceAll (str "))") (str "\"]") (str "]\n\x7d") = str "]\n\x7d" from by decide]
    simp [proofBody, List.append_assoc]
  have s9 := skel_step (str "Fr(") [] 'F' (str "r(") rfl (by decide)
    [Item.lit (str "\x7b\n    \"proof\": \x7b\n        \"a\": "),
      Item.lit (str "[\""),
      Item.hole pf.a.x,
      Item.lit (str "\", \""),
      Item.hole pf.a.y,
      Item.lit (str "\"]"),
      Item.lit (str ",\n        \"b\": "),
      Item.lit (str "[[\""),
      Item.hole pf.b.x0,
      Item.lit (str "\", \""),
      Item.hole pf.b.x1,
      Item.lit (str "\"], [\""),
      Item.hole pf.b.y0,
      Item.lit (str "\", \""),
      Item.hole pf.b.y1,
      Item.lit (str "\"]]"),
      Item.lit (str ",\n        \"c\": "),
      Item.lit (str "[\""),
      Item.hole pf.c.x,
      Item.lit (str "\", \""),
      Item.hole pf.c.y,
      Item.lit (str "\"]"),
      Item.lit (str "\n    \x7d,\n    \"inputs\": [")]
    ⟨hax, hay, hbx0, hbx1, hby0, hby1, hcx, hcy, True.intro⟩
    (by rw [← check_shape]; exact checkPf9)
    ((str "\x7b\n    \"proof\": \x7b\n        \"a\": " ++ ((g1Quoted pf.a) ++ (str ",\n        \"b\": " ++ ((g2Quoted pf.b) ++
      (str ",\n        \"c\": " ++ ((g1Quoted pf.c) ++ str "\n    \x7d,\n    \"inputs\": [")))))))
    ((str "\x7b\n    \"proof\": \x7b\n        \"a\": " ++ ((g1Quoted pf.a) ++ (str ",\n        \"b\": " ++ ((g2Quoted pf.b) ++
      (str ",\n        \"c\": " ++ ((g1Quoted pf.c) ++ str "\n    \x7d,\n    \"inputs\": [")))))))
    (by simp [g1Quoted, g2Quoted, expandA, List.append_assoc, str])
    (by simp [g1Quoted, g2Quoted, expandB, List.append_assoc, str])
    (quotedInputs ins ++ str "]\n\x7d")
  have e9 : proofBody (g1Quoted pf.a) (g2Quoted pf.b) (g1Quoted pf.c)
      (quotedInputs ins) =
      ((str "\x7b\n    \"proof\": \x7b\n        \"a\": " ++ ((g1Quoted pf.a) ++ (str ",\n        \"b\": " ++ ((g2Quoted pf.b) ++
      (str ",\n        \"c\": " ++ ((g1Quoted pf.c) ++ str "\n    \x7d,\n    \"inputs\": ["))))))) ++ (quotedInputs ins ++ str "]\n\x7d") := by
    simp [proofBody, List.append_assoc]
  have t9 : replaceAll (str "Fr(") [] (proofBody (g1Quoted pf.a) (g2Quoted pf.b) (g1Quoted pf.c)
      (quotedInputs ins)) =
      proofBody (g1Quoted pf.a) (g2Quoted pf.b) (g1Quoted pf.c)
      (inputsNoFr ins) := by
    rw [e9, s9, quotedInputs_pass9 ins (str "]\n\x7d"),
      show replaceAll (str "Fr(") [] (str "]\n\x7d") = str "]\n\x7d" from by decide]
    simp [proofBody, List.append_assoc]
  have s10 := skel_step (str ")") [] ')' ([] : List Char) rfl (by decide)
    [Item.lit (str "\x7b\n    \"proof\": \x7b\n        \"a\": "),
      Item.lit (str "[\""),
      Item.hole pf.a.x,
      Item.lit (str "\", \""),
      Item.hole pf.a.y,
      Item.lit (str "\"]"),
      Item.lit (str ",\n        \"b\": "),
      Item.lit (str "[[\""),
      Item.hole pf.b.x0,
      Item.lit (str "\", \""),
      Item.hole pf.b.x1,
      Item.lit (str "\"], [\""),
      Item.hole pf.b.y0,
      Item.lit (str "\", \""),
      Item.hole pf.b.y1,
      Item.lit (str "\"]]"),
      Item.lit (str ",\n        \"c\": "),
      Item.lit (str "[\""),
      Item.hole pf.c.x,
      Item.lit (str "\", \""),
      Item.hole pf.c.y,
      Item.lit (str "\"]"),
      Item.lit (str "\n    \x7d,\n    \"inputs\": [")]
    ⟨hax, hay, hbx0, hbx1, hby0, hby1, hcx, hcy, True.intro⟩
    (by rw [← check_shape]; exact checkPf10)
    ((str "\x7b\n    \"proof\": \x7b\n        \"a\": " ++ ((g1Quoted pf.a) ++ (str ",\n        \"b\": " ++ ((g2Quoted pf.b) ++
      (str ",\n        \"c\": " ++ ((g1Quoted pf.c) ++ str "\n    \x7d,\n    \"inputs\": [")))))))
    ((str "\x7b\n    \"proof\": \x7b\n        \"a\": " ++ ((g1Quoted pf.a) ++ (str ",\n        \"b\": " ++ ((g2Quoted pf.b) ++
      (str ",\n        \"c\": " ++ ((g1Quoted pf.c) ++ str "\n    \x7d,\n    \"inputs\": [")))))))
    (by simp [g1Quoted, g2Quoted, expandA, List.append_assoc, str])
    (by simp [g1Quoted, g2Quoted, expandB, List.append_assoc, str])
    (inputsNoFr ins ++ str "]\n\x7d")
  have e10 : proofBody (g1Quoted pf.a) (g2Quoted pf.b) (g1Quoted pf.c)
      (inputsNoFr ins) =
      ((str "\x7b\n    \"proof\": \x7b\n        \"a\": " ++ ((g1Quoted pf.a) ++ (str ",\n        \"b\": " ++ ((g2Quoted pf.b) ++
      (str ",\n        \"c\": " ++ ((g1Quoted pf.c) ++ str "\n    \x7d,\n    \"inputs\": ["))))))) ++ (inputsNoFr ins ++ str "]\n\x7d") := by
    simp [proofBody, List.append_assoc]
  have t10 : replaceAll (str ")") [] (proofBody (g1Quoted pf.a) (g2Quoted pf.b) (g1Quoted pf.c)
      (inputsNoFr ins)) =
      proofJson pf ins := by
    rw [e10, s10, inputsNoFr_pass10 ins (str "]\n\x7d"),
      show replaceAll (str ")") [] (str "]\n\x7d") = str "]\n\x7d" from by decide]
    simp [proofJson, proofBody, List.append_assoc]
  show replaceAll (str ")") []
    (replaceAll (str "Fr(") []
      (replaceAll (str "))") (str "\"]")
        (replaceAll (str ") * u))") (str "\"]]")
          (replaceAll (str ") * u]") (str "\"]]")
            (replaceAll (str ") * u), y=Fq2(Fq(") (str "\"], [\"")
              (replaceAll (str ") + Fq(") (str "\", \"")
                (replaceAll (str "G1(x=Fq(") (str "[\"")
                  (replaceAll (str "), y=Fq(") (str "\", \"")
                    (replaceAll (str "G2(x=Fq2(Fq(") (str "[[\"")
                      (proofRaw pf ins)))))))))) = proofJson pf ins
  rw [t1, t2, t3, t4, t5, t6, t7, t8, t9]
  exact t10

set_option maxRecDepth 100000 in
theorem c4_serialize_proof_witness :
    serialize_proof pfEx [42, 7] = proofJson pfEx [42, 7] :=
  c4_serialize_proof pfEx [42, 7] (by decide) (by decide) (by decide) (by decide)
    (by decide) (by decide) (by decide) (by decide)

end Bellman
